import Mathlib

/-!
# Cyclone DDS security core: a shallow embedding of `ddsi_security_omg.c`

The definitions follow the C functions of `src/core/ddsi/src/ddsi_security_omg.c`
and keep their names.  Unsigned 32-bit masks are natural numbers, plugin handles
(`int64_t`) are integers with `0` as the nil handle, pointers to entities are the
GUIDs of the entities, receive buffers are a byte memory indexed by address.
Locks, logging and tracing have no effect on the modelled state and are left out;
`assert` is compiled out (release build) unless stated otherwise.
-/

namespace DDSSecurity

/-! ## Protocol constants (declared in headers outside the translated sources) -/

/-- Modelled from the spec: the nil plugin handle (section 3, "value 0 is reserved as nil");
`DDS_SECURITY_HANDLE_NIL` is declared in `dds_security_api.h`. -/
def DDS_SECURITY_HANDLE_NIL : Int := 0

/-- Modelled from the spec: validity bit of an endpoint attribute mask; the declaration
(`ddsi_security_msg.h`) is missing, the value is bit 31 as fixed by DDS Security. -/
def NN_ENDPOINT_SECURITY_ATTRIBUTES_FLAG_IS_VALID : Nat := 0x80000000

/-- Modelled from the spec: submessage-protection flag of an endpoint attribute mask
(bit 3 in DDS Security); the declaration is missing from the sources. -/
def NN_ENDPOINT_SECURITY_ATTRIBUTES_FLAG_IS_SUBMESSAGE_PROTECTED : Nat := 0x8

/-- Modelled from the spec: read-protection flag of an endpoint attribute mask (bit 0 in
DDS Security); the declaration is missing from the sources. -/
def NN_ENDPOINT_SECURITY_ATTRIBUTES_FLAG_IS_READ_PROTECTED : Nat := 0x1

/-- Modelled from the spec: write-protection flag of an endpoint attribute mask (bit 1);
the declaration is missing from the sources. -/
def NN_ENDPOINT_SECURITY_ATTRIBUTES_FLAG_IS_WRITE_PROTECTED : Nat := 0x2

/-- Modelled from the spec: discovery-protection flag of an endpoint attribute mask (bit 2);
the declaration is missing from the sources. -/
def NN_ENDPOINT_SECURITY_ATTRIBUTES_FLAG_IS_DISCOVERY_PROTECTED : Nat := 0x4

/-- Modelled from the spec: payload-protection flag of an endpoint attribute mask (bit 4);
the declaration is missing from the sources. -/
def NN_ENDPOINT_SECURITY_ATTRIBUTES_FLAG_IS_PAYLOAD_PROTECTED : Nat := 0x10

/-- Modelled from the spec: key-protection flag of an endpoint attribute mask (bit 5);
the declaration is missing from the sources. -/
def NN_ENDPOINT_SECURITY_ATTRIBUTES_FLAG_IS_KEY_PROTECTED : Nat := 0x20

/-- Modelled from the spec: liveliness-protection flag of an endpoint attribute mask (bit 6);
the declaration is missing from the sources. -/
def NN_ENDPOINT_SECURITY_ATTRIBUTES_FLAG_IS_LIVELINESS_PROTECTED : Nat := 0x40

/-- Modelled from the spec: validity bit of a participant attribute mask (bit 31);
the declaration is missing from the sources. -/
def NN_PARTICIPANT_SECURITY_ATTRIBUTES_FLAG_IS_VALID : Nat := 0x80000000

/-- Modelled from the spec: RTPS-protection flag of a participant attribute mask (bit 0);
the declaration is missing from the sources. -/
def NN_PARTICIPANT_SECURITY_ATTRIBUTES_FLAG_IS_RTPS_PROTECTED : Nat := 0x1

/-- Modelled from the spec: discovery-protection flag of a participant attribute mask
(bit 1); the declaration is missing from the sources. -/
def NN_PARTICIPANT_SECURITY_ATTRIBUTES_FLAG_IS_DISCOVERY_PROTECTED : Nat := 0x2

/-- Modelled from the spec: liveliness-protection flag of a participant attribute mask
(bit 2); the declaration is missing from the sources. -/
def NN_PARTICIPANT_SECURITY_ATTRIBUTES_FLAG_IS_LIVELINESS_PROTECTED : Nat := 0x4

/-- Modelled from the spec: submessage id of the padding submessage (RTPS `PAD`);
the enumeration `SubmessageKind_t` is missing from the sources. -/
def SMID_PAD : Nat := 0x01

/-- Modelled from the spec: submessage id of `SEC_BODY` (section 6); enumeration missing. -/
def SMID_SEC_BODY : Nat := 0x30

/-- Modelled from the spec: submessage id of `SEC_PREFIX` (section 6); enumeration missing. -/
def SMID_SEC_PREFIX : Nat := 0x31

/-- Modelled from the spec: submessage id of `SEC_POSTFIX` (section 6); enumeration missing. -/
def SMID_SEC_POSTFIX : Nat := 0x32

/-- Modelled from the spec: size of a submessage header (id, flags, 16-bit length);
`RTPS_SUBMESSAGE_HEADER_SIZE` is declared in `q_protocol.h`. -/
def RTPS_SUBMESSAGE_HEADER_SIZE : Nat := 4

/-- Modelled from the spec: `UINT16_MAX` of `stdint.h`. -/
def UINT16_MAX : Nat := 65535

/-- Modelled from the spec: entity id of the secure publications discovery writer. -/
def NN_ENTITYID_SEDP_BUILTIN_PUBLICATIONS_SECURE_WRITER : Nat := 0xff0003c2
/-- Modelled from the spec: entity id of the secure publications discovery reader. -/
def NN_ENTITYID_SEDP_BUILTIN_PUBLICATIONS_SECURE_READER : Nat := 0xff0003c7
/-- Modelled from the spec: entity id of the secure subscriptions discovery writer. -/
def NN_ENTITYID_SEDP_BUILTIN_SUBSCRIPTIONS_SECURE_WRITER : Nat := 0xff0004c2
/-- Modelled from the spec: entity id of the secure subscriptions discovery reader. -/
def NN_ENTITYID_SEDP_BUILTIN_SUBSCRIPTIONS_SECURE_READER : Nat := 0xff0004c7
/-- Modelled from the spec: entity id of the secure participant message writer. -/
def NN_ENTITYID_P2P_BUILTIN_PARTICIPANT_MESSAGE_SECURE_WRITER : Nat := 0xff0200c2
/-- Modelled from the spec: entity id of the secure participant message reader. -/
def NN_ENTITYID_P2P_BUILTIN_PARTICIPANT_MESSAGE_SECURE_READER : Nat := 0xff0200c7
/-- Modelled from the spec: entity id of the volatile secure message writer. -/
def NN_ENTITYID_P2P_BUILTIN_PARTICIPANT_VOLATILE_SECURE_WRITER : Nat := 0xff0202c3
/-- Modelled from the spec: entity id of the volatile secure message reader. -/
def NN_ENTITYID_P2P_BUILTIN_PARTICIPANT_VOLATILE_SECURE_READER : Nat := 0xff0202c4
/-- Modelled from the spec: entity id of the secure participant discovery writer. -/
def NN_ENTITYID_SPDP_RELIABLE_BUILTIN_PARTICIPANT_SECURE_WRITER : Nat := 0xff0101c2
/-- Modelled from the spec: entity id of the secure participant discovery reader. -/
def NN_ENTITYID_SPDP_RELIABLE_BUILTIN_PARTICIPANT_SECURE_READER : Nat := 0xff0101c7

/-! ## Data model -/

/-- A GUID: 12-byte participant part (as one number) and 32-bit entity id. -/
structure ddsi_guid_t where
  pfx : Nat
  entityid : Nat
deriving DecidableEq, Repr

/-- The pair of attribute masks carried by discovery (`nn_security_info_t`). -/
structure nn_security_info_t where
  security_attributes : Nat
  plugin_security_attributes : Nat
deriving DecidableEq, Repr

/-- The fields of `DDS_Security_ParticipantSecurityAttributes` read by the core. -/
structure DDS_Security_ParticipantSecurityAttributes where
  allow_unauthenticated_participants : Bool
  is_access_protected : Bool
  is_rtps_protected : Bool
  is_discovery_protected : Bool
  is_liveliness_protected : Bool
  plugin_participant_attributes : Nat
deriving DecidableEq, Repr

/-- Element of a local participant `proxy_participants` set. -/
structure pp_proxypp_match where
  proxypp_guid : ddsi_guid_t
  proxypp_crypto_handle : Int
deriving DecidableEq, Repr

/-- Element of a proxy participant `participants` set. -/
structure proxypp_pp_match where
  pp_guid : ddsi_guid_t
  proxypp_identity_handle : Int
  pp_crypto_handle : Int
  proxypp_crypto_handle : Int
  permissions_handle : Int
  shared_secret : Int
deriving DecidableEq, Repr

/-- Security state of a local participant (`struct participant_sec_attributes`). -/
structure participant_sec_attributes where
  attr : DDS_Security_ParticipantSecurityAttributes
  crypto_handle : Int
  plugin_attr : Bool
  proxy_participants : List pp_proxypp_match
deriving DecidableEq, Repr

/-- Security state of a proxy participant (`struct proxy_participant_sec_attributes`). -/
structure proxy_participant_sec_attributes where
  participants : List proxypp_pp_match
deriving DecidableEq, Repr

/-- The fields of `struct participant` used by the security core. -/
structure participant where
  guid : ddsi_guid_t
  sec_attr : Option participant_sec_attributes
  permissions_handle : Int
  local_identity_handle : Int
deriving DecidableEq, Repr

/-- The fields of `struct proxy_participant` used by the security core. -/
structure proxy_participant where
  guid : ddsi_guid_t
  security_info : nn_security_info_t
  sec_attr : Option proxy_participant_sec_attributes
deriving DecidableEq, Repr

/-- The part of `struct entity_common` read on the receive path. -/
structure entity_common where
  guid : ddsi_guid_t
deriving DecidableEq, Repr

/-- The part of `struct proxy_endpoint_common` read on the receive path. -/
structure proxy_endpoint_common where
  security_info : nn_security_info_t
deriving DecidableEq, Repr

/-- The part of `struct receiver_state` read by `validate_msg_decoding`. -/
structure receiver_state where
  rtps_encoded : Bool
deriving DecidableEq, Repr

/-! ## Attribute compatibility (macros at the top of the file) -/

/-- Macro `SECURITY_ATTR_IS_VALID`. -/
def SECURITY_ATTR_IS_VALID (attr : Nat) : Bool :=
  (attr &&& NN_ENDPOINT_SECURITY_ATTRIBUTES_FLAG_IS_VALID) != 0

/-- Macro `SECURITY_ATTR_COMPATIBLE`. -/
def SECURITY_ATTR_COMPATIBLE (attr_a attr_b is_valid_flag : Nat) : Bool :=
  (attr_a == attr_b) ||
  (((attr_a &&& is_valid_flag) == 0) || ((attr_b &&& is_valid_flag) == 0))

/-- Macro `SECURITY_INFO_COMPATIBLE`. -/
def SECURITY_INFO_COMPATIBLE (info_a info_b : nn_security_info_t) (is_valid_flag : Nat) : Bool :=
  SECURITY_ATTR_COMPATIBLE info_a.plugin_security_attributes
      info_b.plugin_security_attributes is_valid_flag
  &&
  SECURITY_ATTR_COMPATIBLE info_a.security_attributes
      info_b.security_attributes is_valid_flag

/-- Macro `SECURITY_INFO_IS_RTPS_PROTECTED`. -/
def SECURITY_INFO_IS_RTPS_PROTECTED (info : nn_security_info_t) : Bool :=
  ((info.security_attributes &&& NN_PARTICIPANT_SECURITY_ATTRIBUTES_FLAG_IS_VALID) != 0) &&
  ((info.security_attributes &&& NN_PARTICIPANT_SECURITY_ATTRIBUTES_FLAG_IS_RTPS_PROTECTED) != 0)

/-! ## Participant predicates and security info -/

/-- Function `q_omg_participant_is_secure`. -/
def q_omg_participant_is_secure (pp : participant) : Bool :=
  match pp.sec_attr with
  | none => false
  | some sa => sa.crypto_handle != DDS_SECURITY_HANDLE_NIL

/-- Function `q_omg_proxy_participant_is_secure`. -/
def q_omg_proxy_participant_is_secure (proxypp : proxy_participant) : Bool :=
  proxypp.sec_attr.isSome

/-- The entity ids listed in the `switch` of `maybe_rtps_protected`. -/
def rtps_protected_builtin_ids : List Nat :=
  [ NN_ENTITYID_SEDP_BUILTIN_PUBLICATIONS_SECURE_WRITER,
    NN_ENTITYID_SEDP_BUILTIN_PUBLICATIONS_SECURE_READER,
    NN_ENTITYID_SEDP_BUILTIN_SUBSCRIPTIONS_SECURE_WRITER,
    NN_ENTITYID_SEDP_BUILTIN_SUBSCRIPTIONS_SECURE_READER,
    NN_ENTITYID_P2P_BUILTIN_PARTICIPANT_MESSAGE_SECURE_WRITER,
    NN_ENTITYID_P2P_BUILTIN_PARTICIPANT_MESSAGE_SECURE_READER,
    NN_ENTITYID_SPDP_RELIABLE_BUILTIN_PARTICIPANT_SECURE_WRITER,
    NN_ENTITYID_SPDP_RELIABLE_BUILTIN_PARTICIPANT_SECURE_READER ]

/-- Function `maybe_rtps_protected`.  The helper `is_builtin_entityid (·, NN_VENDORID_ECLIPSE)`
lives in `q_entity.c`, outside the translated sources, and is a parameter. -/
def maybe_rtps_protected (is_builtin_entityid : Nat → Bool) (entityid : Nat) : Bool :=
  if !is_builtin_entityid entityid then true
  else if entityid ∈ rtps_protected_builtin_ids then true
  else false

/-- Function `q_omg_security_is_remote_rtps_protected`. -/
def q_omg_security_is_remote_rtps_protected (is_builtin_entityid : Nat → Bool)
    (proxypp : proxy_participant) (entityid : Nat) : Bool :=
  q_omg_proxy_participant_is_secure proxypp &&
  SECURITY_INFO_IS_RTPS_PROTECTED proxypp.security_info &&
  maybe_rtps_protected is_builtin_entityid entityid

/-- Function `q_omg_get_participant_security_info`: the return value and `*info`. -/
def q_omg_get_participant_security_info (pp : participant) : Bool × nn_security_info_t :=
  if q_omg_participant_is_secure pp then
    match pp.sec_attr with
    | none => (false, ⟨0, 0⟩)
    | some sa =>
      let attr := sa.attr
      let s0 := NN_ENDPOINT_SECURITY_ATTRIBUTES_FLAG_IS_VALID
      let s1 := if attr.is_discovery_protected then
          s0 ||| NN_PARTICIPANT_SECURITY_ATTRIBUTES_FLAG_IS_DISCOVERY_PROTECTED else s0
      let s2 := if attr.is_liveliness_protected then
          s1 ||| NN_PARTICIPANT_SECURITY_ATTRIBUTES_FLAG_IS_LIVELINESS_PROTECTED else s1
      let s3 := if attr.is_rtps_protected then
          s2 ||| NN_PARTICIPANT_SECURITY_ATTRIBUTES_FLAG_IS_RTPS_PROTECTED else s2
      (true, ⟨s3, attr.plugin_participant_attributes⟩)
  else (false, ⟨0, 0⟩)

/-- Function `q_omg_is_similar_participant_security_info`: the return value and the proxy
participant after the call (its `security_info` may be rewritten). -/
def q_omg_is_similar_participant_security_info (pp : participant) (proxypp : proxy_participant) :
    Bool × proxy_participant :=
  let r := q_omg_get_participant_security_info pp
  if !r.1 then (false, proxypp)
  else
    let pp_security_info := r.2
    let matching := SECURITY_INFO_COMPATIBLE pp_security_info proxypp.security_info
        NN_PARTICIPANT_SECURITY_ATTRIBUTES_FLAG_IS_VALID
    if !matching then (matching, proxypp)
    else
      let sa := if !SECURITY_ATTR_IS_VALID proxypp.security_info.security_attributes
        then pp_security_info.security_attributes
        else proxypp.security_info.security_attributes
      let pa := if !SECURITY_ATTR_IS_VALID proxypp.security_info.plugin_security_attributes
        then pp_security_info.plugin_security_attributes
        else proxypp.security_info.plugin_security_attributes
      (matching, { proxypp with security_info := ⟨sa, pa⟩ })

/-! ## Receive-side validation -/

/-- Function `validate_msg_decoding`. -/
def validate_msg_decoding (is_builtin_entityid : Nat → Bool) (e : entity_common)
    (c : proxy_endpoint_common) (proxypp : proxy_participant) (rst : receiver_state)
    (prev_smid : Nat) : Bool :=
  if (c.security_info.security_attributes &&&
        NN_ENDPOINT_SECURITY_ATTRIBUTES_FLAG_IS_SUBMESSAGE_PROTECTED)
      == NN_ENDPOINT_SECURITY_ATTRIBUTES_FLAG_IS_SUBMESSAGE_PROTECTED
     && prev_smid != SMID_SEC_PREFIX then false
  else if q_omg_security_is_remote_rtps_protected is_builtin_entityid proxypp e.guid.entityid
      && !rst.rtps_encoded then false
  else true

/-! ## Receive buffer and secure submessage framing -/

/-- Byte memory holding the receive buffer; pointers are addresses. -/
abbrev Mem := Nat → Nat

/-- Read of one `uint8_t`. -/
def load_u8 (m : Mem) (a : Nat) : Nat := m a % 256

/-- Read of a `uint16_t` in host byte order (`le` is `DDSRT_ENDIAN == DDSRT_LITTLE_ENDIAN`). -/
def load_u16 (le : Bool) (m : Mem) (a : Nat) : Nat :=
  if le then load_u8 m a + 256 * load_u8 m (a + 1)
  else 256 * load_u8 m a + load_u8 m (a + 1)

/-- Write of one byte. -/
def store_u8 (m : Mem) (a v : Nat) : Mem := fun x => if x = a then v else m x

/-- Write of a `uint16_t` in host byte order. -/
def store_u16 (le : Bool) (m : Mem) (a v : Nat) : Mem :=
  if le then store_u8 (store_u8 m a (v % 256)) (a + 1) (v / 256 % 256)
  else store_u8 (store_u8 m a (v / 256 % 256)) (a + 1) (v % 256)

/-- The bytes `m[a .. a+n)`. -/
def mem_read (m : Mem) (a n : Nat) : List Nat := (List.range n).map (fun i => m (a + i))

/-- Library `memcpy (m + a, bytes, bytes.length)`. -/
def mem_write (m : Mem) (a : Nat) (bytes : List Nat) : Mem :=
  fun x => if a ≤ x ∧ x < a + bytes.length then bytes.getD (x - a) 0 else m x

/-- Helper `ddsrt_bswap2u` on a 16-bit value. -/
def ddsrt_bswap2u (x : Nat) : Nat := (x / 256 % 256) + 256 * (x % 256)

/-- Conversion of a `size_t` to `int32_t` (two-complement wrap). -/
def to_int32 (n : Nat) : Int := ((n + 2147483648) % 4294967296 : Nat) - 2147483648

/-- Function `validate_submsg`.  `end_` and `submsg` are addresses; the pointer difference is
taken in the integers, and the `size_t` cast of a negative difference is not below the
header size. -/
def validate_submsg (le : Bool) (smid : Nat) (m : Mem) (submsg end_ : Nat) (byteswap : Bool) : Int :=
  let d : Int := (end_ : Int) - (submsg : Int)
  if 0 ≤ d ∧ d < (RTPS_SUBMESSAGE_HEADER_SIZE : Int) then -1
  else if load_u8 m submsg ≠ smid ∧ smid ≠ SMID_PAD then -1
  else
    let size0 := load_u16 le m (submsg + 2)
    let size := if byteswap then ddsrt_bswap2u size0 else size0
    let result : Int := (size : Int) + (RTPS_SUBMESSAGE_HEADER_SIZE : Int)
    if d < result then -1 else result

/-- Function `padding_submsg`: return value and buffer afterwards.  The difference `end - start`
is taken under the asserted precondition `end >= start`; the cast to `uint16_t` truncates. -/
def padding_submsg (le : Bool) (m : Mem) (start end_ : Nat) (byteswap : Bool) : Int × Mem :=
  let size := end_ - start
  if size < RTPS_SUBMESSAGE_HEADER_SIZE then (-1, m)
  else
    let m1 := store_u8 m start SMID_PAD
    let flags : Nat := if (if byteswap then !le else le) then 1 else 0
    let m2 := store_u8 m1 (start + 1) flags
    let v := (size - RTPS_SUBMESSAGE_HEADER_SIZE) % 65536
    let v1 := if byteswap then ddsrt_bswap2u v else v
    (to_int32 size, store_u16 le m2 (start + 2) v1)

/-- Outcome of `q_omg_security_decode_submessage`: the return value and `*dst_buf`
(`none` is `NULL`; `*dst_len` is the length of the list). -/
structure decode_result where
  decoded : Bool
  dst_buf : Option (List Nat)
deriving DecidableEq, Repr

/-- Function `decode_SecPrefix_patched_hdr_flags`.  The crypto decode of the triplet is the
parameter `decode`, applied to the bytes of the three submessages.  The result is `none`
when the asserted bound `dst_len <= totalsize - submsg_size` is violated (the copy would
run past the triplet). -/
def decode_SecPrefix_patched_hdr_flags (le : Bool) (decode : List Nat → decode_result)
    (m : Mem) (submsg submsg_size msg_end : Nat) (byteswap : Bool) : Option (Bool × Mem) :=
  let prefix_submsg := submsg
  let body_submsg := submsg + submsg_size
  let smsize := validate_submsg le SMID_PAD m body_submsg msg_end byteswap
  if smsize ≤ 0 then some (false, m)
  else
    let totalsize1 := submsg_size + smsize.toNat
    let postfix_submsg := submsg + totalsize1
    let smsize2 := validate_submsg le SMID_SEC_POSTFIX m postfix_submsg msg_end byteswap
    if smsize2 ≤ 0 then some (false, m)
    else
      let totalsize := totalsize1 + smsize2.toNat
      let r := decode (mem_read m submsg totalsize)
      match r.decoded, r.dst_buf with
      | true, some dst =>
        if load_u8 m body_submsg = SMID_SEC_BODY then
          if dst.length ≤ totalsize - submsg_size then
            let m1 := mem_write m body_submsg dst
            let p := padding_submsg le m1 (body_submsg + dst.length) (prefix_submsg + totalsize) byteswap
            some (decide (p.1 > 0), p.2)
          else none
        else some (decide (smsize2 > 0), m)
      | _, _ =>
        let p := padding_submsg le m body_submsg (prefix_submsg + totalsize) byteswap
        some (decide (p.1 > 0), p.2)

/-- The patching of `hdr->flags` at the start of `decode_SecPrefix`: with `byteswap` the
endianness flag of the prefix header is forced to the byte order of the host. -/
def patch_hdr_flags (le : Bool) (m : Mem) (submsg : Nat) (byteswap : Bool) : Mem :=
  if byteswap then
    (if le then store_u8 m (submsg + 1) (m (submsg + 1) ||| 0x01)
     else store_u8 m (submsg + 1) (m (submsg + 1) &&& 0xFE))
  else m

/-- Function `decode_SecPrefix`: patches the endianness flag of the prefix header, decodes,
and restores the saved flags byte. -/
def decode_SecPrefix (le : Bool) (decode : List Nat → decode_result)
    (m : Mem) (submsg submsg_size msg_end : Nat) (byteswap : Bool) : Option (Bool × Mem) :=
  let saved_flags := m (submsg + 1)
  match decode_SecPrefix_patched_hdr_flags le decode (patch_hdr_flags le m submsg byteswap)
      submsg submsg_size msg_end byteswap with
  | none => none
  | some (result, m1) => some (result, store_u8 m1 (submsg + 1) saved_flags)

/-! ## Matching state: entity match table, participant match sets, deferred cleanup -/

/-- Key of the entity match table (`struct guid_pair`). -/
structure guid_pair where
  src : ddsi_guid_t
  dst : ddsi_guid_t
deriving DecidableEq, Repr

/-- Entry of the entity match table (`struct security_entity_match`); `tokens = none` is the
`NULL` token sequence. -/
structure security_entity_match where
  guids : guid_pair
  matched : Bool
  crypto_handle : Int
  tokens : Option (List Nat)
deriving DecidableEq, Repr

/-- Deferred cleanup record (`struct cleanup_participant_crypto`); it owns the detached
`sec_attr` of the participant. -/
structure cleanup_participant_crypto where
  guid : ddsi_guid_t
  sec_attr : participant_sec_attributes
deriving DecidableEq, Repr

/-- The fields of `DDS_Security_EndpointSecurityAttributes` read by the core. -/
structure DDS_Security_EndpointSecurityAttributes where
  is_read_protected : Bool
  is_write_protected : Bool
  is_discovery_protected : Bool
  is_liveliness_protected : Bool
  is_submessage_protected : Bool
  is_payload_protected : Bool
  is_key_protected : Bool
  plugin_endpoint_attributes : Nat
deriving DecidableEq, Repr

/-- Security state of a local writer (`struct writer_sec_attributes`). -/
structure writer_sec_attributes where
  attr : DDS_Security_EndpointSecurityAttributes
  crypto_handle : Int
  plugin_attr : Bool
deriving DecidableEq, Repr

/-- Security state of a local reader (`struct reader_sec_attributes`). -/
structure reader_sec_attributes where
  attr : DDS_Security_EndpointSecurityAttributes
  crypto_handle : Int
  plugin_attr : Bool
deriving DecidableEq, Repr

/-- The fields of `struct writer` used by the security core; `pp` is the pointer `wr->c.pp`. -/
structure writer where
  guid : ddsi_guid_t
  pp : ddsi_guid_t
  sec_attr : Option writer_sec_attributes
deriving DecidableEq, Repr

/-- The fields of `struct reader` used by the security core; `pp` is the pointer `rd->c.pp`. -/
structure reader where
  guid : ddsi_guid_t
  pp : ddsi_guid_t
  sec_attr : Option reader_sec_attributes
deriving DecidableEq, Repr

/-- Node of the `readers` set of a proxy writer (`struct pwr_rd_match`), as far as the payload
decoding reads it. -/
structure pwr_rd_match where
  rd_guid : ddsi_guid_t
  crypto_handle : Int
deriving DecidableEq, Repr

/-- The fields of `struct proxy_writer` used by the security core: `proxypp` is the pointer
`pwr->c.proxypp`, `c` carries `pwr->c.security_info`, `security_info` is
`pwr->security_info`, `readers` are the nodes of `pwr->readers` in key order. -/
structure proxy_writer where
  guid : ddsi_guid_t
  proxypp : ddsi_guid_t
  c : proxy_endpoint_common
  security_info : nn_security_info_t
  readers : List pwr_rd_match
deriving DecidableEq, Repr

/-- The fields of `struct proxy_reader` used by the security core: `proxypp` is the pointer
`prd->c.proxypp`, `security_info` is `prd->security_info`. -/
structure proxy_reader where
  guid : ddsi_guid_t
  proxypp : ddsi_guid_t
  c : proxy_endpoint_common
  security_info : nn_security_info_t
deriving DecidableEq, Repr

/-- A crypto token message handed to the discovery writers (`write_crypto_reader_tokens`,
`write_crypto_writer_tokens`): local endpoint, remote endpoint, tokens. -/
structure token_message where
  src : ddsi_guid_t
  dst : ddsi_guid_t
  tokens : List Nat
deriving DecidableEq, Repr

/-- A call of `connect_reader_with_proxy_writer_secure` or
`connect_writer_with_proxy_reader_secure`: local endpoint, remote endpoint, crypto handle. -/
structure secure_connection where
  local_guid : ddsi_guid_t
  remote_guid : ddsi_guid_t
  crypto_handle : Int
deriving DecidableEq, Repr

/-- Calls made to the security plugins, in the order they are made. -/
inductive plugin_call where
  | unregister_participant (h : Int)
  | return_permissions_handle (h : Int)
  | return_identity_handle (h : Int)
  | return_participant_sec_attributes
  | get_authenticated_peer_credential_token
  | return_authenticated_peer_credential_token
  | validate_remote_permissions (local_identity remote_identity : Int)
  | check_remote_participant (permissions : Int)
  | register_matched_remote_participant (local_crypto remote_identity permissions shared_secret : Int)
  | set_remote_participant_crypto_tokens (local_crypto remote_crypto : Int) (tokens : List Nat)
  | register_matched_remote_datawriter (local_reader remote_participant shared_secret : Int)
  | register_matched_remote_datareader (local_writer remote_participant shared_secret : Int)
  | set_remote_datawriter_crypto_tokens (local_reader remote_writer : Int) (tokens : List Nat)
  | set_remote_datareader_crypto_tokens (local_writer remote_reader : Int) (tokens : List Nat)
  | create_local_datareader_crypto_tokens (local_reader remote_writer : Int)
  | create_local_datawriter_crypto_tokens (local_writer remote_reader : Int)
  | return_crypto_tokens
  | validate_local_identity
  | get_identity_token (identity : Int)
  | validate_local_permissions (identity : Int)
  | check_create_participant (permissions : Int)
  | get_permissions_token (permissions : Int)
  | get_permissions_credential_token (permissions : Int)
  | set_permissions_credential_and_token (identity : Int)
  | get_participant_sec_attributes (permissions : Int)
  | register_local_participant (identity permissions : Int)
  | return_permissions_token
  | return_permissions_credential_token
  | check_remote_datawriter (permissions : Int)
  | check_remote_datareader (permissions : Int)
  | get_topic_sec_attributes (permissions : Int)
deriving DecidableEq, Repr

/-- The part of `struct ddsi_domaingv` the security core works on.  Entities are addressed by
GUID: `participants` and `proxy_participants` hold the allocated objects, `pp_index` and
`proxypp_index` say which of them the entity index still lists.  `readers`, `proxy_writers`
and `proxy_readers` are the endpoints the entity index lists.  `handshake_notifications`
records the calls of `notify_handshake_recv_token` (local participant, proxy participant),
`sent_tokens` the token messages written, `connections` the secure connections made. -/
structure ddsi_domaingv where
  security_loaded : Bool
  participants : ddsi_guid_t → Option participant
  proxy_participants : ddsi_guid_t → Option proxy_participant
  pp_index : ddsi_guid_t → Bool
  proxypp_index : ddsi_guid_t → Bool
  security_matches : List security_entity_match
  security_garbage : List cleanup_participant_crypto
  xevents : List Int
  plugin_calls : List plugin_call
  readers : ddsi_guid_t → Option reader := fun _ => none
  proxy_writers : ddsi_guid_t → Option proxy_writer := fun _ => none
  proxy_readers : ddsi_guid_t → Option proxy_reader := fun _ => none
  handshake_notifications : List (ddsi_guid_t × ddsi_guid_t) := []
  sent_tokens : List token_message := []
  connections : List secure_connection := []

/-- Function `compare_crypto_handle`. -/
def compare_crypto_handle (ha hb : Int) : Int :=
  if ha > hb then 1 else if ha < hb then -1 else 0

/-- Function `guid_compare`: `memcmp` over the GUID, most significant part first; only the
sign of the result is used by the callers. -/
def guid_compare (guid1 guid2 : ddsi_guid_t) : Int :=
  if guid1.pfx < guid2.pfx then -1
  else if guid1.pfx > guid2.pfx then 1
  else if guid1.entityid < guid2.entityid then -1
  else if guid1.entityid > guid2.entityid then 1
  else 0

/-- Function `compare_guid`. -/
def compare_guid (ga gb : ddsi_guid_t) : Int := guid_compare ga gb

/-- Function `compare_guid_pair`. -/
def compare_guid_pair (na nb : guid_pair) : Int :=
  let r := guid_compare na.src nb.src
  if r = 0 then guid_compare na.dst nb.dst else r

/-- Function `compare_security_attribute`. -/
def compare_security_attribute (sa sb : participant_sec_attributes) : Int :=
  compare_crypto_handle sa.crypto_handle sb.crypto_handle

/-- Modelled from the spec: lookup in an ordered set without duplicates (`ddsrt_avl_lookup`;
the container `avl.c` is missing from the sources).  The set is the list of its nodes in
key order. -/
def avl_lookup {α κ : Type} (cmp : κ → κ → Int) (key : α → κ) (t : List α) (k : κ) : Option α :=
  t.find? (fun n => cmp (key n) k == 0)

/-- Modelled from the spec: insertion into an ordered set without duplicates
(`ddsrt_avl_insert`, missing from the sources).  Inserting a key that is present is outside
the contract of the container and yields `none`. -/
def avl_insert {α κ : Type} (cmp : κ → κ → Int) (key : α → κ) (t : List α) (n : α) :
    Option (List α) :=
  match avl_lookup cmp key t (key n) with
  | some _ => none
  | none => some (t.takeWhile (fun x => decide (cmp (key x) (key n) < 0)) ++
                  n :: t.dropWhile (fun x => decide (cmp (key x) (key n) < 0)))

/-- Modelled from the spec: removal of the node found under a key (`ddsrt_avl_delete`,
`ddsrt_avl_delete_dpath`, missing from the sources). -/
def avl_delete {α κ : Type} (cmp : κ → κ → Int) (key : α → κ) (t : List α) (k : κ) : List α :=
  t.eraseP (fun n => cmp (key n) k == 0)

/-- Modelled from the spec: the entity index lookup `entidx_lookup_participant_guid`
(missing from the sources): the object, if the index lists the GUID. -/
def entidx_lookup_participant_guid (gv : ddsi_domaingv) (g : ddsi_guid_t) : Option participant :=
  if gv.pp_index g then gv.participants g else none

/-- Modelled from the spec: the entity index lookup `entidx_lookup_proxy_participant_guid`
(missing from the sources). -/
def entidx_lookup_proxy_participant_guid (gv : ddsi_domaingv) (g : ddsi_guid_t) :
    Option proxy_participant :=
  if gv.proxypp_index g then gv.proxy_participants g else none

/-- Writes a participant object back (assignment through the pointer). -/
def set_participant (gv : ddsi_domaingv) (pp : participant) : ddsi_domaingv :=
  { gv with participants := fun g => if g = pp.guid then some pp else gv.participants g }

/-- Writes a proxy participant object back (assignment through the pointer). -/
def set_proxy_participant (gv : ddsi_domaingv) (proxypp : proxy_participant) : ddsi_domaingv :=
  { gv with proxy_participants :=
      fun g => if g = proxypp.guid then some proxypp else gv.proxy_participants g }

/-- Appends plugin calls to the record of calls. -/
def log_calls (gv : ddsi_domaingv) (cs : List plugin_call) : ddsi_domaingv :=
  { gv with plugin_calls := gv.plugin_calls ++ cs }

/-- Function `entity_match_new`. -/
def entity_match_new (src dst : ddsi_guid_t) : security_entity_match :=
  { guids := ⟨src, dst⟩, matched := false, crypto_handle := 0, tokens := none }

/-- Function `find_entity_match_locked`. -/
def find_entity_match_locked (list : List security_entity_match) (src dst : ddsi_guid_t) :
    Option security_entity_match :=
  avl_lookup compare_guid_pair (fun m => m.guids) list ⟨src, dst⟩

/-- Function `find_or_create_entity_match`: the table afterwards and the entry returned. -/
def find_or_create_entity_match (list : List security_entity_match) (src dst : ddsi_guid_t) :
    List security_entity_match × security_entity_match :=
  match find_entity_match_locked list src dst with
  | some m => (list, m)
  | none =>
    let m := entity_match_new src dst
    ((avl_insert compare_guid_pair (fun m => m.guids) list m).getD list, m)

/-- Function `remove_entity_match`: the table afterwards and the entry removed, if any. -/
def remove_entity_match (list : List security_entity_match) (src dst : ddsi_guid_t) :
    List security_entity_match × Option security_entity_match :=
  match avl_lookup compare_guid_pair (fun m => m.guids) list ⟨src, dst⟩ with
  | some m => (avl_delete compare_guid_pair (fun m => m.guids) list ⟨src, dst⟩, some m)
  | none => (list, none)

/-- Assignment to the fields of the entry stored under a key (write through the pointer
returned by `find_or_create_entity_match`). -/
def entity_match_assign (list : List security_entity_match) (k : guid_pair)
    (f : security_entity_match → security_entity_match) : List security_entity_match :=
  list.map (fun m => if compare_guid_pair m.guids k == 0 then f m else m)

/-- Function `pp_proxypp_match_new`. -/
def pp_proxypp_match_new (proxypp : proxy_participant) (proxypp_crypto_handle : Int) :
    pp_proxypp_match :=
  { proxypp_guid := proxypp.guid, proxypp_crypto_handle := proxypp_crypto_handle }

/-- Function `pp_proxypp_match_free`: the plugin calls it makes. -/
def pp_proxypp_match_free (pm : pp_proxypp_match) : List plugin_call :=
  if pm.proxypp_crypto_handle ≠ DDS_SECURITY_HANDLE_NIL then
    [plugin_call.unregister_participant pm.proxypp_crypto_handle]
  else []

/-- Function `proxypp_pp_match_new`; the second argument is `pp->sec_attr->crypto_handle`. -/
def proxypp_pp_match_new (pp : participant) (pp_crypto_handle : Int) (identity_handle : Int)
    (proxypp_crypto_handle : Int) (permissions_hdl : Int) (shared_secret : Int) :
    proxypp_pp_match :=
  { pp_guid := pp.guid, proxypp_identity_handle := identity_handle,
    pp_crypto_handle := pp_crypto_handle, proxypp_crypto_handle := proxypp_crypto_handle,
    permissions_handle := permissions_hdl, shared_secret := shared_secret }

/-- Function `proxypp_pp_match_free`: the plugin calls it makes. -/
def proxypp_pp_match_free (pm : proxypp_pp_match) : List plugin_call :=
  (if pm.proxypp_crypto_handle ≠ DDS_SECURITY_HANDLE_NIL then
    [plugin_call.unregister_participant pm.proxypp_crypto_handle] else []) ++
  (if pm.permissions_handle ≠ DDS_SECURITY_HANDLE_NIL then
    [plugin_call.return_permissions_handle pm.permissions_handle] else []) ++
  (if pm.proxypp_identity_handle ≠ DDS_SECURITY_HANDLE_NIL then
    [plugin_call.return_identity_handle pm.proxypp_identity_handle] else [])

/-- Function `pp_proxypp_unrelate`; `none` when `pp->sec_attr` is `NULL` (the function
dereferences it unconditionally). -/
def pp_proxypp_unrelate (gv : ddsi_domaingv) (pp : participant) (proxypp_guid : ddsi_guid_t) :
    Option ddsi_domaingv :=
  match pp.sec_attr with
  | none => none
  | some sa =>
    match avl_lookup compare_guid (fun pm => pm.proxypp_guid) sa.proxy_participants proxypp_guid with
    | some pm =>
      let t1 := avl_delete compare_guid (fun pm => pm.proxypp_guid) sa.proxy_participants
        proxypp_guid
      let sa1 := { sa with proxy_participants := t1 }
      some (log_calls (set_participant gv { pp with sec_attr := some sa1 })
        (pp_proxypp_match_free pm))
    | none => some gv

/-- Function `proxypp_pp_unrelate`. -/
def proxypp_pp_unrelate (gv : ddsi_domaingv) (proxypp : proxy_participant)
    (pp_guid : ddsi_guid_t) (pp_crypto_handle : Int) : ddsi_domaingv :=
  match proxypp.sec_attr with
  | none => gv
  | some ps =>
    let t0 := (remove_entity_match gv.security_matches proxypp.guid pp_guid).1
    let gv1 := { gv with security_matches := t0 }
    match avl_lookup compare_crypto_handle (fun pm => pm.pp_crypto_handle) ps.participants
        pp_crypto_handle with
    | some pm =>
      let t1 := avl_delete compare_crypto_handle (fun pm => pm.pp_crypto_handle) ps.participants
        pp_crypto_handle
      let ps1 : proxy_participant_sec_attributes := { participants := t1 }
      log_calls (set_proxy_participant gv1 { proxypp with sec_attr := some ps1 })
        (proxypp_pp_match_free pm)
    | none => gv1

/-- Function `q_omg_participant_is_access_protected`. -/
def q_omg_participant_is_access_protected (pp : participant) : Bool :=
  match pp.sec_attr with
  | none => false
  | some sa => sa.attr.is_access_protected

/-- Answers of the surrounding system and of the plugins during one call of
`q_omg_security_register_remote_participant`: whether `ddsi_handshake_find` finds the
handshake, and the results of the plugin operations of the same names. -/
structure register_answers where
  handshake : Bool
  get_authenticated_peer_credential_token : Bool
  validate_remote_permissions : Int
  check_remote_participant : Bool
  register_matched_remote_participant : Int
  set_remote_participant_crypto_tokens : Bool
deriving DecidableEq, Repr

/-- Function `check_remote_participant_permissions`: the permissions handle returned and the
plugin calls made. -/
def check_remote_participant_permissions (pp : participant) (remote_identity_handle : Int)
    (ans : register_answers) : Int × List plugin_call :=
  if !ans.handshake then (DDS_SECURITY_HANDLE_NIL, [])
  else if !ans.get_authenticated_peer_credential_token
      && q_omg_participant_is_access_protected pp then
    (DDS_SECURITY_HANDLE_NIL, [plugin_call.get_authenticated_peer_credential_token])
  else
    let c1 := [plugin_call.get_authenticated_peer_credential_token,
      plugin_call.validate_remote_permissions pp.local_identity_handle remote_identity_handle]
    let permissions_hdl := ans.validate_remote_permissions
    if permissions_hdl = DDS_SECURITY_HANDLE_NIL && q_omg_participant_is_access_protected pp then
      (permissions_hdl, c1 ++ [plugin_call.return_authenticated_peer_credential_token])
    else if q_omg_participant_is_access_protected pp then
      if !ans.check_remote_participant then
        (DDS_SECURITY_HANDLE_NIL, c1 ++ [plugin_call.check_remote_participant permissions_hdl,
          plugin_call.return_permissions_handle permissions_hdl,
          plugin_call.return_authenticated_peer_credential_token])
      else
        (permissions_hdl, c1 ++ [plugin_call.check_remote_participant permissions_hdl,
          plugin_call.return_authenticated_peer_credential_token])
    else
      (permissions_hdl, c1 ++ [plugin_call.return_authenticated_peer_credential_token])

/-- Function `match_proxypp_pp`; `none` when a `sec_attr` pointer is `NULL` or a key is
already present in the set it is inserted into. -/
def match_proxypp_pp (gv : ddsi_domaingv) (pp : participant) (proxypp : proxy_participant)
    (remote_identity_handle proxypp_crypto_handle permissions_handle shared_secret_handle : Int) :
    Option ddsi_domaingv :=
  match pp.sec_attr, proxypp.sec_attr with
  | some sa, some ps =>
    let pm := proxypp_pp_match_new pp sa.crypto_handle remote_identity_handle
      proxypp_crypto_handle permissions_handle shared_secret_handle
    match avl_insert compare_crypto_handle (fun pm => pm.pp_crypto_handle) ps.participants pm with
    | none => none
    | some t1 =>
      let pc := pp_proxypp_match_new proxypp proxypp_crypto_handle
      match avl_insert compare_guid (fun pm => pm.proxypp_guid) sa.proxy_participants pc with
      | none => none
      | some t2 =>
        some (set_participant
          (set_proxy_participant gv { proxypp with sec_attr := some { participants := t1 } })
          { pp with sec_attr := some { sa with proxy_participants := t2 } })
  | _, _ => none

/-- Function `q_omg_security_register_remote_participant`: return value and state afterwards.
`pp_ptr` and `proxypp_ptr` are the two pointer arguments.  The result is `none` where the C
code dereferences a `NULL` pointer (the security context, once the handshake is found and
the plugins are called; `pp->sec_attr`; `proxypp->sec_attr`) or breaks the contract of a
container. -/
def q_omg_security_register_remote_participant (gv : ddsi_domaingv)
    (pp_ptr proxypp_ptr : ddsi_guid_t) (remote_identity_handle shared_secret : Int)
    (ans : register_answers) : Option (Bool × ddsi_domaingv) :=
  match gv.participants pp_ptr, gv.proxy_participants proxypp_ptr with
  | some pp, some proxypp =>
    if ans.handshake && !gv.security_loaded then none
    else
      let cp := check_remote_participant_permissions pp remote_identity_handle ans
      let permissions_handle := cp.1
      let gv1 := log_calls gv cp.2
      if permissions_handle = 0 then some (false, gv1)
      else
        match pp.sec_attr with
        | none => none
        | some sa =>
          let crypto_handle := ans.register_matched_remote_participant
          let gv2 := log_calls gv1 [plugin_call.register_matched_remote_participant
            sa.crypto_handle remote_identity_handle permissions_handle shared_secret]
          if crypto_handle = DDS_SECURITY_HANDLE_NIL then some (false, gv2)
          else
            let fc := find_or_create_entity_match gv2.security_matches proxypp.guid pp.guid
            let k : guid_pair := ⟨proxypp.guid, pp.guid⟩
            let t3 := entity_match_assign fc.1 k (fun m => { m with crypto_handle := crypto_handle })
            let gv3 := { gv2 with security_matches := t3 }
            match match_proxypp_pp gv3 pp proxypp remote_identity_handle crypto_handle
                permissions_handle shared_secret with
            | none => none
            | some gv4 =>
              match fc.2.tokens with
              | some toks =>
                let gv5 := log_calls gv4 [plugin_call.set_remote_participant_crypto_tokens
                  sa.crypto_handle crypto_handle toks]
                let t5 := entity_match_assign gv5.security_matches k
                  (fun m => { m with matched := true, tokens := none })
                if ans.set_remote_participant_crypto_tokens then
                  some (true, { gv5 with security_matches := t5 })
                else some (false, gv5)
              | none => some (true, gv4)
  | _, _ => none

/-- The loop of `q_omg_security_deregister_remote_participant` over the nodes of the
`participants` set, in key order. -/
def deregister_remote_loop (proxypp_guid : ddsi_guid_t) :
    ddsi_domaingv → List proxypp_pp_match → Option ddsi_domaingv
  | gv, [] => some gv
  | gv, pm :: rest =>
    match (match entidx_lookup_participant_guid gv pm.pp_guid with
           | some pp => pp_proxypp_unrelate gv pp proxypp_guid
           | none => some gv) with
    | none => none
    | some gv1 =>
      deregister_remote_loop proxypp_guid (log_calls gv1 (proxypp_pp_match_free pm)) rest

/-- Function `q_omg_security_deregister_remote_participant`. -/
def q_omg_security_deregister_remote_participant (gv : ddsi_domaingv)
    (proxypp_ptr : ddsi_guid_t) : Option ddsi_domaingv :=
  match gv.proxy_participants proxypp_ptr with
  | none => none
  | some proxypp =>
    match proxypp.sec_attr with
    | none => some gv
    | some ps =>
      match deregister_remote_loop proxypp.guid gv ps.participants with
      | none => none
      | some gv1 => some (set_proxy_participant gv1 { proxypp with sec_attr := none })

/-- The key built by `dds_security_garbage_remove_pp_crypto` for a crypto handle. -/
def garbage_key (crypto_handle : Int) : participant_sec_attributes :=
  { attr := ⟨false, false, false, false, false, 0⟩, crypto_handle := crypto_handle,
    plugin_attr := false, proxy_participants := [] }

/-- Function `dds_security_garbage_remove_pp_crypto`. -/
def dds_security_garbage_remove_pp_crypto (sgc : List cleanup_participant_crypto)
    (crypto_handle : Int) : List cleanup_participant_crypto × Option cleanup_participant_crypto :=
  match avl_lookup compare_security_attribute (fun c => c.sec_attr) sgc
      (garbage_key crypto_handle) with
  | some info => (avl_delete compare_security_attribute (fun c => c.sec_attr) sgc
      (garbage_key crypto_handle), some info)
  | none => (sgc, none)

/-- The loop of `cleanup_participant_crypto_handle` over the nodes of the detached
`proxy_participants` set, in key order. -/
def cleanup_loop (pp_guid : ddsi_guid_t) (pp_crypto_handle : Int) :
    ddsi_domaingv → List pp_proxypp_match → ddsi_domaingv
  | gv, [] => gv
  | gv, pm :: rest =>
    cleanup_loop pp_guid pp_crypto_handle
      (match entidx_lookup_proxy_participant_guid gv pm.proxypp_guid with
       | some proxypp => proxypp_pp_unrelate gv proxypp pp_guid pp_crypto_handle
       | none => gv) rest

/-- Function `cleanup_participant_crypto_handle`, the deferred callback; its argument is the
record stored in the garbage set under `crypto_handle` (`none` when there is no such record). -/
def cleanup_participant_crypto_handle (gv : ddsi_domaingv) (crypto_handle : Int) :
    Option ddsi_domaingv :=
  match dds_security_garbage_remove_pp_crypto gv.security_garbage crypto_handle with
  | (_, none) => none
  | (sgc, some info) =>
    let gv1 := { gv with security_garbage := sgc }
    let gv2 := cleanup_loop info.guid info.sec_attr.crypto_handle gv1
      info.sec_attr.proxy_participants
    some (log_calls gv2 [plugin_call.unregister_participant info.sec_attr.crypto_handle])

/-- Function `q_omg_security_deregister_participant`. -/
def q_omg_security_deregister_participant (gv : ddsi_domaingv) (pp_ptr : ddsi_guid_t) :
    Option ddsi_domaingv :=
  match gv.participants pp_ptr with
  | none => none
  | some pp =>
    if !gv.security_loaded then some gv
    else
      match pp.sec_attr with
      | none => none
      | some sa =>
        let r1 : Option ddsi_domaingv :=
          if sa.crypto_handle ≠ DDS_SECURITY_HANDLE_NIL then
            match avl_insert compare_security_attribute (fun c => c.sec_attr) gv.security_garbage
                { guid := pp.guid, sec_attr := sa } with
            | none => none
            | some sgc => some { gv with security_garbage := sgc,
                                         xevents := gv.xevents ++ [sa.crypto_handle] }
          else some gv
        match r1 with
        | none => none
        | some gv1 =>
          let c1 := if pp.permissions_handle ≠ DDS_SECURITY_HANDLE_NIL then
            [plugin_call.return_permissions_handle pp.permissions_handle] else []
          let c2 := if pp.local_identity_handle ≠ DDS_SECURITY_HANDLE_NIL then
            [plugin_call.return_identity_handle pp.local_identity_handle] else []
          let c3 := if sa.plugin_attr then [plugin_call.return_participant_sec_attributes] else []
          some (set_participant (log_calls gv1 (c1 ++ c2 ++ c3)) { pp with sec_attr := none })

/-- Function `notify_handshake_recv_token`: the handshake of the pair, if `ddsi_handshake_find`
finds one, is told that crypto tokens were received; the call is recorded. -/
def notify_handshake_recv_token (gv : ddsi_domaingv) (pp proxypp : ddsi_guid_t) : ddsi_domaingv :=
  { gv with handshake_notifications := gv.handshake_notifications ++ [(pp, proxypp)] }

/-- Function `q_omg_security_set_participant_crypto_tokens`; `set_ok` is the answer of the
plugin operation `set_remote_participant_crypto_tokens`, should it be called. -/
def q_omg_security_set_participant_crypto_tokens (gv : ddsi_domaingv)
    (pp_ptr proxypp_ptr : ddsi_guid_t) (tokens : List Nat) (set_ok : Bool) :
    Option ddsi_domaingv :=
  match gv.participants pp_ptr, gv.proxy_participants proxypp_ptr with
  | some pp, some proxypp =>
    if !gv.security_loaded then some gv
    else
      let fc := find_or_create_entity_match gv.security_matches proxypp.guid pp.guid
      let k : guid_pair := ⟨proxypp.guid, pp.guid⟩
      let gv1 := { gv with security_matches := fc.1 }
      let tseq := tokens
      match proxypp.sec_attr, pp.sec_attr with
      | some ps, some sa =>
        match avl_lookup compare_crypto_handle (fun pm => pm.pp_crypto_handle) ps.participants
            sa.crypto_handle with
        | none =>
          let t2 := entity_match_assign gv1.security_matches k
            (fun m => { m with tokens := some tseq })
          some (notify_handshake_recv_token { gv1 with security_matches := t2 } pp.guid proxypp.guid)
        | some pm =>
          let gv2 := log_calls gv1 [plugin_call.set_remote_participant_crypto_tokens
            sa.crypto_handle pm.proxypp_crypto_handle tseq]
          let t2 := entity_match_assign gv2.security_matches k (fun m => { m with matched := true })
          if set_ok then
            some (notify_handshake_recv_token { gv2 with security_matches := t2 } pp.guid
              proxypp.guid)
          else some gv2
      | _, _ => none
  | _, _ => none

/-- The operations on the matching state, with the answers of the plugins as arguments. -/
inductive sec_op where
  | register_remote_participant (pp proxypp : ddsi_guid_t)
      (remote_identity_handle shared_secret : Int) (ans : register_answers)
  | deregister_remote_participant (proxypp : ddsi_guid_t)
  | deregister_participant (pp : ddsi_guid_t)
  | cleanup_participant_crypto_handle (crypto_handle : Int)
  | set_participant_crypto_tokens (pp proxypp : ddsi_guid_t) (tokens : List Nat) (set_ok : Bool)

/-- One operation applied to a state; `none` when the C call would not return. -/
def apply_op (gv : ddsi_domaingv) : sec_op → Option ddsi_domaingv
  | .register_remote_participant pp proxypp idh ss ans =>
    (q_omg_security_register_remote_participant gv pp proxypp idh ss ans).map (fun r => r.2)
  | .deregister_remote_participant proxypp => q_omg_security_deregister_remote_participant gv proxypp
  | .deregister_participant pp => q_omg_security_deregister_participant gv pp
  | .cleanup_participant_crypto_handle h => cleanup_participant_crypto_handle gv h
  | .set_participant_crypto_tokens pp proxypp tokens ok =>
    q_omg_security_set_participant_crypto_tokens gv pp proxypp tokens ok

/-- A sequence of operations applied from left to right. -/
def run_ops : ddsi_domaingv → List sec_op → Option ddsi_domaingv
  | gv, [] => some gv
  | gv, op :: ops =>
    match apply_op gv op with
    | none => none
    | some gv1 => run_ops gv1 ops

/-! ## Proxy participant deletion -/

/-- Function `proxypp_is_authenticated`. -/
def proxypp_is_authenticated (proxypp : proxy_participant) : Bool :=
  match proxypp.sec_attr with
  | some ps => !ps.participants.isEmpty
  | none => false

/-- Function `is_proxy_participant_deletion_allowed`. -/
def is_proxy_participant_deletion_allowed (gv : ddsi_domaingv) (guid : ddsi_guid_t)
    (pwr_entityid : Nat) : Bool :=
  if pwr_entityid = NN_ENTITYID_SPDP_RELIABLE_BUILTIN_PARTICIPANT_SECURE_WRITER then true
  else
    match entidx_lookup_proxy_participant_guid gv guid with
    | none => false
    | some proxypp => !proxypp_is_authenticated proxypp

/-! ## Endpoint matching -/

/-- Function `q_omg_get_endpoint_security_info`. -/
def q_omg_get_endpoint_security_info (attr : DDS_Security_EndpointSecurityAttributes) :
    nn_security_info_t :=
  let s0 := NN_ENDPOINT_SECURITY_ATTRIBUTES_FLAG_IS_VALID
  let s1 := if attr.is_read_protected then
    s0 ||| NN_ENDPOINT_SECURITY_ATTRIBUTES_FLAG_IS_READ_PROTECTED else s0
  let s2 := if attr.is_write_protected then
    s1 ||| NN_ENDPOINT_SECURITY_ATTRIBUTES_FLAG_IS_WRITE_PROTECTED else s1
  let s3 := if attr.is_discovery_protected then
    s2 ||| NN_ENDPOINT_SECURITY_ATTRIBUTES_FLAG_IS_DISCOVERY_PROTECTED else s2
  let s4 := if attr.is_liveliness_protected then
    s3 ||| NN_ENDPOINT_SECURITY_ATTRIBUTES_FLAG_IS_LIVELINESS_PROTECTED else s3
  let s5 := if attr.is_submessage_protected then
    s4 ||| NN_ENDPOINT_SECURITY_ATTRIBUTES_FLAG_IS_SUBMESSAGE_PROTECTED else s4
  let s6 := if attr.is_payload_protected then
    s5 ||| NN_ENDPOINT_SECURITY_ATTRIBUTES_FLAG_IS_PAYLOAD_PROTECTED else s5
  let s7 := if attr.is_key_protected then
    s6 ||| NN_ENDPOINT_SECURITY_ATTRIBUTES_FLAG_IS_KEY_PROTECTED else s6
  ⟨s7, attr.plugin_endpoint_attributes⟩

/-- Function `q_omg_get_reader_security_info`: the return value and `*info`. -/
def q_omg_get_reader_security_info (rd : reader) : Bool × nn_security_info_t :=
  match rd.sec_attr with
  | some sa => (true, q_omg_get_endpoint_security_info sa.attr)
  | none => (false, ⟨0, 0⟩)

/-- Function `q_omg_get_writer_security_info`: the return value and `*info`. -/
def q_omg_get_writer_security_info (wr : writer) : Bool × nn_security_info_t :=
  match wr.sec_attr with
  | some sa => (true, q_omg_get_endpoint_security_info sa.attr)
  | none => (false, ⟨0, 0⟩)

/-- Function `q_omg_writer_is_payload_protected`. -/
def q_omg_writer_is_payload_protected (wr : writer) : Bool :=
  match wr.sec_attr with
  | some sa => sa.attr.is_payload_protected
  | none => false

/-- Answers of the crypto plugin during one endpoint admission: the handle returned by
`register_matched_remote_datawriter` (or `_datareader`), the result of
`set_remote_datawriter_crypto_tokens` (or `_datareader`) on pending tokens, and the tokens
produced by `create_local_datareader_crypto_tokens` (or `_datawriter`), `none` on failure. -/
structure endpoint_match_answers where
  register_matched_remote : Int
  set_remote_tokens : Bool
  create_local_tokens : Option (List Nat)
deriving DecidableEq, Repr

/-- Function `send_reader_crypto_tokens`. -/
def send_reader_crypto_tokens (gv : ddsi_domaingv) (rd : reader) (pwr : proxy_writer)
    (local_crypto remote_crypto : Int) (ans : endpoint_match_answers) : ddsi_domaingv :=
  let gv1 := log_calls gv
    [plugin_call.create_local_datareader_crypto_tokens local_crypto remote_crypto]
  match ans.create_local_tokens with
  | none => gv1
  | some toks =>
    log_calls { gv1 with sent_tokens := gv1.sent_tokens ++ [⟨rd.guid, pwr.guid, toks⟩] }
      [plugin_call.return_crypto_tokens]

/-- Function `send_writer_crypto_tokens`. -/
def send_writer_crypto_tokens (gv : ddsi_domaingv) (wr : writer) (prd : proxy_reader)
    (local_crypto remote_crypto : Int) (ans : endpoint_match_answers) : ddsi_domaingv :=
  let gv1 := log_calls gv
    [plugin_call.create_local_datawriter_crypto_tokens local_crypto remote_crypto]
  match ans.create_local_tokens with
  | none => gv1
  | some toks =>
    log_calls { gv1 with sent_tokens := gv1.sent_tokens ++ [⟨wr.guid, prd.guid, toks⟩] }
      [plugin_call.return_crypto_tokens]

/-- Function `q_omg_security_register_remote_writer_match`: return value, `*crypto_handle`
(`ch` on entry) and state afterwards.  The result is `none` where the C code dereferences a
`NULL` pointer (`pp->sec_attr`, `rd->sec_attr`, the security context at a plugin call). -/
def q_omg_security_register_remote_writer_match (gv : ddsi_domaingv) (pwr : proxy_writer)
    (rd : reader) (ch : Int) (ans : endpoint_match_answers) :
    Option (Bool × Int × ddsi_domaingv) :=
  match gv.participants rd.pp, gv.proxy_participants pwr.proxypp with
  | some pp, some proxypp =>
    match proxypp.sec_attr with
    | none => some (true, ch, gv)
    | some ps =>
      let fc := find_or_create_entity_match gv.security_matches pwr.guid rd.guid
      let k : guid_pair := ⟨pwr.guid, rd.guid⟩
      let gv1 := { gv with security_matches := fc.1 }
      if fc.2.matched then some (true, fc.2.crypto_handle, gv1)
      else
        match pp.sec_attr with
        | none => none
        | some sa =>
          match avl_lookup compare_crypto_handle (fun pm => pm.pp_crypto_handle) ps.participants
              sa.crypto_handle with
          | none => some (false, ch, gv1)
          | some pm =>
            match rd.sec_attr with
            | none => none
            | some rdsa =>
              if !gv.security_loaded then none
              else
                let crypto := ans.register_matched_remote
                let gv2 := log_calls gv1 [plugin_call.register_matched_remote_datawriter
                  rdsa.crypto_handle pm.proxypp_crypto_handle pm.shared_secret]
                let t3 := entity_match_assign gv2.security_matches k
                  (fun m => { m with crypto_handle := crypto })
                let gv3 := { gv2 with security_matches := t3 }
                if crypto = 0 then some (false, ch, gv3)
                else
                  let installed := fc.2.tokens.isSome && ans.set_remote_tokens
                  let gv4 := match fc.2.tokens with
                    | some toks => log_calls gv3 [plugin_call.set_remote_datawriter_crypto_tokens
                        rdsa.crypto_handle crypto toks]
                    | none => gv3
                  let t5 := entity_match_assign gv4.security_matches k
                    (fun m => { m with matched := true, tokens := none })
                  let gv5 := if installed then { gv4 with security_matches := t5 } else gv4
                  if rd.guid.entityid = NN_ENTITYID_P2P_BUILTIN_PARTICIPANT_VOLATILE_SECURE_READER
                  then
                    let t6 := entity_match_assign gv5.security_matches k
                      (fun m => { m with matched := true })
                    some (true, crypto, { gv5 with security_matches := t6 })
                  else
                    some (installed, crypto,
                      send_reader_crypto_tokens gv5 rd pwr rdsa.crypto_handle crypto ans)
  | _, _ => none

/-- Function `q_omg_security_match_remote_writer_enabled`: return value, `*crypto_handle`
(`ch` on entry), the proxy writer afterwards (its `security_info` may be rewritten) and the
state afterwards. -/
def q_omg_security_match_remote_writer_enabled (gv : ddsi_domaingv) (rd : reader)
    (pwr : proxy_writer) (ch : Int) (ans : endpoint_match_answers) :
    Option (Bool × Int × proxy_writer × ddsi_domaingv) :=
  match rd.sec_attr with
  | none => some (true, ch, pwr, gv)
  | some rdsa =>
    let info := (q_omg_get_reader_security_info rd).2
    if !SECURITY_INFO_COMPATIBLE pwr.security_info info
        NN_ENDPOINT_SECURITY_ATTRIBUTES_FLAG_IS_VALID then some (false, ch, pwr, gv)
    else if !rdsa.attr.is_payload_protected && !rdsa.attr.is_submessage_protected then
      some (true, ch, pwr, gv)
    else
      match gv.proxy_participants pwr.proxypp with
      | none => none
      | some proxypp =>
        if !q_omg_proxy_participant_is_secure proxypp then some (false, ch, pwr, gv)
        else
          let sa := if !SECURITY_ATTR_IS_VALID pwr.security_info.security_attributes
            then info.security_attributes else pwr.security_info.security_attributes
          let pa := if !SECURITY_ATTR_IS_VALID pwr.security_info.plugin_security_attributes
            then info.plugin_security_attributes
            else pwr.security_info.plugin_security_attributes
          let pwr1 := { pwr with security_info := ⟨sa, pa⟩ }
          match q_omg_security_register_remote_writer_match gv pwr1 rd ch ans with
          | none => none
          | some (r, ch1, gv1) => some (r, ch1, pwr1, gv1)

/-- Function `q_omg_security_register_remote_reader_match`: return value, `*crypto_handle`
and state afterwards; `*crypto_handle` is set to 0 on entry. -/
def q_omg_security_register_remote_reader_match (gv : ddsi_domaingv) (prd : proxy_reader)
    (wr : writer) (ans : endpoint_match_answers) : Option (Bool × Int × ddsi_domaingv) :=
  match gv.participants wr.pp, gv.proxy_participants prd.proxypp with
  | some pp, some proxypp =>
    match proxypp.sec_attr with
    | none => some (true, 0, gv)
    | some ps =>
      let fc := find_or_create_entity_match gv.security_matches prd.guid wr.guid
      let k : guid_pair := ⟨prd.guid, wr.guid⟩
      let gv1 := { gv with security_matches := fc.1 }
      if fc.2.matched then some (true, fc.2.crypto_handle, gv1)
      else
        match pp.sec_attr with
        | none => none
        | some sa =>
          match avl_lookup compare_crypto_handle (fun pm => pm.pp_crypto_handle) ps.participants
              sa.crypto_handle with
          | none => some (false, 0, gv1)
          | some pm =>
            match wr.sec_attr with
            | none => none
            | some wrsa =>
              if !gv.security_loaded then none
              else
                let crypto := ans.register_matched_remote
                let gv2 := log_calls gv1 [plugin_call.register_matched_remote_datareader
                  wrsa.crypto_handle pm.proxypp_crypto_handle pm.shared_secret]
                let t3 := entity_match_assign gv2.security_matches k
                  (fun m => { m with crypto_handle := crypto })
                let gv3 := { gv2 with security_matches := t3 }
                if crypto = 0 then some (false, 0, gv3)
                else
                  let installed := fc.2.tokens.isSome && ans.set_remote_tokens
                  let gv4 := match fc.2.tokens with
                    | some toks => log_calls gv3 [plugin_call.set_remote_datareader_crypto_tokens
                        wrsa.crypto_handle crypto toks]
                    | none => gv3
                  let t5 := entity_match_assign gv4.security_matches k
                    (fun m => { m with matched := true, tokens := none })
                  let gv5 := if installed then { gv4 with security_matches := t5 } else gv4
                  if wr.guid.entityid = NN_ENTITYID_P2P_BUILTIN_PARTICIPANT_VOLATILE_SECURE_WRITER
                  then
                    let t6 := entity_match_assign gv5.security_matches k
                      (fun m => { m with matched := true })
                    some (true, crypto, { gv5 with security_matches := t6 })
                  else
                    some (installed, crypto,
                      send_writer_crypto_tokens gv5 wr prd wrsa.crypto_handle crypto ans)
  | _, _ => none

/-- Function `q_omg_security_match_remote_reader_enabled`: return value, `*crypto_handle`
(`ch` on entry), the proxy reader afterwards and the state afterwards. -/
def q_omg_security_match_remote_reader_enabled (gv : ddsi_domaingv) (wr : writer)
    (prd : proxy_reader) (ch : Int) (ans : endpoint_match_answers) :
    Option (Bool × Int × proxy_reader × ddsi_domaingv) :=
  match wr.sec_attr with
  | none => some (true, ch, prd, gv)
  | some wrsa =>
    match gv.proxy_participants prd.proxypp with
    | none => none
    | some proxypp =>
      if !q_omg_proxy_participant_is_secure proxypp then some (false, ch, prd, gv)
      else
        let info := (q_omg_get_writer_security_info wr).2
        if !SECURITY_INFO_COMPATIBLE prd.security_info info
            NN_ENDPOINT_SECURITY_ATTRIBUTES_FLAG_IS_VALID then some (false, ch, prd, gv)
        else if !wrsa.attr.is_submessage_protected && !wrsa.attr.is_payload_protected then
          some (true, ch, prd, gv)
        else if !q_omg_proxy_participant_is_secure proxypp then some (false, ch, prd, gv)
        else
          let sa := if !SECURITY_ATTR_IS_VALID prd.security_info.security_attributes
            then info.security_attributes else prd.security_info.security_attributes
          let pa := if !SECURITY_ATTR_IS_VALID prd.security_info.plugin_security_attributes
            then info.plugin_security_attributes
            else prd.security_info.plugin_security_attributes
          let prd1 := { prd with security_info := ⟨sa, pa⟩ }
          match q_omg_security_register_remote_reader_match gv prd1 wr ans with
          | none => none
          | some (r, ch1, gv1) => some (r, ch1, prd1, gv1)

/-! ## Endpoint crypto tokens -/

/-- Modelled from the spec: the entity index lookup `entidx_lookup_proxy_writer_guid`
(missing from the sources): the proxy writer, if discovery has added it to the index. -/
def entidx_lookup_proxy_writer_guid (gv : ddsi_domaingv) (g : ddsi_guid_t) :
    Option proxy_writer := gv.proxy_writers g

/-- Modelled from the spec: the entity index lookup `entidx_lookup_proxy_reader_guid`
(missing from the sources). -/
def entidx_lookup_proxy_reader_guid (gv : ddsi_domaingv) (g : ddsi_guid_t) :
    Option proxy_reader := gv.proxy_readers g

/-- Modelled from the spec: the entity index lookup `entidx_lookup_reader_guid` (missing
from the sources). -/
def entidx_lookup_reader_guid (gv : ddsi_domaingv) (g : ddsi_guid_t) : Option reader :=
  gv.readers g

/-- Modelled from the spec: `connect_reader_with_proxy_writer_secure` (missing from the
sources) completes the match of section 4.3 with the crypto handle; the call is recorded. -/
def connect_reader_with_proxy_writer_secure (gv : ddsi_domaingv) (rd : reader)
    (pwr : proxy_writer) (crypto_handle : Int) : ddsi_domaingv :=
  { gv with connections := gv.connections ++ [⟨rd.guid, pwr.guid, crypto_handle⟩] }

/-- Modelled from the spec: `connect_writer_with_proxy_reader_secure` (missing from the
sources); the call is recorded. -/
def connect_writer_with_proxy_reader_secure (gv : ddsi_domaingv) (wr : writer)
    (prd : proxy_reader) (crypto_handle : Int) : ddsi_domaingv :=
  { gv with connections := gv.connections ++ [⟨wr.guid, prd.guid, crypto_handle⟩] }

/-- Function `q_omg_security_set_remote_writer_crypto_tokens`; `set_ok` is the answer of the
plugin operation `set_remote_datawriter_crypto_tokens`, should it be called. -/
def q_omg_security_set_remote_writer_crypto_tokens (gv : ddsi_domaingv) (rd : reader)
    (pwr_guid : ddsi_guid_t) (tokens : List Nat) (set_ok : Bool) : Option ddsi_domaingv :=
  match gv.participants rd.pp with
  | none => none
  | some pp =>
    if !gv.security_loaded then some gv
    else
      let fc := find_or_create_entity_match gv.security_matches pwr_guid rd.guid
      let k : guid_pair := ⟨pwr_guid, rd.guid⟩
      let gv1 := { gv with security_matches := fc.1 }
      if fc.2.matched then some gv1
      else
        match entidx_lookup_proxy_writer_guid gv pwr_guid with
        | none => some gv1
        | some pwr =>
          match gv.proxy_participants pwr.proxypp with
          | none => none
          | some proxypp =>
            if !q_omg_proxy_participant_is_secure proxypp then some gv1
            else
              let tseq := tokens
              if fc.2.crypto_handle ≠ 0 then
                match rd.sec_attr with
                | none => none
                | some rdsa =>
                  let gv2 := log_calls gv1 [plugin_call.set_remote_datawriter_crypto_tokens
                    rdsa.crypto_handle fc.2.crypto_handle tseq]
                  let t3 := entity_match_assign gv2.security_matches k
                    (fun m => { m with matched := true })
                  let gv3 := connect_reader_with_proxy_writer_secure
                    { gv2 with security_matches := t3 } rd pwr fc.2.crypto_handle
                  some (notify_handshake_recv_token (if set_ok then gv3 else gv2) pp.guid
                    proxypp.guid)
              else
                let t2 := entity_match_assign gv1.security_matches k
                  (fun m => { m with tokens := some tseq })
                some (notify_handshake_recv_token { gv1 with security_matches := t2 } pp.guid
                  proxypp.guid)

/-- Function `q_omg_security_set_remote_reader_crypto_tokens`; `set_ok` is the answer of the
plugin operation `set_remote_datareader_crypto_tokens`, should it be called. -/
def q_omg_security_set_remote_reader_crypto_tokens (gv : ddsi_domaingv) (wr : writer)
    (prd_guid : ddsi_guid_t) (tokens : List Nat) (set_ok : Bool) : Option ddsi_domaingv :=
  match gv.participants wr.pp with
  | none => none
  | some pp =>
    if !gv.security_loaded then some gv
    else
      let fc := find_or_create_entity_match gv.security_matches prd_guid wr.guid
      let k : guid_pair := ⟨prd_guid, wr.guid⟩
      let gv1 := { gv with security_matches := fc.1 }
      if fc.2.matched then some gv1
      else
        match entidx_lookup_proxy_reader_guid gv prd_guid with
        | none => some gv1
        | some prd =>
          let tseq := tokens
          if fc.2.crypto_handle ≠ 0 then
            match wr.sec_attr with
            | none => none
            | some wrsa =>
              let gv2 := log_calls gv1 [plugin_call.set_remote_datareader_crypto_tokens
                wrsa.crypto_handle fc.2.crypto_handle tseq]
              let t3 := entity_match_assign gv2.security_matches k
                (fun m => { m with matched := true })
              let gv3 := connect_writer_with_proxy_reader_secure
                { gv2 with security_matches := t3 } wr prd fc.2.crypto_handle
              some (notify_handshake_recv_token (if set_ok then gv3 else gv2) pp.guid
                prd.proxypp)
          else
            let t2 := entity_match_assign gv1.security_matches k
              (fun m => { m with tokens := some tseq })
            some (notify_handshake_recv_token { gv1 with security_matches := t2 } pp.guid
              prd.proxypp)

/-! ## Payload protection -/

/-- The part of `struct nn_rsample_info` the payload decoder uses: the proxy writer `pwr`
points to (`none` for `NULL`) and the sample size. -/
structure nn_rsample_info where
  pwr : Option proxy_writer
  size : Nat

/-- Function `q_omg_security_encode_serialized_payload`: return value and `*dst_buf`
(with `*dst_len` its length).  `enc` is the plugin operation `encode_serialized_payload`,
given the writer crypto handle and the plain bytes; `none` is its failure.  The result is
`none` where an assertion of the C function does not hold. -/
def q_omg_security_encode_serialized_payload (gv : ddsi_domaingv) (wr : writer)
    (src_buf : List Nat) (enc : Int → List Nat → Option (List Nat)) :
    Option (Bool × List Nat) :=
  if src_buf.length > 4294967295 then none
  else
    match wr.sec_attr with
    | none => none
    | some sa =>
      if !sa.attr.is_payload_protected then none
      else
        match gv.participants wr.pp with
        | none => none
        | some _ =>
          if !gv.security_loaded then none
          else
            match enc sa.crypto_handle src_buf with
            | none => some (false, [])
            | some encoded => some (true, encoded)

/-- Function `q_omg_security_decode_serialized_payload`: return value and `*dst_buf`
(with `*dst_len` its length).  `dec` is the plugin operation `decode_serialized_payload`,
given the reader crypto handle, the writer crypto handle and the encoded bytes. -/
def q_omg_security_decode_serialized_payload (gv : ddsi_domaingv) (pwr : proxy_writer)
    (src_buf : List Nat) (dec : Int → Int → List Nat → Option (List Nat)) :
    Option (Bool × List Nat) :=
  if src_buf.length > 4294967295 then none
  else
    match gv.proxy_participants pwr.proxypp with
    | none => none
    | some _ =>
      if !gv.security_loaded then none
      else
        match pwr.readers.head? with
        | none => some (false, [])
        | some pwr_rd_match =>
          if pwr_rd_match.crypto_handle = 0 then some (false, [])
          else
            match entidx_lookup_reader_guid gv pwr_rd_match.rd_guid with
            | none => some (false, [])
            | some rd =>
              match rd.sec_attr with
              | none => none
              | some rdsa =>
                match dec rdsa.crypto_handle pwr_rd_match.crypto_handle src_buf with
                | none => some (false, [])
                | some plain => some (true, plain)

/-- Function `encode_payload`: return value, the bytes of `vec` afterwards and `*buf`. -/
def encode_payload (gv : ddsi_domaingv) (wr : writer) (vec : List Nat)
    (enc : Int → List Nat → Option (List Nat)) :
    Option (Bool × List Nat × Option (List Nat)) :=
  if !q_omg_writer_is_payload_protected wr then some (true, vec, none)
  else
    match q_omg_security_encode_serialized_payload gv wr vec enc with
    | none => none
    | some (false, _) => some (false, vec, none)
    | some (true, enc_buf) => some (true, enc_buf, some enc_buf)

/-- Function `decode_payload`: return value, memory, `*payloadsz` and `*submsg_len`
afterwards (`size_t` of 64 bits).  The result is `none` where an assertion does not hold. -/
def decode_payload (gv : ddsi_domaingv) (sampleinfo : nn_rsample_info) (m : Mem)
    (payloadp payloadsz submsg_len : Nat) (dec : Int → Int → List Nat → Option (List Nat)) :
    Option (Bool × Mem × Nat × Nat) :=
  if payloadsz = 0 then none
  else
    match sampleinfo.pwr with
    | none => some (true, m, payloadsz, submsg_len)
    | some pwr =>
      if pwr.c.security_info.security_attributes &&&
          NN_ENDPOINT_SECURITY_ATTRIBUTES_FLAG_IS_PAYLOAD_PROTECTED
          ≠ NN_ENDPOINT_SECURITY_ATTRIBUTES_FLAG_IS_PAYLOAD_PROTECTED then
        some (true, m, payloadsz, submsg_len)
      else
        match q_omg_security_decode_serialized_payload gv pwr (mem_read m payloadp payloadsz)
            dec with
        | none => none
        | some (false, _) => some (false, m, payloadsz, submsg_len)
        | some (true, dst_buf) =>
          if payloadsz < dst_buf.length then none
          else
            some (true, mem_write m payloadp dst_buf, dst_buf.length,
              (submsg_len + 18446744073709551616 - (payloadsz - dst_buf.length))
                % 18446744073709551616)

/-- Function `decode_Data`: return value, sample info, memory and `*submsg_len` afterwards;
`payloadp` is `none` for `NULL`. -/
def decode_Data (gv : ddsi_domaingv) (sampleinfo : nn_rsample_info) (m : Mem)
    (payloadp : Option Nat) (payloadsz submsg_len : Nat)
    (dec : Int → Int → List Nat → Option (List Nat)) :
    Option (Bool × nn_rsample_info × Mem × Nat) :=
  match payloadp with
  | none => some (true, sampleinfo, m, submsg_len)
  | some p =>
    if payloadsz = 0 then some (true, sampleinfo, m, submsg_len)
    else
      match decode_payload gv sampleinfo m p payloadsz submsg_len dec with
      | none => none
      | some (false, m1, _, sl) => some (false, sampleinfo, m1, sl)
      | some (true, m1, psz, sl) => some (true, { sampleinfo with size := psz }, m1, sl)

/-! ## Creation of a local participant -/

/-- Answers of the plugins during `q_omg_security_check_create_participant`.
`validate_local_identity` is the identity handle and the adjusted GUID if the result is
`DDS_SECURITY_VALIDATION_OK`; `validate_local_permissions` and `register_local_participant`
are the handles returned (0 on failure); `permissions_token_class_id` and
`credential_token_class_id` say whether the token handed out has a non-`NULL` `class_id`;
`get_participant_sec_attributes` is the attribute set on success. -/
structure create_participant_answers where
  validate_local_identity : Option (Int × ddsi_guid_t)
  get_identity_token : Bool
  validate_local_permissions : Int
  check_create_participant : Bool
  get_permissions_token : Bool
  permissions_token_class_id : Bool
  get_permissions_credential_token : Bool
  credential_token_class_id : Bool
  set_permissions_credential_and_token : Bool
  get_participant_sec_attributes : Option DDS_Security_ParticipantSecurityAttributes
  register_local_participant : Int

/-- The zeroed `struct participant_sec_attributes` the function allocates. -/
def participant_sec_attributes_zero : participant_sec_attributes :=
  { attr := ⟨false, false, false, false, false, 0⟩, crypto_handle := 0, plugin_attr := false,
    proxy_participants := [] }

/-- Function `q_omg_security_check_create_participant` on the participant under construction
(not yet in the entity index; its GUID is replaced by the adjusted GUID): return value, the
participant afterwards and the plugin calls made, in order.  `security_loaded` says whether
`q_omg_security_get_secure_context` finds a loaded context.  The local `allowed` starts as
`false`, takes the answer of `check_create_participant`, and is set to `true` in front of
the exit labels; the exits taken after `check_create_participant` return it as it is. -/
def q_omg_security_check_create_participant (security_loaded : Bool) (pp : participant)
    (ans : create_participant_answers) : Bool × participant × List plugin_call :=
  if !security_loaded then (true, pp, [])
  else
    let allowed0 := false
    let pp0 := { pp with sec_attr := some participant_sec_attributes_zero }
    let c0 := [plugin_call.validate_local_identity]
    match ans.validate_local_identity with
    | none => (allowed0, pp0, c0)
    | some (identity_handle, adjusted_guid) =>
      let pp1 := { pp0 with guid := adjusted_guid, local_identity_handle := identity_handle }
      let c1 := c0 ++ [plugin_call.get_identity_token identity_handle]
      if !ans.get_identity_token then (allowed0, pp1, c1)
      else
        let pp2 := { pp1 with permissions_handle := ans.validate_local_permissions }
        let c2 := c1 ++ [plugin_call.validate_local_permissions identity_handle]
        if pp2.permissions_handle = DDS_SECURITY_HANDLE_NIL then (allowed0, pp2, c2)
        else
          let allowed := ans.check_create_participant
          let c3 := c2 ++ [plugin_call.check_create_participant pp2.permissions_handle]
          if !allowed then (allowed, pp2, c3)
          else
            let c4 := c3 ++ [plugin_call.get_permissions_token pp2.permissions_handle]
            if !ans.get_permissions_token then (allowed, pp2, c4)
            else
              let no_credentials := [plugin_call.return_permissions_token]
              let c5 := c4 ++
                [plugin_call.get_permissions_credential_token pp2.permissions_handle]
              if !ans.get_permissions_credential_token then (allowed, pp2, c5 ++ no_credentials)
              else
                let c6 := c5 ++
                  [plugin_call.set_permissions_credential_and_token pp2.local_identity_handle]
                if !ans.set_permissions_credential_and_token then
                  (allowed, pp2, c6 ++ no_credentials)
                else
                  let no_sec_attr :=
                    (if ans.permissions_token_class_id then
                      [plugin_call.return_permissions_token] else []) ++
                    (if ans.credential_token_class_id then
                      [plugin_call.return_permissions_credential_token] else []) ++
                    no_credentials
                  let c7 := c6 ++
                    [plugin_call.get_participant_sec_attributes pp2.permissions_handle]
                  match ans.get_participant_sec_attributes with
                  | none => (allowed, pp2, c7 ++ no_sec_attr)
                  | some attr =>
                    let crypto := ans.register_local_participant
                    let sa : participant_sec_attributes :=
                      { participant_sec_attributes_zero with
                        attr := attr, plugin_attr := true, crypto_handle := crypto }
                    let pp3 := { pp2 with sec_attr := some sa }
                    let c8 := c7 ++ [plugin_call.register_local_participant
                      pp2.local_identity_handle pp2.permissions_handle]
                    if crypto = 0 then (allowed, pp3, c8 ++ no_sec_attr)
                    else (true, pp3, c8 ++ no_sec_attr)

/-! ## Serializer instruction words (`dds_opcodes.h`) -/

/-- Macro `DDS_OP_MASK`. -/
def DDS_OP_MASK : Nat := 0xff000000

/-- Macro `DDS_OP_TYPE_FLAGS_MASK`. -/
def DDS_OP_TYPE_FLAGS_MASK : Nat := 0x00800000

/-- Macro `DDS_OP_TYPE_MASK`. -/
def DDS_OP_TYPE_MASK : Nat := 0x007f0000

/-- Macro `DDS_OP_SUBTYPE_MASK`. -/
def DDS_OP_SUBTYPE_MASK : Nat := 0x0000ff00

/-- Macro `DDS_OP_FLAGS_MASK`. -/
def DDS_OP_FLAGS_MASK : Nat := 0x000000ff

/-- Macro `DDS_OP` on a 32-bit instruction word. -/
def DDS_OP (o : Nat) : Nat := o &&& DDS_OP_MASK

/-- Macro `DDS_OP_TYPE`. -/
def DDS_OP_TYPE (o : Nat) : Nat := (o &&& DDS_OP_TYPE_MASK) >>> 16

/-- Macro `DDS_OP_TYPE_FLAGS`. -/
def DDS_OP_TYPE_FLAGS (o : Nat) : Nat := o &&& DDS_OP_TYPE_FLAGS_MASK

/-- Macro `DDS_OP_SUBTYPE`. -/
def DDS_OP_SUBTYPE (o : Nat) : Nat := (o &&& DDS_OP_SUBTYPE_MASK) >>> 8

/-- Macro `DDS_OP_FLAGS`. -/
def DDS_OP_FLAGS (o : Nat) : Nat := o &&& DDS_OP_FLAGS_MASK

/-- Macro `DDS_OP_FLAG_EXT`. -/
def DDS_OP_FLAG_EXT : Nat := 1 <<< 23

/-! ## Remote endpoint permissions -/

/-- Macro `SECURITY_INFO_IS_WRITE_PROTECTED`. -/
def SECURITY_INFO_IS_WRITE_PROTECTED (info : nn_security_info_t) : Bool :=
  ((info.security_attributes &&& NN_ENDPOINT_SECURITY_ATTRIBUTES_FLAG_IS_VALID) != 0) &&
  ((info.security_attributes &&& NN_ENDPOINT_SECURITY_ATTRIBUTES_FLAG_IS_WRITE_PROTECTED) != 0)

/-- Macro `SECURITY_INFO_IS_READ_PROTECTED`. -/
def SECURITY_INFO_IS_READ_PROTECTED (info : nn_security_info_t) : Bool :=
  ((info.security_attributes &&& NN_ENDPOINT_SECURITY_ATTRIBUTES_FLAG_IS_VALID) != 0) &&
  ((info.security_attributes &&& NN_ENDPOINT_SECURITY_ATTRIBUTES_FLAG_IS_READ_PROTECTED) != 0)

/-- Function `q_omg_participant_allow_unauthenticated`. -/
def q_omg_participant_allow_unauthenticated (pp : participant) : Bool :=
  match pp.sec_attr with
  | some sa => sa.attr.allow_unauthenticated_participants
  | none => false

/-- Function `get_permissions_handle`; `none` when `proxypp->sec_attr` or `pp->sec_attr` is
`NULL` (both are dereferenced). -/
def get_permissions_handle (pp : participant) (proxypp : proxy_participant) : Option Int :=
  match proxypp.sec_attr, pp.sec_attr with
  | some ps, some sa =>
    match avl_lookup compare_crypto_handle (fun pm => pm.pp_crypto_handle) ps.participants
        sa.crypto_handle with
    | some pm => some pm.permissions_handle
    | none => some 0
  | _, _ => none

/-- Function `q_omg_security_check_remote_writer_permissions`: return value and the plugin
calls made.  `check_remote_datawriter` is the verdict of the access control plugin for a
permissions handle. -/
def q_omg_security_check_remote_writer_permissions (gv : ddsi_domaingv) (pwr : proxy_writer)
    (pp_ptr : ddsi_guid_t) (check_remote_datawriter : Int → Bool) :
    Option (Bool × List plugin_call) :=
  match gv.participants pp_ptr with
  | none => none
  | some pp =>
    if !gv.security_loaded then some (true, [])
    else
      match gv.proxy_participants pwr.proxypp with
      | none => none
      | some proxypp =>
        if !q_omg_proxy_participant_is_secure proxypp then
          some (q_omg_participant_allow_unauthenticated pp, [])
        else if SECURITY_INFO_IS_WRITE_PROTECTED pwr.security_info then
          match get_permissions_handle pp proxypp with
          | none => none
          | some permissions_handle =>
            if permissions_handle ≠ 0 then some (false, [])
            else
              let ok := check_remote_datawriter permissions_handle
              some (ok, [plugin_call.check_remote_datawriter permissions_handle] ++
                (if !ok then [plugin_call.get_topic_sec_attributes pp.permissions_handle]
                 else []))
        else some (true, [])

/-- Function `q_omg_security_check_remote_reader_permissions`: return value and the plugin
calls made. -/
def q_omg_security_check_remote_reader_permissions (gv : ddsi_domaingv) (prd : proxy_reader)
    (pp_ptr : ddsi_guid_t) (check_remote_datareader : Int → Bool) :
    Option (Bool × List plugin_call) :=
  match gv.participants pp_ptr with
  | none => none
  | some pp =>
    if !gv.security_loaded then some (true, [])
    else
      match gv.proxy_participants prd.proxypp with
      | none => none
      | some proxypp =>
        if !q_omg_proxy_participant_is_secure proxypp then
          some (q_omg_participant_allow_unauthenticated pp, [])
        else if SECURITY_INFO_IS_READ_PROTECTED prd.security_info then
          match get_permissions_handle pp proxypp with
          | none => none
          | some permissions_handle =>
            if permissions_handle ≠ 0 then some (false, [])
            else
              let ok := check_remote_datareader permissions_handle
              some (ok, [plugin_call.check_remote_datareader permissions_handle] ++
                (if !ok then [plugin_call.get_topic_sec_attributes pp.permissions_handle]
                 else []))
        else some (true, [])

/-! ## RTPS message decoding -/

/-- Outcome of the plugin operation `decode_rtps_message`: the return value, the buffer it
leaves in `plain_buffer` on success (`none` is `NULL`) and the code it leaves in the
exception on failure. -/
structure rtps_decode_answer where
  ok : Bool
  plain_buffer : Option (List Nat)
  code : Int
deriving DecidableEq, Repr

/-- The `for` loop of `q_omg_security_decode_rtps_message` over the nodes of
`proxypp->sec_attr->participants` in key order, with `*dst_buf` so far.  The result is
`(false, *dst_buf)` when the loop body returns false and `(true, *dst_buf)` when the loop
runs to its end.  `sign_code` is `DDS_SECURITY_ERR_INVALID_CRYPTO_RECEIVER_SIGN_CODE` (its
declaration is missing from the sources). -/
def decode_rtps_message_loop (sign_code : Int) (dec : Int → Int → rtps_decode_answer) :
    Option (List Nat) → List proxypp_pp_match → Bool × Option (List Nat)
  | dst_buf, [] => (true, dst_buf)
  | dst_buf, pm :: rest =>
    let r := dec pm.pp_crypto_handle pm.proxypp_crypto_handle
    if !r.ok then
      if r.code = sign_code then decode_rtps_message_loop sign_code dec dst_buf rest
      else (false, dst_buf)
    else decode_rtps_message_loop sign_code dec r.plain_buffer rest

/-- Function `q_omg_security_decode_rtps_message`: return value and `*dst_buf`.  `dec` is the
plugin operation `decode_rtps_message` applied to the encoded buffer, the local and the
remote participant crypto handle.  The result is `none` where an assertion does not hold or
`proxypp->sec_attr` is `NULL`. -/
def q_omg_security_decode_rtps_message (gv : ddsi_domaingv) (proxypp : proxy_participant)
    (sign_code : Int) (src_buf : List Nat)
    (dec : List Nat → Int → Int → rtps_decode_answer) : Option (Bool × Option (List Nat)) :=
  if src_buf.length > 4294967295 then none
  else
    match proxypp.sec_attr with
    | none => none
    | some ps =>
      if !ps.participants.isEmpty && !gv.security_loaded then none
      else
        let r := decode_rtps_message_loop sign_code (dec src_buf) none ps.participants
        if !r.1 then some (false, r.2)
        else if r.2.isNone then some (false, none)
        else some (true, r.2)

/-! ## Authentication plugin utilities (`auth_utils.c`) -/

/-- Modelled from the spec: the result type `DDS_Security_ValidationResult_t`, whose
declaration is missing from the sources; only the two values returned by the functions below
are listed, and only their being different is used. -/
inductive DDS_Security_ValidationResult_t where
  | DDS_SECURITY_VALIDATION_OK
  | DDS_SECURITY_VALIDATION_FAILED
deriving DecidableEq, Repr

/-- Modelled from the spec: the exception codes set by the functions below (macros whose
declarations are missing from the sources); only their being different is used. -/
inductive exception_code where
  | DDS_SECURITY_ERR_UNDEFINED_CODE
  | DDS_SECURITY_ERR_CERT_EXPIRED_CODE
  | DDS_SECURITY_ERR_CERT_STARTDATE_IN_FUTURE_CODE
  | DDS_SECURITY_ERR_INVALID_TRUSTED_CA_DIR_CODE
deriving DecidableEq, Repr

/-- Function `check_certificate_expiry`: return value and the code of the exception it sets
(`none` when it sets none).  `cmp_not_before` and `cmp_not_after` are the values the library
function `X509_cmp_current_time` returns for the notBefore and the notAfter time of the
certificate. -/
def check_certificate_expiry (cmp_not_before cmp_not_after : Int) :
    DDS_Security_ValidationResult_t × Option exception_code :=
  if cmp_not_before = 0 then
    (.DDS_SECURITY_VALIDATION_FAILED, some .DDS_SECURITY_ERR_CERT_STARTDATE_IN_FUTURE_CODE)
  else if cmp_not_after = 0 then
    (.DDS_SECURITY_VALIDATION_FAILED, some .DDS_SECURITY_ERR_CERT_EXPIRED_CODE)
  else (.DDS_SECURITY_VALIDATION_OK, none)

/-- Answers of the OpenSSL functions called by `verify_certificate`: whether the allocation
functions return a non-`NULL` object, and the values the other functions return. -/
structure verify_answers where
  X509_STORE_new : Bool
  X509_STORE_add_cert : Int
  X509_STORE_CTX_new : Bool
  X509_STORE_CTX_init : Int
  X509_verify_cert : Int
deriving DecidableEq, Repr

/-- The OpenSSL functions `verify_certificate` calls on the store and its context. -/
inductive openssl_call where
  | X509_STORE_new
  | X509_STORE_add_cert
  | X509_STORE_CTX_new
  | X509_STORE_CTX_init
  | X509_verify_cert
  | X509_STORE_CTX_free
  | X509_STORE_free
deriving DecidableEq, Repr

/-- Function `verify_certificate`: return value, the code of the exception it sets and the
OpenSSL calls it makes, in order. -/
def verify_certificate (ans : verify_answers) :
    DDS_Security_ValidationResult_t × Option exception_code × List openssl_call :=
  let result := DDS_Security_ValidationResult_t.DDS_SECURITY_VALIDATION_OK
  if !ans.X509_STORE_new then
    (result, some .DDS_SECURITY_ERR_UNDEFINED_CODE, [.X509_STORE_new])
  else if ans.X509_STORE_add_cert ≠ 1 then
    (result, some .DDS_SECURITY_ERR_UNDEFINED_CODE,
      [.X509_STORE_new, .X509_STORE_add_cert, .X509_STORE_free])
  else if !ans.X509_STORE_CTX_new then
    (result, some .DDS_SECURITY_ERR_UNDEFINED_CODE,
      [.X509_STORE_new, .X509_STORE_add_cert, .X509_STORE_CTX_new, .X509_STORE_free])
  else if ans.X509_STORE_CTX_init ≠ 1 then
    (result, some .DDS_SECURITY_ERR_UNDEFINED_CODE,
      [.X509_STORE_new, .X509_STORE_add_cert, .X509_STORE_CTX_new, .X509_STORE_CTX_init,
       .X509_STORE_CTX_free, .X509_STORE_free])
  else if ans.X509_verify_cert ≠ 1 then
    (.DDS_SECURITY_VALIDATION_FAILED, some .DDS_SECURITY_ERR_UNDEFINED_CODE,
      [.X509_STORE_new, .X509_STORE_add_cert, .X509_STORE_CTX_new, .X509_STORE_CTX_init,
       .X509_verify_cert, .X509_STORE_CTX_free, .X509_STORE_free])
  else
    (result, none,
      [.X509_STORE_new, .X509_STORE_add_cert, .X509_STORE_CTX_new, .X509_STORE_CTX_init,
       .X509_verify_cert, .X509_STORE_CTX_free, .X509_STORE_free])

/-- Macro `MAX_TRUSTED_CA`. -/
def MAX_TRUSTED_CA : Nat := 100

/-- One entry of the directory as the loop of `get_trusted_ca_list` sees it: the name
returned by `ddsrt_readdir`, whether `ddsrt_stat` succeeds, whether `ddsrt_file_normalize`
returns a name, and the certificate `load_X509_certificate_from_file` hands out when it
returns `DDS_SECURITY_VALIDATION_OK` (`none` otherwise). -/
structure trusted_ca_dirent where
  d_name : String
  stat_ok : Bool
  normalized : Bool
  certificate : Option Nat
deriving DecidableEq, Repr

/-- The indices of the writes `ca_buffer_array[ca_buffer_array_size] = identityCA` made by
the loop of `get_trusted_ca_list`, in order; the second argument is `ca_buffer_array_size`
on entry. -/
def get_trusted_ca_list_writes : List trusted_ca_dirent → Nat → List Nat
  | [], _ => []
  | e :: rest, ca_buffer_array_size =>
    if e.stat_ok && e.d_name != "." && e.d_name != ".." && e.normalized
        && e.certificate.isSome then
      ca_buffer_array_size :: get_trusted_ca_list_writes rest (ca_buffer_array_size + 1)
    else get_trusted_ca_list_writes rest ca_buffer_array_size

/-- The loop of `get_trusted_ca_list`: the filled part of `ca_buffer_array` (its length is
`ca_buffer_array_size`).  The result is `none` when a write falls outside the array of
`MAX_TRUSTED_CA` elements. -/
def get_trusted_ca_list_loop : List trusted_ca_dirent → List Nat → Option (List Nat)
  | [], ca_buffer_array => some ca_buffer_array
  | e :: rest, ca_buffer_array =>
    if e.stat_ok && e.d_name != "." && e.d_name != ".." && e.normalized then
      match e.certificate with
      | some identityCA =>
        if ca_buffer_array.length < MAX_TRUSTED_CA then
          get_trusted_ca_list_loop rest (ca_buffer_array ++ [identityCA])
        else none
      | none => get_trusted_ca_list_loop rest ca_buffer_array
    else get_trusted_ca_list_loop rest ca_buffer_array

/-- Function `get_trusted_ca_list`: return value, the certificates of `ca_list` afterwards
and the code of the exception it sets.  `opendir_ok` says whether `ddsrt_opendir` returns
`DDS_RETCODE_OK`; `entries` are the entries `ddsrt_readdir` returns, in order. -/
def get_trusted_ca_list (opendir_ok : Bool) (entries : List trusted_ca_dirent)
    (ca_list : List Nat) :
    Option (DDS_Security_ValidationResult_t × List Nat × Option exception_code) :=
  let ca_buffer_array_size := 0
  if !opendir_ok || decide (ca_buffer_array_size ≥ MAX_TRUSTED_CA) then
    some (.DDS_SECURITY_VALIDATION_FAILED, ca_list,
      some .DDS_SECURITY_ERR_INVALID_TRUSTED_CA_DIR_CODE)
  else
    match get_trusted_ca_list_loop entries [] with
    | none => none
    | some ca_buffer_array => some (.DDS_SECURITY_VALIDATION_OK, ca_buffer_array, none)

/-! ## Concrete inputs used by the witnesses and counterexamples -/

/-- The RTPS rule for builtin entity ids (both source bits of the kind octet set), standing in
for `is_builtin_entityid` in concrete evaluations. -/
def builtin_by_kind (entityid : Nat) : Bool := (entityid &&& 0xc0) == 0xc0

/-- A secure proxy participant announcing valid, RTPS-protected attributes. -/
def proxypp_rtps_protected : proxy_participant :=
  { guid := ⟨2, 0x1c1⟩, security_info := ⟨0x80000001, 0⟩, sec_attr := some ⟨[]⟩ }

/-- A proxy endpoint with valid attributes and submessage protection. -/
def endpoint_submsg_protected : proxy_endpoint_common :=
  { security_info := ⟨0x80000008, 0⟩ }

/-- A proxy endpoint without any protection flag. -/
def endpoint_unprotected : proxy_endpoint_common :=
  { security_info := ⟨0x80000000, 0⟩ }

/-- A user data reader (entity kind 0x07) of participant 1. -/
def user_reader_entity : entity_common := { guid := ⟨1, 0x107⟩ }

/-- The builtin volatile secure reader of participant 1. -/
def volatile_secure_reader_entity : entity_common :=
  { guid := ⟨1, NN_ENTITYID_P2P_BUILTIN_PARTICIPANT_VOLATILE_SECURE_READER⟩ }

/-- A secure local participant with no protection flag and plugin attributes 0. -/
def pp_plain : participant :=
  { guid := ⟨1, 0x1c1⟩,
    sec_attr := some { attr := ⟨false, false, false, false, false, 0⟩, crypto_handle := 5,
                       plugin_attr := false, proxy_participants := [] },
    permissions_handle := 3, local_identity_handle := 4 }

/-- A proxy participant whose spec-defined mask is not valid and whose plugin-defined mask
is valid. -/
def proxypp_plugin_only : proxy_participant :=
  { guid := ⟨2, 0x1c1⟩, security_info := ⟨0, 0x80000001⟩, sec_attr := some ⟨[]⟩ }

/-- A proxy participant that sent no attributes at all. -/
def proxypp_no_info : proxy_participant :=
  { guid := ⟨2, 0x1c1⟩, security_info := ⟨0, 0⟩, sec_attr := some ⟨[]⟩ }

/-- A little-endian message fragment at address 0: SEC_PREFIX (4 bytes), SEC_BODY (header and
4 bytes), SEC_POSTFIX (4 bytes), followed by the id of a DATA submessage at address 16. -/
def triplet_mem : Mem :=
  fun a => [0x31, 1, 0, 0, 0x30, 1, 4, 0, 9, 9, 9, 9, 0x32, 1, 0, 0, 0x15].getD a 0

/-- A crypto decode that fails. -/
def failing_decode : List Nat → decode_result := fun _ => ⟨false, none⟩

/-- A crypto decode that succeeds with a plaintext of `n` bytes of value 7. -/
def plain_decode (n : Nat) : List Nat → decode_result :=
  fun _ => ⟨true, some (List.replicate n 7)⟩

/-- Object addresses agree with the GUID stored in the object. -/
def heap_ok (gv : ddsi_domaingv) : Prop :=
  (∀ g pp, gv.participants g = some pp → pp.guid = g) ∧
  (∀ g px, gv.proxy_participants g = some px → px.guid = g)

/-- The participant crypto handles issued by the plugin identify their owner: two local
participants with security state have different handles, and no cleanup record carries the
handle of a local participant that still has its security state. -/
def handles_distinct (gv : ddsi_domaingv) : Prop :=
  (∀ g1 g2 p1 p2 s1 s2, gv.participants g1 = some p1 → gv.participants g2 = some p2 →
    p1.sec_attr = some s1 → p2.sec_attr = some s2 →
    s1.crypto_handle = s2.crypto_handle → g1 = g2) ∧
  (∀ g p s c, gv.participants g = some p → p.sec_attr = some s → c ∈ gv.security_garbage →
    c.sec_attr.crypto_handle ≠ s.crypto_handle)

/-- No GUID occurs twice in a `proxy_participants` set. -/
def proxy_keys_unique (gv : ddsi_domaingv) : Prop :=
  ∀ g pp sa, gv.participants g = some pp → pp.sec_attr = some sa →
    (sa.proxy_participants.map (fun pc => pc.proxypp_guid)).Nodup

/-- Every element of the `proxy_participants` set of a local participant listed in the entity
index has exactly one counterpart in the `participants` set of the proxy participant it
names: keyed by the crypto handle of the local participant, carrying the same remote crypto
handle and the GUID of the local participant. -/
def match_sets_linked (gv : ddsi_domaingv) : Prop :=
  ∀ g pp sa pc, gv.pp_index g = true → gv.participants g = some pp → pp.sec_attr = some sa →
    pc ∈ sa.proxy_participants →
    ∃ px ps pm, gv.proxy_participants pc.proxypp_guid = some px ∧ px.sec_attr = some ps ∧
      ps.participants.filter (fun m => m.pp_crypto_handle == sa.crypto_handle) = [pm] ∧
      pm.proxypp_crypto_handle = pc.proxypp_crypto_handle ∧ pm.pp_guid = g

/-- The invariant of the matching state. -/
def state_inv (gv : ddsi_domaingv) : Prop :=
  heap_ok gv ∧ handles_distinct gv ∧ proxy_keys_unique gv ∧ match_sets_linked gv

/-- Relation between the proxy participant objects before and after steps that only remove
match entries keyed by the crypto handle `h`: no object appears or disappears, GUIDs and
the presence of security state are kept, and every filter that rejects the entries keyed
by `h` sees the same entries. -/
def proxies_shrunk (h : Int) (gv gv1 : ddsi_domaingv) : Prop :=
  (∀ g, gv.proxy_participants g = none → gv1.proxy_participants g = none) ∧
  (∀ g q, gv.proxy_participants g = some q →
    ∃ q1, gv1.proxy_participants g = some q1 ∧ q1.guid = q.guid ∧
      ∀ ps, q.sec_attr = some ps → ∃ ps1, q1.sec_attr = some ps1 ∧
        ∀ p : proxypp_pp_match → Bool, (∀ x, x.pp_crypto_handle = h → p x = false) →
          ps1.participants.filter p = ps.participants.filter p)

/-- Relation between the local participant objects before and after steps that only remove
elements from `proxy_participants` sets: no object appears or disappears, GUIDs, crypto
handles and the presence of security state are kept, and the sets only lose elements. -/
def locals_shrunk (gv gv1 : ddsi_domaingv) : Prop :=
  (∀ g, gv.participants g = none → gv1.participants g = none) ∧
  (∀ g q, gv.participants g = some q →
    ∃ q1, gv1.participants g = some q1 ∧ q1.guid = q.guid ∧
      (q.sec_attr = none → q1.sec_attr = none) ∧
      ∀ sa, q.sec_attr = some sa → ∃ sa1, q1.sec_attr = some sa1 ∧
        sa1.crypto_handle = sa.crypto_handle ∧
        sa1.proxy_participants.Sublist sa.proxy_participants)

/-- A state before any matching: objects sit at their GUID, participant crypto handles are
distinct, no local participant has an element in its `proxy_participants` set and no cleanup
is pending. -/
def initial_state (gv : ddsi_domaingv) : Prop :=
  heap_ok gv ∧
  (∀ g1 g2 p1 p2 s1 s2, gv.participants g1 = some p1 → gv.participants g2 = some p2 →
    p1.sec_attr = some s1 → p2.sec_attr = some s2 →
    s1.crypto_handle = s2.crypto_handle → g1 = g2) ∧
  (∀ g pp sa, gv.participants g = some pp → pp.sec_attr = some sa → sa.proxy_participants = []) ∧
  gv.security_garbage = []

/-- GUID of the local participant of the concrete scenarios. -/
def guid_L : ddsi_guid_t := ⟨1, 0x1c1⟩

/-- GUID of the proxy participant of the concrete scenarios. -/
def guid_R : ddsi_guid_t := ⟨2, 0x1c1⟩

/-- A state with one secure local participant (crypto handle 5) and one secure proxy
participant, both listed in the entity index, and nothing matched yet. -/
def gv_one_pair : ddsi_domaingv :=
  { security_loaded := true,
    participants := fun g => if g = guid_L then some pp_plain else none,
    proxy_participants := fun g => if g = guid_R then some proxypp_no_info else none,
    pp_index := fun g => g == guid_L,
    proxypp_index := fun g => g == guid_R,
    security_matches := [], security_garbage := [], xevents := [], plugin_calls := [] }

/-- Plugin answers of a registration in which every step succeeds (permissions handle 17,
remote crypto handle 7) except the installation of pending tokens. -/
def answers_tokens_rejected : register_answers :=
  { handshake := true, get_authenticated_peer_credential_token := true,
    validate_remote_permissions := 17, check_remote_participant := true,
    register_matched_remote_participant := 7, set_remote_participant_crypto_tokens := false }

/-- The state after one successful registration of the pair. -/
def gv_registered : ddsi_domaingv :=
  (run_ops gv_one_pair
    [sec_op.register_remote_participant guid_L guid_R 11 13 answers_tokens_rejected]).getD
    gv_one_pair

/-- The security state of the local participant of the concrete scenario after the
registration. -/
def sec_attr_registered : participant_sec_attributes :=
  { attr := ⟨false, false, false, false, false, 0⟩, crypto_handle := 5, plugin_attr := false,
    proxy_participants := [{ proxypp_guid := guid_R, proxypp_crypto_handle := 7 }] }

/-- The local participant of the concrete scenario after the registration. -/
def pp_registered : participant :=
  { guid := ⟨1, 0x1c1⟩, sec_attr := some sec_attr_registered,
    permissions_handle := 3, local_identity_handle := 4 }

/-- GUID of the user data reader of the local participant in the concrete scenarios. -/
def guid_Rd : ddsi_guid_t := ⟨1, 0x107⟩

/-- GUID of the user data writer of the proxy participant in the concrete scenarios. -/
def guid_W : ddsi_guid_t := ⟨2, 0x102⟩

/-- Endpoint attributes with payload protection only. -/
def attr_payload : DDS_Security_EndpointSecurityAttributes :=
  ⟨false, false, false, false, false, true, false, 0⟩

/-- Endpoint attributes without any protection. -/
def attr_none : DDS_Security_EndpointSecurityAttributes :=
  ⟨false, false, false, false, false, false, false, 0⟩

/-- A payload-protected local reader (crypto handle 21) of the local participant. -/
def rd_payload : reader :=
  { guid := guid_Rd, pp := guid_L, sec_attr := some ⟨attr_payload, 21, false⟩ }

/-- A local reader with security state and no protection. -/
def rd_unprotected : reader :=
  { guid := guid_Rd, pp := guid_L, sec_attr := some ⟨attr_none, 21, false⟩ }

/-- A local writer with security state and no protection, in the place of `rd_unprotected`. -/
def wr_unprotected : writer :=
  { guid := guid_Rd, pp := guid_L, sec_attr := some ⟨attr_none, 21, false⟩ }

/-- A payload-protected local writer (crypto handle 22). -/
def wr_payload : writer :=
  { guid := ⟨1, 0x102⟩, pp := guid_L, sec_attr := some ⟨attr_payload, 22, false⟩ }

/-- A remote writer that reports valid attributes without payload protection. -/
def pwr_valid_plain : proxy_writer :=
  { guid := guid_W, proxypp := guid_R, c := ⟨⟨0x80000000, 0⟩⟩, security_info := ⟨0x80000000, 0⟩,
    readers := [] }

/-- A remote reader with the security info of `pwr_valid_plain`, in its place. -/
def prd_valid_plain : proxy_reader :=
  { guid := guid_W, proxypp := guid_R, c := ⟨⟨0x80000000, 0⟩⟩, security_info := ⟨0x80000000, 0⟩ }

/-- A payload-protected remote writer matched with the reader `guid_Rd` under the writer
crypto handle 23. -/
def pwr_payload : proxy_writer :=
  { guid := guid_W, proxypp := guid_R, c := ⟨⟨0x80000010, 0⟩⟩, security_info := ⟨0x80000010, 0⟩,
    readers := [⟨guid_Rd, 23⟩] }

/-- The state `gv_one_pair` with the reader `rd_payload` in the entity index. -/
def gv_endpoints : ddsi_domaingv :=
  { gv_one_pair with readers := fun g => if g = guid_Rd then some rd_payload else none }

/-- The state `gv_endpoints` with the proxy writer `pwr_payload` in the entity index too. -/
def gv_pwr_known : ddsi_domaingv :=
  { gv_endpoints with proxy_writers := fun g => if g = guid_W then some pwr_payload else none }

/-- A state whose proxy participant has no security state (it is not secure). -/
def gv_nonsecure_proxy : ddsi_domaingv :=
  { gv_one_pair with
    proxy_participants := fun g => if g = guid_R then some ⟨guid_R, ⟨0, 0⟩, none⟩ else none }

/-- Plugin answers of an endpoint admission in which every operation succeeds. -/
def answers_endpoint_ok : endpoint_match_answers :=
  { register_matched_remote := 23, set_remote_tokens := true, create_local_tokens := some [6] }

/-- A payload transform for the concrete scenarios: a non-empty payload gets a two-byte
header, an empty payload stays empty. -/
def framing_encode (_ : Int) (plain : List Nat) : Option (List Nat) :=
  if plain = [] then some [] else some (0x5e :: 0xc0 :: plain)

/-- The inverse of `framing_encode`: the header is dropped. -/
def framing_decode (_ _ : Int) (encoded : List Nat) : Option (List Nat) :=
  some (encoded.drop 2)

/-- Memory holding the given bytes from address 0 on. -/
def payload_mem (bytes : List Nat) : Mem := fun a => bytes.getD a 0

/-- Plugin answers of a participant creation that the access control plugin allows and in
which `get_permissions_token` then fails: identity handle 4, permissions handle 3. -/
def answers_create_no_token : create_participant_answers :=
  { validate_local_identity := some (4, ⟨1, 0x1c1⟩), get_identity_token := true,
    validate_local_permissions := 3, check_create_participant := true,
    get_permissions_token := false, permissions_token_class_id := false,
    get_permissions_credential_token := false, credential_token_class_id := false,
    set_permissions_credential_and_token := false,
    get_participant_sec_attributes := none,
    register_local_participant := 0 }

/-- A participant under construction: no security state, no handles yet. -/
def pp_new : participant :=
  { guid := ⟨1, 0x1c1⟩, sec_attr := none, permissions_handle := 0, local_identity_handle := 0 }

/-- The security state of `pp_plain`. -/
def sec_attr_plain : participant_sec_attributes :=
  { attr := ⟨false, false, false, false, false, 0⟩, crypto_handle := 5, plugin_attr := false,
    proxy_participants := [] }

/-- A little-endian message fragment at address 0 with a SEC_PREFIX (4 bytes), a SEC_BODY
whose header announces 65535 bytes (65539 with the header) and a SEC_POSTFIX of 4 bytes at
address 65543; the message ends at address 65547. -/
def oversize_mem : Mem :=
  fun a =>
    if a = 0 then 0x31
    else if a = 1 ∨ a = 5 ∨ a = 65544 then 1
    else if a = 4 then 0x30
    else if a = 6 ∨ a = 7 then 0xff
    else if a = 65543 then 0x32
    else 0

/-- A proxy participant matched with two local participants (crypto handles 5 and 6). -/
def proxypp_two_matches : proxy_participant :=
  ⟨guid_R, ⟨0, 0⟩, some ⟨[⟨guid_L, 11, 5, 7, 17, 13⟩, ⟨⟨3, 0x1c1⟩, 11, 6, 7, 18, 13⟩]⟩⟩

/-- A remote writer that reports valid attributes with write protection. -/
def pwr_write_protected : proxy_writer :=
  { guid := guid_W, proxypp := guid_R, c := ⟨⟨0x80000002, 0⟩⟩, security_info := ⟨0x80000002, 0⟩,
    readers := [] }

/-- A remote reader that reports valid attributes with read protection. -/
def prd_read_protected : proxy_reader :=
  { guid := guid_W, proxypp := guid_R, c := ⟨⟨0x80000001, 0⟩⟩, security_info := ⟨0x80000001, 0⟩ }

/-- The state `gv_one_pair` after tokens [9, 9] of the proxy participant arrived before its
registration: they are pending in the entity match entry. -/
def gv_tokens_pending : ddsi_domaingv :=
  (q_omg_security_set_participant_crypto_tokens gv_one_pair guid_L guid_R [9, 9] true).getD
    gv_one_pair

/-- The state after the registration of the pair in `gv_tokens_pending` with the plugin
rejecting the pending tokens. -/
def gv_rejected : ddsi_domaingv :=
  ((q_omg_security_register_remote_participant gv_tokens_pending guid_L guid_R 11 13
    answers_tokens_rejected).map (fun r => r.2)).getD gv_tokens_pending

/-- A directory entry that loads as a valid certificate. -/
def dirent_valid : trusted_ca_dirent :=
  { d_name := "ca.pem", stat_ok := true, normalized := true, certificate := some 1 }

/-! ## Theorems -/

/-! ### Receive-side validation (C1, C2) -/

/-- C1: when the security attributes of the proxy endpoint have the submessage-protected bit
set and the previous submessage id is not SEC_PREFIX, validate_msg_decoding returns false,
whatever the entity, the proxy participant and the receiver state are. -/
theorem validate_msg_decoding_requires_sec_prefix (is_builtin_entityid : Nat → Bool)
    (e : entity_common) (c : proxy_endpoint_common) (proxypp : proxy_participant)
    (rst : receiver_state) (prev_smid : Nat)
    (hprot : c.security_info.security_attributes &&&
        NN_ENDPOINT_SECURITY_ATTRIBUTES_FLAG_IS_SUBMESSAGE_PROTECTED
      = NN_ENDPOINT_SECURITY_ATTRIBUTES_FLAG_IS_SUBMESSAGE_PROTECTED)
    (hprev : prev_smid ≠ SMID_SEC_PREFIX) :
    validate_msg_decoding is_builtin_entityid e c proxypp rst prev_smid = false := by
  simp [validate_msg_decoding, hprot, hprev]

/-- Witness for C1: a DATA submessage (id 0x15) sent directly to a submessage-protected
endpoint is rejected. -/
theorem validate_msg_decoding_requires_sec_prefix_witness :
    (0x15 ≠ SMID_SEC_PREFIX) ∧
    validate_msg_decoding builtin_by_kind user_reader_entity endpoint_submsg_protected
      proxypp_rtps_protected ⟨true⟩ 0x15 = false :=
  ⟨by decide,
   validate_msg_decoding_requires_sec_prefix builtin_by_kind user_reader_entity
     endpoint_submsg_protected proxypp_rtps_protected ⟨true⟩ 0x15 (by decide) (by decide)⟩

/-- C2 as stated fails: for the builtin volatile secure reader a submessage that arrived in
a plaintext RTPS message from a secure, valid, RTPS-protected remote is accepted. -/
theorem validate_msg_decoding_plaintext_accepted_for_builtin :
    q_omg_proxy_participant_is_secure proxypp_rtps_protected = true ∧
    (proxypp_rtps_protected.security_info.security_attributes &&&
      NN_PARTICIPANT_SECURITY_ATTRIBUTES_FLAG_IS_VALID ≠ 0) ∧
    (proxypp_rtps_protected.security_info.security_attributes &&&
      NN_PARTICIPANT_SECURITY_ATTRIBUTES_FLAG_IS_RTPS_PROTECTED ≠ 0) ∧
    builtin_by_kind volatile_secure_reader_entity.guid.entityid = true ∧
    validate_msg_decoding builtin_by_kind volatile_secure_reader_entity endpoint_unprotected
      proxypp_rtps_protected ⟨false⟩ 0x15 = true := by
  decide

/-- C2 amended: for a secure proxy participant with the validity and RTPS-protected bits set
and a receiver state with rtps_encoded = false, validate_msg_decoding returns false for
every entity whose id is not builtin or is one of the eight secure builtin ids listed in
maybe_rtps_protected. -/
theorem validate_msg_decoding_rejects_plain_rtps (is_builtin_entityid : Nat → Bool)
    (e : entity_common) (c : proxy_endpoint_common) (proxypp : proxy_participant)
    (rst : receiver_state) (prev_smid : Nat)
    (hsec : q_omg_proxy_participant_is_secure proxypp = true)
    (hvalid : proxypp.security_info.security_attributes &&&
      NN_PARTICIPANT_SECURITY_ATTRIBUTES_FLAG_IS_VALID ≠ 0)
    (hrtps : proxypp.security_info.security_attributes &&&
      NN_PARTICIPANT_SECURITY_ATTRIBUTES_FLAG_IS_RTPS_PROTECTED ≠ 0)
    (hent : is_builtin_entityid e.guid.entityid = false ∨
      e.guid.entityid ∈ rtps_protected_builtin_ids)
    (hplain : rst.rtps_encoded = false) :
    validate_msg_decoding is_builtin_entityid e c proxypp rst prev_smid = false := by
  have hm : maybe_rtps_protected is_builtin_entityid e.guid.entityid = true := by
    unfold maybe_rtps_protected
    rcases hent with h | h
    · simp [h]
    · simp [h]
  have hr : q_omg_security_is_remote_rtps_protected is_builtin_entityid proxypp
      e.guid.entityid = true := by
    simp [q_omg_security_is_remote_rtps_protected, SECURITY_INFO_IS_RTPS_PROTECTED, hsec,
      hvalid, hrtps, hm]
  unfold validate_msg_decoding
  simp [hr, hplain]

/-- Witness for the amended C2: a user data reader and a plaintext RTPS message. -/
theorem validate_msg_decoding_rejects_plain_rtps_witness :
    q_omg_proxy_participant_is_secure proxypp_rtps_protected = true ∧
    validate_msg_decoding builtin_by_kind user_reader_entity endpoint_unprotected
      proxypp_rtps_protected ⟨false⟩ 0x15 = false :=
  ⟨by decide,
   validate_msg_decoding_rejects_plain_rtps builtin_by_kind user_reader_entity
     endpoint_unprotected proxypp_rtps_protected ⟨false⟩ 0x15 (by decide) (by decide)
     (by decide) (Or.inl (by decide)) rfl⟩

/-! ### Attribute compatibility (C8, C9, C10) -/

/-- C8 as stated fails: two infos whose spec-defined masks are not valid but whose
plugin-defined masks are valid and different are not compatible, although the validity bit
of the spec-defined mask is clear. -/
theorem security_info_compatible_not_spec_validity_only :
    ¬ (SECURITY_INFO_COMPATIBLE ⟨0, 0x80000001⟩ ⟨0, 0x80000002⟩
          NN_ENDPOINT_SECURITY_ATTRIBUTES_FLAG_IS_VALID = true ↔
        ((⟨0, 0x80000001⟩ : nn_security_info_t) = ⟨0, 0x80000002⟩ ∨
          (0 : Nat) &&& NN_ENDPOINT_SECURITY_ATTRIBUTES_FLAG_IS_VALID = 0 ∨
          (0 : Nat) &&& NN_ENDPOINT_SECURITY_ATTRIBUTES_FLAG_IS_VALID = 0)) := by
  decide

/-- The compatibility macro unfolded into propositions. -/
theorem compatible_unfold (a b : nn_security_info_t) (is_valid_flag : Nat) :
    SECURITY_INFO_COMPATIBLE a b is_valid_flag = true ↔
      (a.plugin_security_attributes = b.plugin_security_attributes ∨
        a.plugin_security_attributes &&& is_valid_flag = 0 ∨
        b.plugin_security_attributes &&& is_valid_flag = 0) ∧
      (a.security_attributes = b.security_attributes ∨
        a.security_attributes &&& is_valid_flag = 0 ∨
        b.security_attributes &&& is_valid_flag = 0) := by
  simp [SECURITY_INFO_COMPATIBLE, SECURITY_ATTR_COMPATIBLE]

/-- C8 amended: SECURITY_INFO_COMPATIBLE(A, B, flag) holds if and only if the plugin-defined
masks are equal or one of them has the flag clear, and the spec-defined masks are equal or
one of them has the flag clear (each mask is judged by its own validity bit). -/
theorem security_info_compatible_iff (a b : nn_security_info_t) (is_valid_flag : Nat) :
    SECURITY_INFO_COMPATIBLE a b is_valid_flag = true ↔
      (a.plugin_security_attributes = b.plugin_security_attributes ∨
        a.plugin_security_attributes &&& is_valid_flag = 0 ∨
        b.plugin_security_attributes &&& is_valid_flag = 0) ∧
      (a.security_attributes = b.security_attributes ∨
        a.security_attributes &&& is_valid_flag = 0 ∨
        b.security_attributes &&& is_valid_flag = 0) :=
  compatible_unfold a b is_valid_flag

/-- C9: the compatibility test is symmetric, SECURITY_INFO_COMPATIBLE(A, B, f) =
SECURITY_INFO_COMPATIBLE(B, A, f) for all security infos A, B and every flag f. -/
theorem security_info_compatible_symm (a b : nn_security_info_t) (is_valid_flag : Nat) :
    SECURITY_INFO_COMPATIBLE a b is_valid_flag = SECURITY_INFO_COMPATIBLE b a is_valid_flag := by
  rw [Bool.eq_iff_iff, compatible_unfold, compatible_unfold]
  constructor <;> rintro ⟨h1, h2⟩ <;> refine ⟨?_, ?_⟩ <;> tauto

/-- C10 as stated fails: the local participant is secure and the remote info is compatible
with the local one, the validity bit of the remote spec-defined mask is clear, and yet after
the call the remote info differs from the local info (the valid plugin-defined mask is kept). -/
theorem similar_info_keeps_valid_plugin_mask :
    q_omg_participant_is_secure pp_plain = true ∧
    SECURITY_INFO_COMPATIBLE (q_omg_get_participant_security_info pp_plain).2
      proxypp_plugin_only.security_info NN_PARTICIPANT_SECURITY_ATTRIBUTES_FLAG_IS_VALID = true ∧
    proxypp_plugin_only.security_info.security_attributes &&&
      NN_PARTICIPANT_SECURITY_ATTRIBUTES_FLAG_IS_VALID = 0 ∧
    (q_omg_is_similar_participant_security_info pp_plain proxypp_plugin_only).1 = true ∧
    (q_omg_is_similar_participant_security_info pp_plain proxypp_plugin_only).2.security_info
      ≠ (q_omg_get_participant_security_info pp_plain).2 := by
  decide

/-- C10 amended: for a secure local participant and a proxy participant with a compatible
security info, q_omg_is_similar_participant_security_info returns true, and each of the two
masks of the remote is handled by its own validity bit: a mask whose validity bit was clear
equals the local mask after the call, a mask whose validity bit was set is left as it was.
Nothing else of the proxy participant changes. -/
theorem similar_info_adopts_per_mask (pp : participant) (proxypp : proxy_participant)
    (hsec : q_omg_participant_is_secure pp = true)
    (hcompat : SECURITY_INFO_COMPATIBLE (q_omg_get_participant_security_info pp).2
      proxypp.security_info NN_PARTICIPANT_SECURITY_ATTRIBUTES_FLAG_IS_VALID = true) :
    (q_omg_is_similar_participant_security_info pp proxypp).1 = true ∧
    (proxypp.security_info.security_attributes &&&
        NN_ENDPOINT_SECURITY_ATTRIBUTES_FLAG_IS_VALID = 0 →
      (q_omg_is_similar_participant_security_info pp proxypp).2.security_info.security_attributes
        = (q_omg_get_participant_security_info pp).2.security_attributes) ∧
    (proxypp.security_info.security_attributes &&&
        NN_ENDPOINT_SECURITY_ATTRIBUTES_FLAG_IS_VALID ≠ 0 →
      (q_omg_is_similar_participant_security_info pp proxypp).2.security_info.security_attributes
        = proxypp.security_info.security_attributes) ∧
    (proxypp.security_info.plugin_security_attributes &&&
        NN_ENDPOINT_SECURITY_ATTRIBUTES_FLAG_IS_VALID = 0 →
      (q_omg_is_similar_participant_security_info pp proxypp).2.security_info.plugin_security_attributes
        = (q_omg_get_participant_security_info pp).2.plugin_security_attributes) ∧
    (proxypp.security_info.plugin_security_attributes &&&
        NN_ENDPOINT_SECURITY_ATTRIBUTES_FLAG_IS_VALID ≠ 0 →
      (q_omg_is_similar_participant_security_info pp proxypp).2.security_info.plugin_security_attributes
        = proxypp.security_info.plugin_security_attributes) ∧
    (q_omg_is_similar_participant_security_info pp proxypp).2.guid = proxypp.guid ∧
    (q_omg_is_similar_participant_security_info pp proxypp).2.sec_attr = proxypp.sec_attr := by
  have h1 : (q_omg_get_participant_security_info pp).1 = true := by
    unfold q_omg_get_participant_security_info
    rw [if_pos hsec]
    cases hs : pp.sec_attr with
    | none => simp [q_omg_participant_is_secure, hs] at hsec
    | some sa => rfl
  unfold q_omg_is_similar_participant_security_info
  simp only [h1, hcompat, Bool.not_true, Bool.false_eq_true, if_false]
  refine ⟨trivial, ?_, ?_, ?_, ?_, trivial, trivial⟩
  · intro h; simp [SECURITY_ATTR_IS_VALID, h]
  · intro h; simp [SECURITY_ATTR_IS_VALID, h]
  · intro h; simp [SECURITY_ATTR_IS_VALID, h]
  · intro h; simp [SECURITY_ATTR_IS_VALID, h]

/-- Witness for the amended C10: a proxy participant that sent no attributes adopts both
local masks. -/
theorem similar_info_adopts_per_mask_witness :
    q_omg_participant_is_secure pp_plain = true ∧
    (q_omg_is_similar_participant_security_info pp_plain proxypp_no_info).1 = true ∧
    (q_omg_is_similar_participant_security_info pp_plain proxypp_no_info).2.security_info
      = (q_omg_get_participant_security_info pp_plain).2 :=
  have h := similar_info_adopts_per_mask pp_plain proxypp_no_info (by decide) (by decide)
  ⟨by decide, h.1, by decide⟩

/-! ### Secure submessage framing (C3, C4) -/

/-- A byte store is seen at its address. -/
theorem store_u8_same (m : Mem) (a v : Nat) : store_u8 m a v a = v := by
  simp [store_u8]

/-- A byte store leaves the other addresses alone. -/
theorem store_u8_other (m : Mem) (a v x : Nat) (h : x ≠ a) : store_u8 m a v x = m x := by
  simp [store_u8, h]

/-- The byte swap of 16-bit values is an involution. -/
theorem ddsrt_bswap2u_involutive (v : Nat) (h : v < 65536) :
    ddsrt_bswap2u (ddsrt_bswap2u v) = v := by
  unfold ddsrt_bswap2u
  have hq : v / 256 % 256 = v / 256 := Nat.mod_eq_of_lt (by omega)
  have h1 : (v / 256 + 256 * (v % 256)) / 256 = v % 256 := by omega
  have h2 : (v / 256 + 256 * (v % 256)) % 256 = v / 256 := by omega
  rw [hq, h1, h2]
  omega

/-- The byte swap of a 16-bit value is a 16-bit value. -/
theorem ddsrt_bswap2u_lt (v : Nat) : ddsrt_bswap2u v < 65536 := by
  unfold ddsrt_bswap2u
  omega

/-- A 16-bit load is below 2^16. -/
theorem load_u16_lt (le : Bool) (m : Mem) (a : Nat) : load_u16 le m a < 65536 := by
  unfold load_u16 load_u8
  split <;> omega

/-- A 16-bit store followed by a load at the same address gives the value back. -/
theorem load_u16_store_u16 (le : Bool) (m : Mem) (a v : Nat) (h : v < 65536) :
    load_u16 le (store_u16 le m a v) a = v := by
  cases le <;> simp [load_u16, store_u16, load_u8, store_u8] <;> omega

/-- A 16-bit store changes two bytes only. -/
theorem store_u16_other (le : Bool) (m : Mem) (a v x : Nat) (h1 : x ≠ a) (h2 : x ≠ a + 1) :
    store_u16 le m a v x = m x := by
  cases le <;> simp [store_u16, store_u8, h1, h2]

/-- The result of validate_submsg depends on the header bytes only. -/
theorem validate_submsg_congr (le : Bool) (smid : Nat) (m m1 : Mem) (submsg end_ : Nat)
    (byteswap : Bool) (h0 : m1 submsg = m submsg) (h2 : m1 (submsg + 2) = m (submsg + 2))
    (h3 : m1 (submsg + 3) = m (submsg + 3)) :
    validate_submsg le smid m1 submsg end_ byteswap = validate_submsg le smid m submsg end_ byteswap := by
  have e3 : submsg + 2 + 1 = submsg + 3 := rfl
  simp only [validate_submsg, load_u16, load_u8, h0, h2, e3, h3]

/-- A positive result of validate_submsg is the header size plus a 16-bit length and fits
before the end. -/
theorem validate_submsg_pos_bounds (le : Bool) (smid : Nat) (m : Mem) (submsg end_ : Nat)
    (byteswap : Bool) (h : 0 < validate_submsg le smid m submsg end_ byteswap) :
    4 ≤ validate_submsg le smid m submsg end_ byteswap ∧
    validate_submsg le smid m submsg end_ byteswap ≤ 65539 ∧
    (submsg : Int) + validate_submsg le smid m submsg end_ byteswap ≤ end_ := by
  unfold validate_submsg at h ⊢
  simp only [RTPS_SUBMESSAGE_HEADER_SIZE] at h ⊢
  have hl := load_u16_lt le m (submsg + 2)
  have hb := ddsrt_bswap2u_lt (load_u16 le m (submsg + 2))
  split_ifs at h ⊢ <;> simp_all <;> omega

/-- What padding_submsg does on a region of at least 4 and at most 65539 bytes. -/
theorem padding_submsg_spec (le : Bool) (m : Mem) (start end_ : Nat) (byteswap : Bool)
    (h4 : start + 4 ≤ end_) (hmax : end_ ≤ start + 65539) :
    (padding_submsg le m start end_ byteswap).1 = ((end_ - start : Nat) : Int) ∧
    (padding_submsg le m start end_ byteswap).2 start = SMID_PAD ∧
    (∀ msg_end : Nat, end_ ≤ msg_end →
      validate_submsg le SMID_PAD (padding_submsg le m start end_ byteswap).2 start msg_end
        byteswap = ((end_ - start : Nat) : Int)) ∧
    (∀ x, x < start ∨ start + 4 ≤ x → (padding_submsg le m start end_ byteswap).2 x = m x) := by
  have hsz : ¬ (end_ - start < RTPS_SUBMESSAGE_HEADER_SIZE) := by
    simp only [RTPS_SUBMESSAGE_HEADER_SIZE]; omega
  have hv : (end_ - start - 4) % 65536 = end_ - start - 4 := by omega
  have hvlt : end_ - start - 4 < 65536 := by omega
  unfold padding_submsg
  simp only [hsz, if_false]
  simp only [RTPS_SUBMESSAGE_HEADER_SIZE, hv]
  refine ⟨?_, ?_, ?_, ?_⟩
  · unfold to_int32; omega
  · rw [store_u16_other _ _ _ _ _ (by omega) (by omega),
      store_u8_other _ _ _ _ (by omega), store_u8_same]
  · intro msg_end hme
    unfold validate_submsg
    simp only [RTPS_SUBMESSAGE_HEADER_SIZE]
    have hd : ¬ (0 ≤ (msg_end : Int) - (start : Int) ∧ (msg_end : Int) - (start : Int) < ((4 : Nat) : Int)) := by
      omega
    rw [if_neg hd, if_neg (by simp)]
    cases byteswap with
    | false =>
      simp only [Bool.false_eq_true, if_false]
      rw [load_u16_store_u16 _ _ _ _ hvlt]
      rw [if_neg (by omega)]
      omega
    | true =>
      simp only [if_true]
      rw [load_u16_store_u16 _ _ _ _ (ddsrt_bswap2u_lt _), ddsrt_bswap2u_involutive _ hvlt]
      rw [if_neg (by omega)]
      omega
  · intro x hx
    rw [store_u16_other _ _ _ _ _ (by omega) (by omega),
      store_u8_other _ _ _ _ (by omega), store_u8_other _ _ _ _ (by omega)]

/-- A region of fewer than 4 bytes is not padded: padding_submsg returns -1 and leaves the
buffer alone. -/
theorem padding_submsg_too_small (le : Bool) (m : Mem) (start end_ : Nat) (byteswap : Bool)
    (h : end_ < start + 4) : padding_submsg le m start end_ byteswap = (-1, m) := by
  have hsz : end_ - start < RTPS_SUBMESSAGE_HEADER_SIZE := by
    simp only [RTPS_SUBMESSAGE_HEADER_SIZE]; omega
  simp [padding_submsg, hsz]

/-- The bytes written by memcpy. -/
theorem mem_write_inside (m : Mem) (a : Nat) (bytes : List Nat) (i : Nat) (h : i < bytes.length) :
    mem_write m a bytes (a + i) = bytes.getD i 0 := by
  simp [mem_write, h]

/-- The bytes memcpy leaves alone. -/
theorem mem_write_outside (m : Mem) (a : Nat) (bytes : List Nat) (x : Nat)
    (h : x < a ∨ a + bytes.length ≤ x) : mem_write m a bytes x = m x := by
  have : ¬ (a ≤ x ∧ x < a + bytes.length) := by omega
  simp [mem_write, this]

/-- Patching the flags byte changes that byte only. -/
theorem patch_hdr_flags_other (le : Bool) (m : Mem) (submsg : Nat) (byteswap : Bool) (x : Nat)
    (h : x ≠ submsg + 1) : patch_hdr_flags le m submsg byteswap x = m x := by
  unfold patch_hdr_flags
  split_ifs <;> simp [store_u8, h]

/-- The triplet decoder when the crypto decode fails or hands out no buffer: the region from
the body to the end of the postfix is given to padding_submsg. -/
theorem patched_decode_failure (le : Bool) (decode : List Nat → decode_result) (m0 : Mem)
    (submsg submsg_size msg_end : Nat) (byteswap : Bool) (sb sp : Nat)
    (hb : validate_submsg le SMID_PAD m0 (submsg + submsg_size) msg_end byteswap = (sb : Int))
    (hbpos : 0 < sb)
    (hp : validate_submsg le SMID_SEC_POSTFIX m0 (submsg + submsg_size + sb) msg_end byteswap
      = (sp : Int))
    (hppos : 0 < sp)
    (hfail : (decode (mem_read m0 submsg (submsg_size + sb + sp))).decoded = false ∨
      (decode (mem_read m0 submsg (submsg_size + sb + sp))).dst_buf = none) :
    decode_SecPrefix_patched_hdr_flags le decode m0 submsg submsg_size msg_end byteswap =
      some (decide ((padding_submsg le m0 (submsg + submsg_size)
              (submsg + (submsg_size + sb + sp)) byteswap).1 > 0),
            (padding_submsg le m0 (submsg + submsg_size)
              (submsg + (submsg_size + sb + sp)) byteswap).2) := by
  have e1 : submsg + (submsg_size + sb) = submsg + submsg_size + sb := by omega
  have hb0 : ¬ ((sb : Int) ≤ 0) := by omega
  have hp0 : ¬ ((sp : Int) ≤ 0) := by omega
  unfold decode_SecPrefix_patched_hdr_flags
  simp only [hb, Int.toNat_ofNat, e1, hp, hb0, hp0, if_false]
  rcases hfail with h | h
  · cases hd : (decode (mem_read m0 submsg (submsg_size + sb + sp))).dst_buf <;>
      simp [h]
  · cases hd : (decode (mem_read m0 submsg (submsg_size + sb + sp))).decoded <;>
      simp [h]

/-- The triplet decoder when the crypto decode hands out a plaintext for a SEC_BODY: the
plaintext is copied over the body and the rest up to the end of the postfix is given to
padding_submsg. -/
theorem patched_decode_success (le : Bool) (decode : List Nat → decode_result) (m0 : Mem)
    (submsg submsg_size msg_end : Nat) (byteswap : Bool) (sb sp : Nat) (dst : List Nat)
    (hb : validate_submsg le SMID_PAD m0 (submsg + submsg_size) msg_end byteswap = (sb : Int))
    (hbpos : 0 < sb)
    (hp : validate_submsg le SMID_SEC_POSTFIX m0 (submsg + submsg_size + sb) msg_end byteswap
      = (sp : Int))
    (hppos : 0 < sp)
    (hbody : load_u8 m0 (submsg + submsg_size) = SMID_SEC_BODY)
    (hdec : decode (mem_read m0 submsg (submsg_size + sb + sp)) = ⟨true, some dst⟩)
    (hlen : dst.length ≤ sb + sp) :
    decode_SecPrefix_patched_hdr_flags le decode m0 submsg submsg_size msg_end byteswap =
      some (decide ((padding_submsg le (mem_write m0 (submsg + submsg_size) dst)
              (submsg + submsg_size + dst.length) (submsg + (submsg_size + sb + sp)) byteswap).1 > 0),
            (padding_submsg le (mem_write m0 (submsg + submsg_size) dst)
              (submsg + submsg_size + dst.length) (submsg + (submsg_size + sb + sp)) byteswap).2) := by
  have e1 : submsg + (submsg_size + sb) = submsg + submsg_size + sb := by omega
  have hb0 : ¬ ((sb : Int) ≤ 0) := by omega
  have hp0 : ¬ ((sp : Int) ≤ 0) := by omega
  have hl : dst.length ≤ submsg_size + sb + sp - submsg_size := by omega
  unfold decode_SecPrefix_patched_hdr_flags
  simp only [hb, Int.toNat_ofNat, e1, hp, hb0, hp0, if_false, hdec, hbody, if_true, hl]

/-- Outside its four header bytes padding_submsg changes nothing, whatever the size. -/
theorem padding_submsg_frame (le : Bool) (m : Mem) (start end_ : Nat) (byteswap : Bool)
    (x : Nat) (hx : x < start ∨ start + 4 ≤ x) :
    (padding_submsg le m start end_ byteswap).2 x = m x := by
  by_cases h : end_ - start < RTPS_SUBMESSAGE_HEADER_SIZE
  · simp only [padding_submsg, h, if_true]
  · simp only [padding_submsg, h, if_false]
    rw [store_u16_other _ _ _ _ _ (by omega) (by omega),
      store_u8_other _ _ _ _ (by omega), store_u8_other _ _ _ _ (by omega)]

/-- Outside the region it is given padding_submsg changes nothing, whatever the size. -/
theorem padding_submsg_frame_region (le : Bool) (m : Mem) (start end_ : Nat) (byteswap : Bool)
    (x : Nat) (hx : x < start ∨ end_ ≤ x) :
    (padding_submsg le m start end_ byteswap).2 x = m x := by
  by_cases h : end_ - start < RTPS_SUBMESSAGE_HEADER_SIZE
  · simp only [padding_submsg, h, if_true]
  · simp only [RTPS_SUBMESSAGE_HEADER_SIZE] at h
    exact padding_submsg_frame le m start end_ byteswap x (by omega)

/-- C3: when the submessage after the SEC_PREFIX and the SEC_POSTFIX after it pass
validate_submsg (sizes sb and sp) and together span at most 65539 bytes, and the crypto
decode of the triplet fails or yields no buffer, decode_SecPrefix returns with a buffer that
holds a PAD header at the body position whose length reaches exactly the end of the
SEC_POSTFIX (validate_submsg on it returns sb + sp); this holds for any body submessage id
(SEC_BODY or a signed-only plaintext), the body header is overwritten, and no byte other
than the four header bytes at the body position is changed. -/
theorem decode_SecPrefix_failure_pads (le : Bool) (decode : List Nat → decode_result) (m : Mem)
    (submsg submsg_size msg_end : Nat) (byteswap : Bool) (sb sp : Nat)
    (hpre : RTPS_SUBMESSAGE_HEADER_SIZE ≤ submsg_size)
    (hb : validate_submsg le SMID_PAD m (submsg + submsg_size) msg_end byteswap = (sb : Int))
    (hbpos : 0 < sb)
    (hp : validate_submsg le SMID_SEC_POSTFIX m (submsg + submsg_size + sb) msg_end byteswap
      = (sp : Int))
    (hppos : 0 < sp)
    (hspan : sb + sp ≤ UINT16_MAX + RTPS_SUBMESSAGE_HEADER_SIZE)
    (hfail : (decode (mem_read (patch_hdr_flags le m submsg byteswap) submsg
          (submsg_size + sb + sp))).decoded = false ∨
      (decode (mem_read (patch_hdr_flags le m submsg byteswap) submsg
          (submsg_size + sb + sp))).dst_buf = none) :
    ∃ m1 : Mem,
      decode_SecPrefix le decode m submsg submsg_size msg_end byteswap = some (true, m1) ∧
      load_u8 m1 (submsg + submsg_size) = SMID_PAD ∧
      validate_submsg le SMID_PAD m1 (submsg + submsg_size) msg_end byteswap
        = ((sb + sp : Nat) : Int) ∧
      (∀ x, x < submsg + submsg_size ∨ submsg + submsg_size + 4 ≤ x → m1 x = m x) := by
  simp only [RTPS_SUBMESSAGE_HEADER_SIZE, UINT16_MAX] at hpre hspan
  have hbb := validate_submsg_pos_bounds le SMID_PAD m (submsg + submsg_size) msg_end byteswap
    (by rw [hb]; omega)
  have hpb := validate_submsg_pos_bounds le SMID_SEC_POSTFIX m (submsg + submsg_size + sb)
    msg_end byteswap (by rw [hp]; omega)
  rw [hb] at hbb
  rw [hp] at hpb
  have hb0 : validate_submsg le SMID_PAD (patch_hdr_flags le m submsg byteswap)
      (submsg + submsg_size) msg_end byteswap = (sb : Int) := by
    rw [validate_submsg_congr le SMID_PAD m _ _ _ _
      (patch_hdr_flags_other _ _ _ _ _ (by omega)) (patch_hdr_flags_other _ _ _ _ _ (by omega))
      (patch_hdr_flags_other _ _ _ _ _ (by omega)), hb]
  have hp0 : validate_submsg le SMID_SEC_POSTFIX (patch_hdr_flags le m submsg byteswap)
      (submsg + submsg_size + sb) msg_end byteswap = (sp : Int) := by
    rw [validate_submsg_congr le SMID_SEC_POSTFIX m _ _ _ _
      (patch_hdr_flags_other _ _ _ _ _ (by omega)) (patch_hdr_flags_other _ _ _ _ _ (by omega))
      (patch_hdr_flags_other _ _ _ _ _ (by omega)), hp]
  have hcore := patched_decode_failure le decode (patch_hdr_flags le m submsg byteswap) submsg
    submsg_size msg_end byteswap sb sp hb0 hbpos hp0 hppos hfail
  obtain ⟨hr, hpad, hval, hframe⟩ := padding_submsg_spec le (patch_hdr_flags le m submsg byteswap)
    (submsg + submsg_size) (submsg + (submsg_size + sb + sp)) byteswap (by omega) (by omega)
  have hsize : submsg + (submsg_size + sb + sp) - (submsg + submsg_size) = sb + sp := by omega
  rw [hsize] at hr hval
  refine ⟨store_u8 (padding_submsg le (patch_hdr_flags le m submsg byteswap)
    (submsg + submsg_size) (submsg + (submsg_size + sb + sp)) byteswap).2 (submsg + 1)
    (m (submsg + 1)), ?_, ?_, ?_, ?_⟩
  · unfold decode_SecPrefix
    rw [hcore, hr]
    have : decide (((sb + sp : Nat) : Int) > 0) = true := by
      rw [decide_eq_true_eq]; omega
    simp only [this]
  · unfold load_u8
    rw [store_u8_other _ _ _ _ (by omega), hpad]
    rfl
  · rw [validate_submsg_congr le SMID_PAD _ _ _ _ _
      (store_u8_other _ _ _ _ (by omega)) (store_u8_other _ _ _ _ (by omega))
      (store_u8_other _ _ _ _ (by omega))]
    exact hval msg_end (by omega)
  · intro x hx
    by_cases hx1 : x = submsg + 1
    · rw [hx1, store_u8_same]
    · rw [store_u8_other _ _ _ _ hx1, hframe x hx, patch_hdr_flags_other _ _ _ _ _ hx1]

/-- Witness for C3: the triplet at address 0 with a failing decode becomes PAD of 12 bytes. -/
theorem decode_SecPrefix_failure_pads_witness :
    ∃ m1 : Mem,
      decode_SecPrefix true failing_decode triplet_mem 0 4 16 false = some (true, m1) ∧
      load_u8 m1 (0 + 4) = SMID_PAD ∧
      validate_submsg true SMID_PAD m1 (0 + 4) 16 false = ((8 + 4 : Nat) : Int) ∧
      (∀ x, x < 0 + 4 ∨ 0 + 4 + 4 ≤ x → m1 x = triplet_mem x) :=
  decode_SecPrefix_failure_pads true failing_decode triplet_mem 0 4 16 false 8 4
    (by decide) (by decide) (by decide) (by decide) (by decide) (by decide) (Or.inl rfl)

/-- C4 as stated fails: body and postfix are valid (8 and 4 bytes), the body is a SEC_BODY,
the decode succeeds with a plaintext of 10 bytes, within the asserted bound of 12, and
decode_SecPrefix returns false because the 2 bytes left cannot hold a PAD header. -/
theorem decode_SecPrefix_false_when_pad_does_not_fit :
    validate_submsg true SMID_PAD triplet_mem 4 16 false = 8 ∧
    validate_submsg true SMID_SEC_POSTFIX triplet_mem 12 16 false = 4 ∧
    load_u8 triplet_mem 4 = SMID_SEC_BODY ∧
    plain_decode 10 (mem_read triplet_mem 0 16) = ⟨true, some (List.replicate 10 7)⟩ ∧
    (List.replicate 10 7).length ≤ 8 + 4 ∧
    (decode_SecPrefix true (plain_decode 10) triplet_mem 0 4 16 false).map Prod.fst
      = some false := by
  decide

/-- C4 amended: for a SEC_BODY body with valid body and postfix (sizes sb and sp) and a
successful decode with a plaintext of n <= sb + sp bytes, decode_SecPrefix returns, the n
bytes at the body position equal the plaintext and no byte outside [body start, postfix
end) is changed.  If at least 4 and at most 65539 bytes remain after the plaintext, the
result is true and a PAD submessage follows the plaintext whose header plus length ends at
the end of the SEC_POSTFIX (validate_submsg on it returns sb + sp - n).  If fewer than 4
bytes remain, the result is false. -/
theorem decode_SecPrefix_success_splices (le : Bool) (decode : List Nat → decode_result)
    (m : Mem) (submsg submsg_size msg_end : Nat) (byteswap : Bool) (sb sp : Nat) (dst : List Nat)
    (hpre : RTPS_SUBMESSAGE_HEADER_SIZE ≤ submsg_size)
    (hb : validate_submsg le SMID_PAD m (submsg + submsg_size) msg_end byteswap = (sb : Int))
    (hbpos : 0 < sb)
    (hp : validate_submsg le SMID_SEC_POSTFIX m (submsg + submsg_size + sb) msg_end byteswap
      = (sp : Int))
    (hppos : 0 < sp)
    (hbody : load_u8 m (submsg + submsg_size) = SMID_SEC_BODY)
    (hdec : decode (mem_read (patch_hdr_flags le m submsg byteswap) submsg
      (submsg_size + sb + sp)) = ⟨true, some dst⟩)
    (hlen : dst.length ≤ sb + sp) :
    ∃ (res : Bool) (m1 : Mem),
      decode_SecPrefix le decode m submsg submsg_size msg_end byteswap = some (res, m1) ∧
      (∀ i, i < dst.length → m1 (submsg + submsg_size + i) = dst.getD i 0) ∧
      (∀ x, x < submsg + submsg_size ∨ submsg + submsg_size + sb + sp ≤ x → m1 x = m x) ∧
      (dst.length + RTPS_SUBMESSAGE_HEADER_SIZE ≤ sb + sp →
        sb + sp - dst.length ≤ UINT16_MAX + RTPS_SUBMESSAGE_HEADER_SIZE →
          res = true ∧
          load_u8 m1 (submsg + submsg_size + dst.length) = SMID_PAD ∧
          validate_submsg le SMID_PAD m1 (submsg + submsg_size + dst.length) msg_end byteswap
            = ((sb + sp - dst.length : Nat) : Int)) ∧
      (sb + sp < dst.length + RTPS_SUBMESSAGE_HEADER_SIZE → res = false) := by
  simp only [RTPS_SUBMESSAGE_HEADER_SIZE, UINT16_MAX] at hpre ⊢
  have hbb := validate_submsg_pos_bounds le SMID_PAD m (submsg + submsg_size) msg_end byteswap
    (by rw [hb]; omega)
  have hpb := validate_submsg_pos_bounds le SMID_SEC_POSTFIX m (submsg + submsg_size + sb)
    msg_end byteswap (by rw [hp]; omega)
  rw [hb] at hbb
  rw [hp] at hpb
  have hb0 : validate_submsg le SMID_PAD (patch_hdr_flags le m submsg byteswap)
      (submsg + submsg_size) msg_end byteswap = (sb : Int) := by
    rw [validate_submsg_congr le SMID_PAD m _ _ _ _
      (patch_hdr_flags_other _ _ _ _ _ (by omega)) (patch_hdr_flags_other _ _ _ _ _ (by omega))
      (patch_hdr_flags_other _ _ _ _ _ (by omega)), hb]
  have hp0 : validate_submsg le SMID_SEC_POSTFIX (patch_hdr_flags le m submsg byteswap)
      (submsg + submsg_size + sb) msg_end byteswap = (sp : Int) := by
    rw [validate_submsg_congr le SMID_SEC_POSTFIX m _ _ _ _
      (patch_hdr_flags_other _ _ _ _ _ (by omega)) (patch_hdr_flags_other _ _ _ _ _ (by omega))
      (patch_hdr_flags_other _ _ _ _ _ (by omega)), hp]
  have hbody0 : load_u8 (patch_hdr_flags le m submsg byteswap) (submsg + submsg_size)
      = SMID_SEC_BODY := by
    unfold load_u8 at hbody ⊢
    rw [patch_hdr_flags_other _ _ _ _ _ (by omega), hbody]
  have hcore := patched_decode_success le decode (patch_hdr_flags le m submsg byteswap) submsg
    submsg_size msg_end byteswap sb sp dst hb0 hbpos hp0 hppos hbody0 hdec hlen
  refine ⟨decide ((padding_submsg le
      (mem_write (patch_hdr_flags le m submsg byteswap) (submsg + submsg_size) dst)
      (submsg + submsg_size + dst.length) (submsg + (submsg_size + sb + sp)) byteswap).1 > 0),
    store_u8 (padding_submsg le
      (mem_write (patch_hdr_flags le m submsg byteswap) (submsg + submsg_size) dst)
      (submsg + submsg_size + dst.length) (submsg + (submsg_size + sb + sp)) byteswap).2
      (submsg + 1) (m (submsg + 1)), ?_, ?_, ?_, ?_, ?_⟩
  · unfold decode_SecPrefix
    rw [hcore]
  · intro i hi
    rw [store_u8_other _ _ _ _ (by omega), padding_submsg_frame _ _ _ _ _ _ (by omega),
      mem_write_inside _ _ _ _ hi]
  · intro x hx
    by_cases hx1 : x = submsg + 1
    · rw [hx1, store_u8_same]
    · rw [store_u8_other _ _ _ _ hx1, padding_submsg_frame_region _ _ _ _ _ _ (by omega),
        mem_write_outside _ _ _ _ (by omega), patch_hdr_flags_other _ _ _ _ _ hx1]
  · intro h4 hmax
    obtain ⟨hr, hpad, hval, -⟩ := padding_submsg_spec le
      (mem_write (patch_hdr_flags le m submsg byteswap) (submsg + submsg_size) dst)
      (submsg + submsg_size + dst.length) (submsg + (submsg_size + sb + sp)) byteswap
      (by omega) (by omega)
    have hsize : submsg + (submsg_size + sb + sp) - (submsg + submsg_size + dst.length)
        = sb + sp - dst.length := by omega
    rw [hsize] at hr hval
    refine ⟨?_, ?_, ?_⟩
    · rw [hr, decide_eq_true_eq]; omega
    · unfold load_u8
      rw [store_u8_other _ _ _ _ (by omega), hpad]
      rfl
    · rw [validate_submsg_congr le SMID_PAD _ _ _ _ _
        (store_u8_other _ _ _ _ (by omega)) (store_u8_other _ _ _ _ (by omega))
        (store_u8_other _ _ _ _ (by omega))]
      exact hval msg_end (by omega)
  · intro hsmall
    rw [padding_submsg_too_small _ _ _ _ _ (by omega)]
    simp

/-- Witness for the amended C4: a plaintext of 6 bytes is spliced over the 8-byte SEC_BODY
of the triplet at address 0 and followed by a PAD submessage of 6 bytes. -/
theorem decode_SecPrefix_success_splices_witness :
    ∃ (res : Bool) (m1 : Mem),
      decode_SecPrefix true (plain_decode 6) triplet_mem 0 4 16 false = some (res, m1) ∧
      (∀ i, i < (List.replicate 6 7).length → m1 (0 + 4 + i) = (List.replicate 6 7).getD i 0) ∧
      (∀ x, x < 0 + 4 ∨ 0 + 4 + 8 + 4 ≤ x → m1 x = triplet_mem x) ∧
      ((List.replicate 6 7).length + RTPS_SUBMESSAGE_HEADER_SIZE ≤ 8 + 4 →
        8 + 4 - (List.replicate 6 7).length ≤ UINT16_MAX + RTPS_SUBMESSAGE_HEADER_SIZE →
          res = true ∧
          load_u8 m1 (0 + 4 + (List.replicate 6 7).length) = SMID_PAD ∧
          validate_submsg true SMID_PAD m1 (0 + 4 + (List.replicate 6 7).length) 16 false
            = ((8 + 4 - (List.replicate 6 7).length : Nat) : Int)) ∧
      (8 + 4 < (List.replicate 6 7).length + RTPS_SUBMESSAGE_HEADER_SIZE → res = false) :=
  decode_SecPrefix_success_splices true (plain_decode 6) triplet_mem 0 4 16 false 8 4
    (List.replicate 6 7) (by decide) (by decide) (by decide) (by decide) (by decide)
    (by decide) rfl (by decide)

/-! ### Matching state (C5, C6, C7) -/

/-- C5, evaluation at the failing input: tokens arrive before the registration and are
stored; the registration creates the match but the plugin rejects the stored tokens; tokens
arrive again and the plugin accepts them.  The entry then has matched = true and still
holds the first token sequence. -/
theorem matched_entry_keeps_pending_tokens :
    (run_ops gv_one_pair
      [sec_op.set_participant_crypto_tokens guid_L guid_R [9, 9] true,
       sec_op.register_remote_participant guid_L guid_R 11 13 answers_tokens_rejected,
       sec_op.set_participant_crypto_tokens guid_L guid_R [8] true]).map
      (fun gv => gv.security_matches)
    = some [{ guids := ⟨guid_R, guid_L⟩, matched := true, crypto_handle := 7,
              tokens := some [9, 9] }] := by
  decide

/-- C7, evaluation at the failing input: one ParticipantMatch whose local participant is in
the entity index; q_omg_security_deregister_remote_participant passes the remote crypto
handle 7 to unregister_participant twice (once from pp_proxypp_match_free, once from
proxypp_pp_match_free), the permissions handle 17 and the identity handle 11 once each. -/
theorem deregister_remote_unregisters_twice :
    (gv_registered.pp_index guid_L = true) ∧
    ((gv_registered.proxy_participants guid_R).bind (fun px => px.sec_attr)
      = some ⟨[{ pp_guid := guid_L, proxypp_identity_handle := 11, pp_crypto_handle := 5,
                 proxypp_crypto_handle := 7, permissions_handle := 17, shared_secret := 13 }]⟩) ∧
    (gv_registered.plugin_calls.count (plugin_call.unregister_participant 7) = 0) ∧
    ((q_omg_security_deregister_remote_participant gv_registered guid_R).map
        (fun gv => gv.plugin_calls.drop gv_registered.plugin_calls.length)
      = some [plugin_call.unregister_participant 7, plugin_call.unregister_participant 7,
              plugin_call.return_permissions_handle 17, plugin_call.return_identity_handle 11]) := by
  decide

/-- Handles compare equal exactly when they are equal. -/
theorem compare_crypto_handle_eq_zero (a b : Int) : compare_crypto_handle a b = 0 ↔ a = b := by
  unfold compare_crypto_handle
  split_ifs <;> constructor <;> intro h <;> first | contradiction | omega

/-- GUIDs compare equal exactly when they are equal. -/
theorem guid_compare_eq_zero (a b : ddsi_guid_t) : guid_compare a b = 0 ↔ a = b := by
  cases a with | mk ap ae => cases b with | mk bp be =>
  unfold guid_compare
  simp only [ddsi_guid_t.mk.injEq]
  split_ifs <;> constructor <;> intro h <;> first | contradiction | omega

/-- A failed lookup means that no node carries the key. -/
theorem avl_lookup_none {α κ : Type} (cmp : κ → κ → Int) (key : α → κ) (t : List α) (k : κ)
    (h : avl_lookup cmp key t k = none) : ∀ x ∈ t, cmp (key x) k ≠ 0 := by
  intro x hx
  have := (List.find?_eq_none.mp h) x hx
  simpa using this

/-- A successful lookup returns a node of the set that carries the key. -/
theorem avl_lookup_some {α κ : Type} (cmp : κ → κ → Int) (key : α → κ) (t : List α) (k : κ)
    (x : α) (h : avl_lookup cmp key t k = some x) : x ∈ t ∧ cmp (key x) k = 0 := by
  refine ⟨List.mem_of_find?_eq_some h, ?_⟩
  have := List.find?_some h
  simpa using this

/-- A lookup fails only if no node carries the key. -/
theorem avl_lookup_isSome_of_mem {α κ : Type} (cmp : κ → κ → Int) (key : α → κ) (t : List α)
    (k : κ) (x : α) (hx : x ∈ t) (hk : cmp (key x) k = 0) :
    ∃ y, avl_lookup cmp key t k = some y := by
  cases h : avl_lookup cmp key t k with
  | some y => exact ⟨y, rfl⟩
  | none => exact absurd hk (avl_lookup_none cmp key t k h x hx)

/-- The nodes after an insertion are the new node and the old nodes. -/
theorem mem_avl_insert {α κ : Type} (cmp : κ → κ → Int) (key : α → κ) (t t1 : List α) (n : α)
    (h : avl_insert cmp key t n = some t1) (x : α) : x ∈ t1 ↔ x = n ∨ x ∈ t := by
  unfold avl_insert at h
  split at h
  · exact absurd h (by simp)
  · injection h with h
    subst h
    rw [List.mem_append, List.mem_cons]
    conv_rhs => rw [← List.takeWhile_append_dropWhile (fun x => decide (cmp (key x) (key n) < 0)) t,
      List.mem_append]
    tauto

/-- An insertion succeeds only if the key is new. -/
theorem avl_insert_fresh {α κ : Type} (cmp : κ → κ → Int) (key : α → κ) (t t1 : List α) (n : α)
    (h : avl_insert cmp key t n = some t1) : ∀ x ∈ t, cmp (key x) (key n) ≠ 0 := by
  unfold avl_insert at h
  split at h
  · exact absurd h (by simp)
  · rename_i hl
    exact avl_lookup_none cmp key t (key n) hl

/-- Filtering after an insertion: the filtered old nodes with the new node in between. -/
theorem filter_avl_insert {α κ : Type} (cmp : κ → κ → Int) (key : α → κ) (t t1 : List α) (n : α)
    (h : avl_insert cmp key t n = some t1) (p : α → Bool) :
    (p n = false → t1.filter p = t.filter p) ∧
    (t.filter p = [] → p n = true → t1.filter p = [n]) := by
  unfold avl_insert at h
  split at h
  · exact absurd h (by simp)
  · injection h with h
    subst h
    have hsplit := List.takeWhile_append_dropWhile (fun x => decide (cmp (key x) (key n) < 0)) t
    constructor
    · intro hp
      rw [List.filter_append, List.filter_cons_of_neg (by simp [hp]), ← List.filter_append, hsplit]
    · intro he hp
      rw [← hsplit, List.filter_append, List.append_eq_nil] at he
      rw [List.filter_append, List.filter_cons_of_pos (by simp [hp]), he.1, he.2]
      rfl

/-- Removing the node under one key does not affect what a filter on other nodes sees. -/
theorem filter_avl_delete {α κ : Type} (cmp : κ → κ → Int) (key : α → κ) (t : List α) (k : κ)
    (p : α → Bool) (hp : ∀ x, cmp (key x) k = 0 → p x = false) :
    (avl_delete cmp key t k).filter p = t.filter p := by
  unfold avl_delete
  induction t with
  | nil => rfl
  | cons a l ih =>
    by_cases ha : cmp (key a) k = 0
    · rw [List.eraseP_cons_of_pos (by simp [ha]), List.filter_cons_of_neg (by simp [hp a ha])]
    · rw [List.eraseP_cons_of_neg (by simp [ha])]
      simp only [List.filter_cons, ih]

/-- After a removal the nodes are among the old nodes. -/
theorem avl_delete_sublist {α κ : Type} (cmp : κ → κ → Int) (key : α → κ) (t : List α) (k : κ) :
    (avl_delete cmp key t k).Sublist t := by
  unfold avl_delete
  exact List.eraseP_sublist t

/-- In a set without duplicate keys no node carries a key after its removal. -/
theorem avl_delete_no_key {α κ : Type} (cmp : κ → κ → Int) (key : α → κ)
    (hcmp : ∀ a b, cmp a b = 0 ↔ a = b) (t : List α) (k : κ)
    (hnd : (t.map key).Nodup) : ∀ x ∈ avl_delete cmp key t k, key x ≠ k := by
  unfold avl_delete
  induction t with
  | nil => intro x hx; simp at hx
  | cons a l ih =>
    rw [List.map_cons, List.nodup_cons] at hnd
    by_cases ha : cmp (key a) k = 0
    · rw [List.eraseP_cons_of_pos (by simp [ha])]
      intro x hx hxk
      apply hnd.1
      rw [(hcmp _ _).mp ha, ← hxk]
      exact List.mem_map_of_mem key hx
    · rw [List.eraseP_cons_of_neg (by simp [ha])]
      intro x hx
      rcases List.mem_cons.mp hx with h | h
      · subst h
        intro hxk
        exact ha ((hcmp _ _).mpr hxk)
      · exact ih hnd.2 x h

/-- An insertion keeps the keys free of duplicates. -/
theorem avl_insert_nodup {α κ : Type} (cmp : κ → κ → Int) (key : α → κ)
    (hcmp : ∀ a b, cmp a b = 0 ↔ a = b) (t t1 : List α) (n : α)
    (h : avl_insert cmp key t n = some t1) (hnd : (t.map key).Nodup) : (t1.map key).Nodup := by
  have hfresh := avl_insert_fresh cmp key t t1 n h
  unfold avl_insert at h
  split at h
  · exact absurd h (by simp)
  · injection h with h
    subst h
    have hsplit := List.takeWhile_append_dropWhile (fun x => decide (cmp (key x) (key n) < 0)) t
    have hperm : (t.takeWhile (fun x => decide (cmp (key x) (key n) < 0)) ++
        n :: t.dropWhile (fun x => decide (cmp (key x) (key n) < 0))).Perm (n :: t) := by
      have := @List.perm_middle _ n
        (t.takeWhile (fun x => decide (cmp (key x) (key n) < 0)))
        (t.dropWhile (fun x => decide (cmp (key x) (key n) < 0)))
      rw [hsplit] at this
      exact this
    rw [(hperm.map key).nodup_iff, List.map_cons, List.nodup_cons]
    refine ⟨?_, hnd⟩
    intro hmem
    obtain ⟨x, hx, hxk⟩ := List.mem_map.mp hmem
    exact hfresh x hx ((hcmp _ _).mpr hxk)


/-- The invariant looks at the objects, the participant index and the garbage set only. -/
theorem state_inv_congr (gv gv1 : ddsi_domaingv)
    (h1 : gv1.participants = gv.participants)
    (h2 : gv1.proxy_participants = gv.proxy_participants)
    (h3 : gv1.pp_index = gv.pp_index)
    (h4 : gv1.security_garbage = gv.security_garbage)
    (h : state_inv gv) : state_inv gv1 := by
  unfold state_inv heap_ok handles_distinct proxy_keys_unique match_sets_linked at h ⊢
  rw [h1, h2, h3, h4]
  exact h

/-- Token reception leaves the invariant alone: it touches the entity match table and the
record of plugin calls only. -/
theorem set_participant_crypto_tokens_inv (gv gv1 : ddsi_domaingv) (pp_ptr proxypp_ptr : ddsi_guid_t)
    (tokens : List Nat) (set_ok : Bool)
    (h : q_omg_security_set_participant_crypto_tokens gv pp_ptr proxypp_ptr tokens set_ok = some gv1)
    (hinv : state_inv gv) : state_inv gv1 := by
  unfold q_omg_security_set_participant_crypto_tokens at h
  split at h
  · split at h
    · injection h with h; subst h; exact hinv
    · split at h
      · split at h
        · injection h with h; subst h
          exact state_inv_congr gv _ rfl rfl rfl rfl hinv
        · split at h
          · injection h with h; subst h
            exact state_inv_congr gv _ rfl rfl rfl rfl hinv
          · injection h with h; subst h
            exact state_inv_congr gv _ rfl rfl rfl rfl hinv
      · exact absurd h (by simp)
  · exact absurd h (by simp)

/-- Writing an object back at its own address keeps addresses and GUIDs in agreement. -/
theorem heap_ok_set_participant (gv : ddsi_domaingv) (pp : participant) (h : heap_ok gv) :
    heap_ok (set_participant gv pp) := by
  refine ⟨?_, h.2⟩
  intro g q hq
  simp only [set_participant] at hq
  split at hq
  · injection hq with hq; subst hq; rename_i hg; exact hg.symm
  · exact h.1 g q hq

/-- Writing a proxy object back at its own address keeps addresses and GUIDs in agreement. -/
theorem heap_ok_set_proxy_participant (gv : ddsi_domaingv) (px : proxy_participant)
    (h : heap_ok gv) : heap_ok (set_proxy_participant gv px) := by
  refine ⟨h.1, ?_⟩
  intro g q hq
  simp only [set_proxy_participant] at hq
  split at hq
  · injection hq with hq; subst hq; rename_i hg; exact hg.symm
  · exact h.2 g q hq

/-- Detaching the security state of a local participant for deferred cleanup keeps the
invariant. -/
theorem deregister_participant_inv (gv gv1 : ddsi_domaingv) (pp_ptr : ddsi_guid_t)
    (h : q_omg_security_deregister_participant gv pp_ptr = some gv1)
    (hinv : state_inv gv) : state_inv gv1 := by
  unfold q_omg_security_deregister_participant at h
  split at h
  · exact absurd h (by simp)
  · rename_i pp hpp
    split at h
    · injection h with h; subst h; exact hinv
    · split at h
      · exact absurd h (by simp)
      · rename_i sa hsa
        obtain ⟨hheap, hdist, hkeys, hlink⟩ := hinv
        have hguid : pp.guid = pp_ptr := hheap.1 pp_ptr pp hpp
        -- the garbage set after the optional insertion
        have key : ∀ gva : ddsi_domaingv,
            gva.participants = gv.participants → gva.proxy_participants = gv.proxy_participants →
            gva.pp_index = gv.pp_index →
            (∀ c ∈ gva.security_garbage, c ∈ gv.security_garbage ∨ c.sec_attr = sa) →
            ∀ cs, state_inv (set_participant (log_calls gva cs) { pp with sec_attr := none }) := by
          intro gva e1 e2 e3 hg cs
          have hpart : ∀ g q, (set_participant (log_calls gva cs) { pp with sec_attr := none }).participants g
              = some q → (g = pp_ptr ∧ q = { pp with sec_attr := none }) ∨
                (g ≠ pp_ptr ∧ gv.participants g = some q) := by
            intro g q hq
            simp only [set_participant, log_calls, e1] at hq
            split at hq
            · rename_i hg'
              injection hq with hq
              exact Or.inl ⟨hg'.trans hguid, hq.symm⟩
            · rename_i hg'
              exact Or.inr ⟨fun hc => hg' (hc.trans hguid.symm), hq⟩
          refine ⟨?_, ⟨?_, ?_⟩, ?_, ?_⟩
          · apply heap_ok_set_participant
            exact ⟨fun g q hq => hheap.1 g q (by simpa [log_calls, e1] using hq),
                   fun g q hq => hheap.2 g q (by simpa [log_calls, e2] using hq)⟩
          · intro g1 g2 p1 p2 s1 s2 hp1 hp2 hs1 hs2 heq
            rcases hpart g1 p1 hp1 with ⟨-, hq⟩ | ⟨-, hq1⟩
            · rw [hq] at hs1; simp at hs1
            · rcases hpart g2 p2 hp2 with ⟨-, hq⟩ | ⟨-, hq2⟩
              · rw [hq] at hs2; simp at hs2
              · exact hdist.1 g1 g2 p1 p2 s1 s2 hq1 hq2 hs1 hs2 heq
          · intro g p s c hp hs hc
            rcases hpart g p hp with ⟨-, hq⟩ | ⟨hne, hq1⟩
            · rw [hq] at hs; simp at hs
            · have hc' : c ∈ gva.security_garbage := by
                simpa [set_participant, log_calls] using hc
              rcases hg c hc' with h1 | h1
              · exact hdist.2 g p s c hq1 hs h1
              · intro heq
                rw [h1] at heq
                exact hne (hdist.1 g pp_ptr p pp s sa hq1 hpp hs hsa heq.symm)
          · intro g p s hp hs
            rcases hpart g p hp with ⟨-, hq⟩ | ⟨-, hq1⟩
            · rw [hq] at hs; simp at hs
            · exact hkeys g p s hq1 hs
          · intro g p s pc hidx hp hs hpc
            rcases hpart g p hp with ⟨-, hq⟩ | ⟨-, hq1⟩
            · rw [hq] at hs; simp at hs
            · have hidx' : gv.pp_index g = true := by
                simpa [set_participant, log_calls, e3] using hidx
              obtain ⟨px, ps, pm, h1, h2, h3, h4, h5⟩ := hlink g p s pc hidx' hq1 hs hpc
              refine ⟨px, ps, pm, ?_, h2, h3, h4, h5⟩
              simpa [set_participant, log_calls, e2] using h1
        by_cases hnil : sa.crypto_handle ≠ DDS_SECURITY_HANDLE_NIL
        · dsimp only at h
          rw [if_pos hnil] at h
          cases hins : avl_insert compare_security_attribute (fun c => c.sec_attr)
              gv.security_garbage { guid := pp.guid, sec_attr := sa } with
          | none => rw [hins] at h; exact absurd h (by simp)
          | some sgc =>
            rw [hins] at h
            dsimp only at h
            injection h with h
            subst h
            refine key _ ?_ ?_ ?_ ?_ _
            · rfl
            · rfl
            · rfl
            intro c hc
            rcases (mem_avl_insert _ _ _ _ _ hins c).mp hc with h1 | h1
            · right; rw [h1]
            · left; exact h1
        · dsimp only at h
          rw [if_neg hnil] at h
          dsimp only at h
          injection h with h
          subst h
          refine key _ ?_ ?_ ?_ ?_ _
          · rfl
          · rfl
          · rfl
          intro c hc
          exact Or.inl hc


/-- Creating the two mirrored match elements keeps the invariant. -/
theorem match_proxypp_pp_inv (gv gv4 : ddsi_domaingv) (pp : participant)
    (proxypp : proxy_participant) (idh ch ph ss : Int)
    (hpp : gv.participants pp.guid = some pp)
    (hpx : gv.proxy_participants proxypp.guid = some proxypp)
    (h : match_proxypp_pp gv pp proxypp idh ch ph ss = some gv4)
    (hinv : state_inv gv) : state_inv gv4 := by
  obtain ⟨hheap, hdist, hkeys, hlink⟩ := hinv
  unfold match_proxypp_pp at h
  split at h
  swap
  · exact absurd h (by simp)
  rename_i sa ps hsa hps
  dsimp only at h
  cases hins1 : avl_insert compare_crypto_handle
      (fun pm : proxypp_pp_match => pm.pp_crypto_handle) ps.participants
      (proxypp_pp_match_new pp sa.crypto_handle idh ch ph ss) with
  | none => rw [hins1] at h; exact absurd h (by simp)
  | some t1 =>
    rw [hins1] at h
    dsimp only at h
    cases hins2 : avl_insert compare_guid (fun pm : pp_proxypp_match => pm.proxypp_guid)
        sa.proxy_participants
        (pp_proxypp_match_new proxypp ch) with
    | none => rw [hins2] at h; exact absurd h (by simp)
    | some t2 =>
      rw [hins2] at h
      dsimp only at h
      injection h with h
      subst h
      -- the objects after the call
      have hpart : ∀ g q, (set_participant
            (set_proxy_participant gv { proxypp with sec_attr := some { participants := t1 } })
            { pp with sec_attr := some { sa with proxy_participants := t2 } }).participants g = some q →
          (g = pp.guid ∧ q = { pp with sec_attr := some { sa with proxy_participants := t2 } }) ∨
          (g ≠ pp.guid ∧ gv.participants g = some q) := by
        intro g q hq
        simp only [set_participant, set_proxy_participant] at hq
        split at hq
        · rename_i hg
          injection hq with hq
          exact Or.inl ⟨hg, hq.symm⟩
        · rename_i hg
          exact Or.inr ⟨hg, hq⟩
      have hfresh1 := avl_insert_fresh _ _ _ _ _ hins1
      have hfresh2 := avl_insert_fresh _ _ _ _ _ hins2
      refine ⟨?_, ⟨?_, ?_⟩, ?_, ?_⟩
      · exact heap_ok_set_participant _ _ (heap_ok_set_proxy_participant _ _ hheap)
      · intro g1 g2 p1 p2 s1 s2 hp1 hp2 hs1 hs2 heq
        have old : ∀ g q s, (set_participant
            (set_proxy_participant gv { proxypp with sec_attr := some { participants := t1 } })
            { pp with sec_attr := some { sa with proxy_participants := t2 } }).participants g = some q →
            q.sec_attr = some s → ∃ q0 s0, gv.participants g = some q0 ∧ q0.sec_attr = some s0 ∧
              s0.crypto_handle = s.crypto_handle := by
          intro g q s hq hs
          rcases hpart g q hq with ⟨hg, hq1⟩ | ⟨-, hq1⟩
          · rw [hq1] at hs
            injection hs with hs
            subst hs
            exact ⟨pp, sa, hg ▸ hpp, hsa, rfl⟩
          · exact ⟨q, s, hq1, hs, rfl⟩
        obtain ⟨q1, t1', ha1, hb1, hc1⟩ := old g1 p1 s1 hp1 hs1
        obtain ⟨q2, t2', ha2, hb2, hc2⟩ := old g2 p2 s2 hp2 hs2
        exact hdist.1 g1 g2 q1 q2 t1' t2' ha1 ha2 hb1 hb2 (by rw [hc1, hc2, heq])
      · intro g p s c hp hs hc
        have hc' : c ∈ gv.security_garbage := hc
        rcases hpart g p hp with ⟨hg, hq1⟩ | ⟨-, hq1⟩
        · rw [hq1] at hs
          injection hs with hs
          subst hs
          exact hdist.2 pp.guid pp sa c hpp hsa hc'
        · exact hdist.2 g p s c hq1 hs hc'
      · intro g p s hp hs
        rcases hpart g p hp with ⟨-, hq1⟩ | ⟨-, hq1⟩
        · rw [hq1] at hs
          injection hs with hs
          subst hs
          exact avl_insert_nodup compare_guid (fun pm : pp_proxypp_match => pm.proxypp_guid)
            guid_compare_eq_zero _ _ _ hins2 (hkeys pp.guid pp sa hpp hsa)
        · exact hkeys g p s hq1 hs
      · intro g p s pc hidx hp hs hpc
        have hidx' : gv.pp_index g = true := hidx
        have hprox : ∀ g',
            (set_participant
              (set_proxy_participant gv { proxypp with sec_attr := some { participants := t1 } })
              { pp with sec_attr := some { sa with proxy_participants := t2 } }).proxy_participants g'
            = if g' = proxypp.guid then
                some { proxypp with sec_attr := some { participants := t1 } }
              else gv.proxy_participants g' := fun g' => rfl
        rcases hpart g p hp with ⟨hg, hq1⟩ | ⟨hg, hq1⟩
        · -- the participant that was registered
          rw [hq1] at hs
          injection hs with hs
          subst hs
          rcases (mem_avl_insert _ _ _ _ _ hins2 pc).mp hpc with hnew | hold
          · subst hnew
            refine ⟨{ proxypp with sec_attr := some { participants := t1 } }, { participants := t1 },
              proxypp_pp_match_new pp sa.crypto_handle idh ch ph ss, ?_, rfl, ?_, rfl, hg.symm⟩
            · rw [hprox]; simp [pp_proxypp_match_new]
            · apply (filter_avl_insert _ _ _ _ _ hins1 _).2
              · rw [List.filter_eq_nil_iff]
                intro x hx hk
                apply hfresh1 x hx
                rw [compare_crypto_handle_eq_zero]
                simpa [proxypp_pp_match_new] using hk
              · simp [proxypp_pp_match_new]
          · have hne : pc.proxypp_guid ≠ proxypp.guid := by
              intro hc
              apply hfresh2 pc hold
              show guid_compare _ _ = 0
              rw [guid_compare_eq_zero]
              simpa [pp_proxypp_match_new] using hc
            obtain ⟨px, ps', pm, h1, h2, h3, h4, h5⟩ :=
              hlink pp.guid pp sa pc (hg ▸ hidx') hpp hsa hold
            refine ⟨px, ps', pm, ?_, h2, h3, h4, h5.trans hg.symm⟩
            rw [hprox, if_neg hne]; exact h1
        · -- another participant
          obtain ⟨px, ps', pm, h1, h2, h3, h4, h5⟩ := hlink g p s pc hidx' hq1 hs hpc
          by_cases hR : pc.proxypp_guid = proxypp.guid
          · rw [hR, hpx] at h1
            injection h1 with h1
            subst h1
            rw [hps] at h2
            injection h2 with h2
            subst h2
            refine ⟨{ proxypp with sec_attr := some { participants := t1 } }, { participants := t1 },
              pm, ?_, rfl, ?_, h4, h5⟩
            · rw [hprox, if_pos hR]
            · rw [(filter_avl_insert _ _ _ _ _ hins1 _).1 ?_]
              · exact h3
              · have hh : sa.crypto_handle ≠ s.crypto_handle := by
                  intro hc
                  exact hg (hdist.1 g pp.guid p pp s sa hq1 hpp hs hsa hc.symm)
                simpa [proxypp_pp_match_new] using hh
          · refine ⟨px, ps', pm, ?_, h2, h3, h4, h5⟩
            rw [hprox, if_neg hR]; exact h1


/-- Registration of a remote participant keeps the invariant, whatever the plugins answer. -/
theorem register_remote_participant_inv (gv gv1 : ddsi_domaingv) (pp_ptr proxypp_ptr : ddsi_guid_t)
    (idh ss : Int) (ans : register_answers) (ret : Bool)
    (h : q_omg_security_register_remote_participant gv pp_ptr proxypp_ptr idh ss ans
      = some (ret, gv1))
    (hinv : state_inv gv) : state_inv gv1 := by
  unfold q_omg_security_register_remote_participant at h
  split at h
  swap
  · exact absurd h (by simp)
  rename_i pp proxypp hpp hpx
  have hg1 : pp.guid = pp_ptr := hinv.1.1 pp_ptr pp hpp
  have hg2 : proxypp.guid = proxypp_ptr := hinv.1.2 proxypp_ptr proxypp hpx
  split at h
  · exact absurd h (by simp)
  try dsimp only at h
  split at h
  · injection h with h
    injection h with _ h
    subst h
    exact state_inv_congr gv _ rfl rfl rfl rfl hinv
  split at h
  · exact absurd h (by simp)
  rename_i sa hsa
  try dsimp only at h
  split at h
  · injection h with h
    injection h with _ h
    subst h
    exact state_inv_congr gv _ rfl rfl rfl rfl hinv
  split at h
  · exact absurd h (by simp)
  rename_i gv4 hm
  have hinv4 : state_inv gv4 := by
    refine match_proxypp_pp_inv _ gv4 pp proxypp idh _ _ ss ?_ ?_ hm ?_
    · rw [hg1]; exact hpp
    · rw [hg2]; exact hpx
    · exact state_inv_congr gv _ rfl rfl rfl rfl hinv
  split at h
  · split at h
    · injection h with h
      injection h with _ h
      subst h
      exact state_inv_congr gv4 _ rfl rfl rfl rfl hinv4
    · injection h with h
      injection h with _ h
      subst h
      exact state_inv_congr gv4 _ rfl rfl rfl rfl hinv4
  · injection h with h
    injection h with _ h
    subst h
    exact hinv4


/-- Nothing changed is a special case of the relation on proxy objects. -/
theorem proxies_shrunk_refl (h : Int) (gv gv1 : ddsi_domaingv)
    (e : gv1.proxy_participants = gv.proxy_participants) : proxies_shrunk h gv gv1 := by
  refine ⟨fun g hg => by rw [e]; exact hg, fun g q hq => ⟨q, by rw [e]; exact hq, rfl, ?_⟩⟩
  intro ps hps
  exact ⟨ps, hps, fun _ _ => rfl⟩

/-- The relation on proxy objects composes. -/
theorem proxies_shrunk_trans (h : Int) (gv gv1 gv2 : ddsi_domaingv)
    (h1 : proxies_shrunk h gv gv1) (h2 : proxies_shrunk h gv1 gv2) : proxies_shrunk h gv gv2 := by
  refine ⟨fun g hg => h2.1 g (h1.1 g hg), ?_⟩
  intro g q hq
  obtain ⟨q1, ha, hb, hc⟩ := h1.2 g q hq
  obtain ⟨q2, ha2, hb2, hc2⟩ := h2.2 g q1 ha
  refine ⟨q2, ha2, hb2.trans hb, ?_⟩
  intro ps hps
  obtain ⟨ps1, hd, he⟩ := hc ps hps
  obtain ⟨ps2, hd2, he2⟩ := hc2 ps1 hd
  exact ⟨ps2, hd2, fun p hp => (he2 p hp).trans (he p hp)⟩

/-- What proxypp_pp_unrelate changes: the entity match table, the record of calls, and the
entry keyed by the given crypto handle in the proxy participant it is applied to. -/
theorem proxypp_pp_unrelate_effect (gv : ddsi_domaingv) (proxypp : proxy_participant)
    (pp_guid : ddsi_guid_t) (h : Int)
    (hpx : gv.proxy_participants proxypp.guid = some proxypp) :
    (proxypp_pp_unrelate gv proxypp pp_guid h).participants = gv.participants ∧
    (proxypp_pp_unrelate gv proxypp pp_guid h).pp_index = gv.pp_index ∧
    (proxypp_pp_unrelate gv proxypp pp_guid h).proxypp_index = gv.proxypp_index ∧
    (proxypp_pp_unrelate gv proxypp pp_guid h).security_garbage = gv.security_garbage ∧
    proxies_shrunk h gv (proxypp_pp_unrelate gv proxypp pp_guid h) := by
  unfold proxypp_pp_unrelate
  split
  · exact ⟨rfl, rfl, rfl, rfl, proxies_shrunk_refl h gv gv rfl⟩
  · rename_i ps hps
    dsimp only
    split
    · rename_i pm hpm
      refine ⟨rfl, rfl, rfl, rfl, ?_, ?_⟩
      · intro g hg
        simp only [log_calls, set_proxy_participant]
        rw [if_neg]
        · exact hg
        · intro hc
          rw [hc, hpx] at hg
          exact absurd hg (by simp)
      · intro g q hq
        simp only [log_calls, set_proxy_participant]
        by_cases hgx : g = proxypp.guid
        · rw [if_pos hgx]
          rw [hgx, hpx] at hq
          injection hq with hq
          subst hq
          refine ⟨_, rfl, rfl, ?_⟩
          intro ps0 hps0
          rw [hps] at hps0
          injection hps0 with hps0
          subst hps0
          refine ⟨_, rfl, ?_⟩
          intro p hp
          exact filter_avl_delete compare_crypto_handle (fun pm => pm.pp_crypto_handle) _ h p
            (fun x hx => hp x ((compare_crypto_handle_eq_zero _ _).mp hx))
        · rw [if_neg hgx]
          exact ⟨q, hq, rfl, fun ps0 hps0 => ⟨ps0, hps0, fun _ _ => rfl⟩⟩
    · exact ⟨rfl, rfl, rfl, rfl, proxies_shrunk_refl h gv _ rfl⟩

/-- The relation on proxy objects keeps addresses and GUIDs in agreement. -/
theorem proxies_shrunk_heap (h : Int) (gv gv1 : ddsi_domaingv) (hs : proxies_shrunk h gv gv1)
    (hheap : ∀ g px, gv.proxy_participants g = some px → px.guid = g) :
    ∀ g px, gv1.proxy_participants g = some px → px.guid = g := by
  intro g px hpx
  cases hq : gv.proxy_participants g with
  | none => rw [hs.1 g hq] at hpx; exact absurd hpx (by simp)
  | some q =>
    obtain ⟨q1, ha, hb, -⟩ := hs.2 g q hq
    rw [ha] at hpx
    injection hpx with hpx
    subst hpx
    rw [hb]
    exact hheap g q hq

/-- The loop of the deferred cleanup only removes match entries keyed by the crypto handle
of the participant that is cleaned up. -/
theorem cleanup_loop_effect (pp_guid : ddsi_guid_t) (h : Int) (l : List pp_proxypp_match) :
    ∀ gv : ddsi_domaingv, (∀ g px, gv.proxy_participants g = some px → px.guid = g) →
    (cleanup_loop pp_guid h gv l).participants = gv.participants ∧
    (cleanup_loop pp_guid h gv l).pp_index = gv.pp_index ∧
    (cleanup_loop pp_guid h gv l).proxypp_index = gv.proxypp_index ∧
    (cleanup_loop pp_guid h gv l).security_garbage = gv.security_garbage ∧
    proxies_shrunk h gv (cleanup_loop pp_guid h gv l) := by
  induction l with
  | nil =>
    intro gv _
    exact ⟨rfl, rfl, rfl, rfl, proxies_shrunk_refl h gv gv rfl⟩
  | cons pm rest ih =>
    intro gv hheap
    unfold cleanup_loop
    have step : ∃ gva : ddsi_domaingv,
        (match entidx_lookup_proxy_participant_guid gv pm.proxypp_guid with
          | some proxypp => proxypp_pp_unrelate gv proxypp pp_guid h
          | none => gv) = gva ∧
        gva.participants = gv.participants ∧ gva.pp_index = gv.pp_index ∧
        gva.proxypp_index = gv.proxypp_index ∧
        gva.security_garbage = gv.security_garbage ∧ proxies_shrunk h gv gva := by
      cases hl : entidx_lookup_proxy_participant_guid gv pm.proxypp_guid with
      | none => exact ⟨gv, rfl, rfl, rfl, rfl, rfl, proxies_shrunk_refl h gv gv rfl⟩
      | some proxypp =>
        have hpx : gv.proxy_participants pm.proxypp_guid = some proxypp := by
          unfold entidx_lookup_proxy_participant_guid at hl
          split at hl
          · exact hl
          · exact absurd hl (by simp)
        have hg : proxypp.guid = pm.proxypp_guid := hheap _ _ hpx
        exact ⟨_, rfl, proxypp_pp_unrelate_effect gv proxypp pp_guid h (by rw [hg]; exact hpx)⟩
    obtain ⟨gva, hgva, e1, e2, e3, e4, e5⟩ := step
    rw [hgva]
    obtain ⟨f1, f2, f3, f4, f5⟩ := ih gva (proxies_shrunk_heap h gv gva e5 hheap)
    exact ⟨f1.trans e1, f2.trans e2, f3.trans e3, f4.trans e4, proxies_shrunk_trans h gv gva _ e5 f5⟩

/-- The deferred cleanup of a participant crypto handle keeps the invariant. -/
theorem cleanup_participant_crypto_handle_inv (gv gv1 : ddsi_domaingv) (crypto_handle : Int)
    (h : cleanup_participant_crypto_handle gv crypto_handle = some gv1)
    (hinv : state_inv gv) : state_inv gv1 := by
  obtain ⟨hheap, hdist, hkeys, hlink⟩ := hinv
  unfold cleanup_participant_crypto_handle at h
  split at h
  · exact absurd h (by simp)
  rename_i sgc info hrem
  dsimp only at h
  injection h with h
  subst h
  -- the record was in the garbage set and what is left of the set was there before
  have hmem : info ∈ gv.security_garbage ∧ ∀ c ∈ sgc, c ∈ gv.security_garbage := by
    unfold dds_security_garbage_remove_pp_crypto at hrem
    split at hrem
    · rename_i info1 hl
      injection hrem with h1 h2
      injection h2 with h2
      subst h1 h2
      exact ⟨(avl_lookup_some _ _ _ _ _ hl).1,
        fun c hc => (avl_delete_sublist _ _ _ _).subset hc⟩
    · injection hrem with h1 h2
      exact absurd h2 (by simp)
  obtain ⟨e1, e2, _, e4, e5⟩ := cleanup_loop_effect info.guid info.sec_attr.crypto_handle
    info.sec_attr.proxy_participants { gv with security_garbage := sgc } hheap.2
  refine ⟨⟨?_, ?_⟩, ⟨?_, ?_⟩, ?_, ?_⟩
  · intro g pp hpp
    have : gv.participants g = some pp := by
      simpa [log_calls, e1] using hpp
    exact hheap.1 g pp this
  · intro g px hpx
    exact proxies_shrunk_heap _ _ _ e5 hheap.2 g px (by simpa [log_calls] using hpx)
  · intro g1 g2 p1 p2 s1 s2 hp1 hp2
    have h1 : gv.participants g1 = some p1 := by simpa [log_calls, e1] using hp1
    have h2 : gv.participants g2 = some p2 := by simpa [log_calls, e1] using hp2
    exact hdist.1 g1 g2 p1 p2 s1 s2 h1 h2
  · intro g p s c hp hs hc
    have h1 : gv.participants g = some p := by simpa [log_calls, e1] using hp
    have h2 : c ∈ sgc := by simpa [log_calls, e4] using hc
    exact hdist.2 g p s c h1 hs (hmem.2 c h2)
  · intro g p s hp hs
    have h1 : gv.participants g = some p := by simpa [log_calls, e1] using hp
    exact hkeys g p s h1 hs
  · intro g p s pc hidx hp hs hpc
    have h1 : gv.participants g = some p := by simpa [log_calls, e1] using hp
    have h2 : gv.pp_index g = true := by simpa [log_calls, e2] using hidx
    obtain ⟨px, ps, pm, a1, a2, a3, a4, a5⟩ := hlink g p s pc h2 h1 hs hpc
    obtain ⟨q1, b1, -, b3⟩ := e5.2 pc.proxypp_guid px a1
    obtain ⟨ps1, c1, c2⟩ := b3 ps a2
    refine ⟨q1, ps1, pm, by simpa [log_calls] using b1, c1, ?_, a4, a5⟩
    rw [c2 _ ?_]
    · exact a3
    · intro x hx
      have hne := hdist.2 g p s info h1 hs hmem.1
      simp only [beq_eq_false_iff_ne, ne_eq]
      rw [hx]
      exact hne


/-- Nothing changed is a special case of the relation on local objects. -/
theorem locals_shrunk_refl (gv gv1 : ddsi_domaingv) (e : gv1.participants = gv.participants) :
    locals_shrunk gv gv1 := by
  refine ⟨fun g hg => by rw [e]; exact hg, fun g q hq => ⟨q, by rw [e]; exact hq, rfl, id, ?_⟩⟩
  intro sa hsa
  exact ⟨sa, hsa, rfl, List.Sublist.refl _⟩

/-- The relation on local objects composes. -/
theorem locals_shrunk_trans (gv gv1 gv2 : ddsi_domaingv)
    (h1 : locals_shrunk gv gv1) (h2 : locals_shrunk gv1 gv2) : locals_shrunk gv gv2 := by
  refine ⟨fun g hg => h2.1 g (h1.1 g hg), ?_⟩
  intro g q hq
  obtain ⟨q1, a1, a2, a3, a4⟩ := h1.2 g q hq
  obtain ⟨q2, b1, b2, b3, b4⟩ := h2.2 g q1 a1
  refine ⟨q2, b1, b2.trans a2, fun hn => b3 (a3 hn), ?_⟩
  intro sa hsa
  obtain ⟨sa1, c1, c2, c3⟩ := a4 sa hsa
  obtain ⟨sa2, d1, d2, d3⟩ := b4 sa1 c1
  exact ⟨sa2, d1, d2.trans c2, d3.trans c3⟩

/-- From an object after the steps back to the object before them. -/
theorem locals_shrunk_back (gv gv1 : ddsi_domaingv) (hs : locals_shrunk gv gv1)
    (g : ddsi_guid_t) (q1 : participant) (hq1 : gv1.participants g = some q1) :
    ∃ q, gv.participants g = some q ∧ q1.guid = q.guid ∧
      ∀ sa1, q1.sec_attr = some sa1 → ∃ sa, q.sec_attr = some sa ∧
        sa1.crypto_handle = sa.crypto_handle ∧
        sa1.proxy_participants.Sublist sa.proxy_participants := by
  cases hq : gv.participants g with
  | none => rw [hs.1 g hq] at hq1; exact absurd hq1 (by simp)
  | some q =>
    obtain ⟨q2, a1, a2, a3, a4⟩ := hs.2 g q hq
    rw [a1] at hq1
    injection hq1 with hq1
    subst hq1
    refine ⟨q, rfl, a2, ?_⟩
    intro sa1 hsa1
    cases hsa : q.sec_attr with
    | none => rw [a3 hsa] at hsa1; exact absurd hsa1 (by simp)
    | some sa =>
      obtain ⟨sa2, b1, b2, b3⟩ := a4 sa hsa
      rw [b1] at hsa1
      injection hsa1 with hsa1
      subst hsa1
      exact ⟨sa, rfl, b2, b3⟩

/-- What pp_proxypp_unrelate changes: the element naming the given proxy participant is
gone from the set of the local participant, everything else of the matching state stays. -/
theorem pp_proxypp_unrelate_effect (gv gv1 : ddsi_domaingv) (pp : participant)
    (proxypp_guid : ddsi_guid_t)
    (hpp : gv.participants pp.guid = some pp)
    (hkeys : ∀ sa, pp.sec_attr = some sa →
      (sa.proxy_participants.map (fun pc => pc.proxypp_guid)).Nodup)
    (h : pp_proxypp_unrelate gv pp proxypp_guid = some gv1) :
    gv1.proxy_participants = gv.proxy_participants ∧
    gv1.pp_index = gv.pp_index ∧
    gv1.security_garbage = gv.security_garbage ∧
    locals_shrunk gv gv1 ∧
    (∀ q sa1, gv1.participants pp.guid = some q → q.sec_attr = some sa1 →
      ∀ pc ∈ sa1.proxy_participants, pc.proxypp_guid ≠ proxypp_guid) := by
  unfold pp_proxypp_unrelate at h
  split at h
  · exact absurd h (by simp)
  rename_i sa hsa
  split at h
  · rename_i pm hpm
    dsimp only at h
    injection h with h
    subst h
    refine ⟨rfl, rfl, rfl, ⟨?_, ?_⟩, ?_⟩
    · intro g hg
      simp only [log_calls, set_participant]
      rw [if_neg]
      · exact hg
      · intro hc
        rw [hc, hpp] at hg
        exact absurd hg (by simp)
    · intro g q hq
      simp only [log_calls, set_participant]
      by_cases hgx : g = pp.guid
      · rw [if_pos hgx]
        rw [hgx, hpp] at hq
        injection hq with hq
        subst hq
        refine ⟨_, rfl, rfl, ?_, ?_⟩
        · intro hn; rw [hsa] at hn; exact absurd hn (by simp)
        · intro sa0 hsa0
          rw [hsa] at hsa0
          injection hsa0 with hsa0
          subst hsa0
          exact ⟨_, rfl, rfl, avl_delete_sublist _ _ _ _⟩
      · rw [if_neg hgx]
        exact ⟨q, hq, rfl, id, fun sa0 hsa0 => ⟨sa0, hsa0, rfl, List.Sublist.refl _⟩⟩
    · intro q sa1 hq hsa1 pc hpc
      simp only [log_calls, set_participant, if_true] at hq
      injection hq with hq
      subst hq
      injection hsa1 with hsa1
      subst hsa1
      exact avl_delete_no_key compare_guid (fun pm : pp_proxypp_match => pm.proxypp_guid)
        guid_compare_eq_zero _ _ (hkeys sa hsa) pc hpc
  · rename_i hnone
    injection h with h
    subst h
    refine ⟨rfl, rfl, rfl, locals_shrunk_refl gv gv rfl, ?_⟩
    intro q sa1 hq hsa1 pc hpc
    rw [hpp] at hq
    injection hq with hq
    subst hq
    rw [hsa] at hsa1
    injection hsa1 with hsa1
    subst hsa1
    intro hc
    exact avl_lookup_none _ _ _ _ hnone pc hpc ((guid_compare_eq_zero _ _).mpr hc)

/-- The relation on local objects keeps addresses and GUIDs in agreement. -/
theorem locals_shrunk_heap (gv gv1 : ddsi_domaingv) (hs : locals_shrunk gv gv1)
    (hheap : ∀ g pp, gv.participants g = some pp → pp.guid = g) :
    ∀ g pp, gv1.participants g = some pp → pp.guid = g := by
  intro g pp hpp
  obtain ⟨q, a1, a2, -⟩ := locals_shrunk_back gv gv1 hs g pp hpp
  rw [a2]
  exact hheap g q a1

/-- The relation on local objects keeps the keys of the sets free of duplicates. -/
theorem locals_shrunk_keys (gv gv1 : ddsi_domaingv) (hs : locals_shrunk gv gv1)
    (hkeys : proxy_keys_unique gv) : proxy_keys_unique gv1 := by
  intro g pp sa1 hpp hsa1
  obtain ⟨q, a1, -, a3⟩ := locals_shrunk_back gv gv1 hs g pp hpp
  obtain ⟨sa, b1, -, b3⟩ := a3 sa1 hsa1
  exact (hkeys g q sa a1 b1).sublist (b3.map _)

/-- The loop of the remote deregistration: the proxy objects, the index and the garbage set
stay, the sets of the local participants only lose elements, and every local participant
that is named by a node of the loop and listed in the entity index ends without an element
for the proxy participant. -/
theorem deregister_remote_loop_effect (proxypp_guid : ddsi_guid_t) (l : List proxypp_pp_match) :
    ∀ gv gv1 : ddsi_domaingv,
    (∀ g pp, gv.participants g = some pp → pp.guid = g) → proxy_keys_unique gv →
    deregister_remote_loop proxypp_guid gv l = some gv1 →
    gv1.proxy_participants = gv.proxy_participants ∧
    gv1.pp_index = gv.pp_index ∧
    gv1.security_garbage = gv.security_garbage ∧
    locals_shrunk gv gv1 ∧
    (∀ pm ∈ l, gv.pp_index pm.pp_guid = true →
      ∀ q sa1, gv1.participants pm.pp_guid = some q → q.sec_attr = some sa1 →
        ∀ pc ∈ sa1.proxy_participants, pc.proxypp_guid ≠ proxypp_guid) := by
  induction l with
  | nil =>
    intro gv gv1 _ _ h
    unfold deregister_remote_loop at h
    injection h with h
    subst h
    exact ⟨rfl, rfl, rfl, locals_shrunk_refl gv gv rfl, fun pm hpm => absurd hpm (by simp)⟩
  | cons pm rest ih =>
    intro gv gv1 hheap hkeys h
    unfold deregister_remote_loop at h
    -- the step for the first node
    have step : ∃ gva : ddsi_domaingv,
        (match entidx_lookup_participant_guid gv pm.pp_guid with
          | some pp => pp_proxypp_unrelate gv pp proxypp_guid
          | none => some gv) = some gva ∧
        gva.proxy_participants = gv.proxy_participants ∧ gva.pp_index = gv.pp_index ∧
        gva.security_garbage = gv.security_garbage ∧ locals_shrunk gv gva ∧
        (gv.pp_index pm.pp_guid = true →
          ∀ q sa1, gva.participants pm.pp_guid = some q → q.sec_attr = some sa1 →
            ∀ pc ∈ sa1.proxy_participants, pc.proxypp_guid ≠ proxypp_guid) := by
      cases hl : entidx_lookup_participant_guid gv pm.pp_guid with
      | none =>
        refine ⟨gv, rfl, rfl, rfl, rfl, locals_shrunk_refl gv gv rfl, ?_⟩
        intro hidx q sa1 hq
        unfold entidx_lookup_participant_guid at hl
        rw [if_pos hidx] at hl
        rw [hl] at hq
        exact absurd hq (by simp)
      | some pp =>
        have hpp : gv.participants pm.pp_guid = some pp := by
          unfold entidx_lookup_participant_guid at hl
          split at hl
          · exact hl
          · exact absurd hl (by simp)
        have hg : pp.guid = pm.pp_guid := hheap _ _ hpp
        rw [hl] at h
        dsimp only at h
        cases hu : pp_proxypp_unrelate gv pp proxypp_guid with
        | none => rw [hu] at h; exact absurd h (by simp)
        | some gva =>
          obtain ⟨e1, e2, e3, e4, e5⟩ := pp_proxypp_unrelate_effect gv gva pp proxypp_guid
            (by rw [hg]; exact hpp) (fun sa hsa => hkeys pm.pp_guid pp sa hpp hsa) hu
          refine ⟨gva, hu, e1, e2, e3, e4, ?_⟩
          intro _ q sa1 hq hsa1
          exact e5 q sa1 (by rw [hg]; exact hq) hsa1
    obtain ⟨gva, hgva, e1, e2, e3, e4, e5⟩ := step
    rw [hgva] at h
    dsimp only at h
    have hheap_a : ∀ g pp, (log_calls gva (proxypp_pp_match_free pm)).participants g = some pp →
        pp.guid = g := fun g pp hpp => locals_shrunk_heap gv gva e4 hheap g pp hpp
    have hkeys_a : proxy_keys_unique (log_calls gva (proxypp_pp_match_free pm)) :=
      fun g pp sa hpp hsa => locals_shrunk_keys gv gva e4 hkeys g pp sa hpp hsa
    obtain ⟨f1, f2, f3, f4, f5⟩ := ih (log_calls gva (proxypp_pp_match_free pm)) gv1
      hheap_a hkeys_a h
    have f4' : locals_shrunk gva gv1 := f4
    refine ⟨f1.trans e1, f2.trans e2, f3.trans e3, locals_shrunk_trans gv gva gv1 e4 f4', ?_⟩
    intro pm' hpm' hidx q sa1 hq hsa1 pc hpc
    rcases List.mem_cons.mp hpm' with hhead | htail
    · subst hhead
      obtain ⟨q0, a1, -, a3⟩ := locals_shrunk_back gva gv1 f4' pm'.pp_guid q hq
      obtain ⟨sa0, b1, -, b3⟩ := a3 sa1 hsa1
      exact e5 hidx q0 sa0 a1 b1 pc (b3.subset hpc)
    · exact f5 pm' htail (by rw [show (log_calls gva (proxypp_pp_match_free pm)).pp_index
        = gva.pp_index from rfl, e2]; exact hidx) q sa1 hq hsa1 pc hpc

/-- The deregistration of a remote participant keeps the invariant. -/
theorem deregister_remote_participant_inv (gv gv1 : ddsi_domaingv) (proxypp_ptr : ddsi_guid_t)
    (h : q_omg_security_deregister_remote_participant gv proxypp_ptr = some gv1)
    (hinv : state_inv gv) : state_inv gv1 := by
  obtain ⟨hheap, hdist, hkeys, hlink⟩ := hinv
  unfold q_omg_security_deregister_remote_participant at h
  split at h
  · exact absurd h (by simp)
  rename_i proxypp hpx
  have hgx : proxypp.guid = proxypp_ptr := hheap.2 _ _ hpx
  split at h
  · injection h with h
    subst h
    exact ⟨hheap, hdist, hkeys, hlink⟩
  rename_i ps hps
  split at h
  · exact absurd h (by simp)
  rename_i gvl hloop
  injection h with h
  subst h
  obtain ⟨e1, e2, e3, e4, e5⟩ := deregister_remote_loop_effect proxypp.guid ps.participants
    gv gvl hheap.1 hkeys hloop
  have hpart : ∀ g, (set_proxy_participant gvl { proxypp with sec_attr := none }).participants g
      = gvl.participants g := fun g => rfl
  refine ⟨⟨?_, ?_⟩, ⟨?_, ?_⟩, ?_, ?_⟩
  · exact fun g pp hpp => locals_shrunk_heap gv gvl e4 hheap.1 g pp hpp
  · apply (heap_ok_set_proxy_participant gvl _ ⟨fun g pp hpp =>
      locals_shrunk_heap gv gvl e4 hheap.1 g pp hpp, ?_⟩).2
    rw [e1]
    exact hheap.2
  · intro g1 g2 p1 p2 s1 s2 hp1 hp2 hs1 hs2 heq
    obtain ⟨q1, a1, -, a3⟩ := locals_shrunk_back gv gvl e4 g1 p1 hp1
    obtain ⟨q2, b1, -, b3⟩ := locals_shrunk_back gv gvl e4 g2 p2 hp2
    obtain ⟨t1, c1, c2, -⟩ := a3 s1 hs1
    obtain ⟨t2, d1, d2, -⟩ := b3 s2 hs2
    exact hdist.1 g1 g2 q1 q2 t1 t2 a1 b1 c1 d1 (by rw [← c2, ← d2, heq])
  · intro g p s c hp hs hc
    obtain ⟨q1, a1, -, a3⟩ := locals_shrunk_back gv gvl e4 g p hp
    obtain ⟨t1, c1, c2, -⟩ := a3 s hs
    have hc' : c ∈ gv.security_garbage := by
      have : c ∈ gvl.security_garbage := hc
      rw [e3] at this
      exact this
    rw [c2]
    exact hdist.2 g q1 t1 c a1 c1 hc'
  · exact fun g pp sa hpp hsa => locals_shrunk_keys gv gvl e4 hkeys g pp sa hpp hsa
  · intro g p s pc hidx hp hs hpc
    have hidx' : gv.pp_index g = true := by
      have : gvl.pp_index g = true := hidx
      rw [e2] at this
      exact this
    obtain ⟨q1, a1, -, a3⟩ := locals_shrunk_back gv gvl e4 g p hp
    obtain ⟨t1, c1, c2, c3⟩ := a3 s hs
    obtain ⟨px, ps0, pm, b1, b2, b3, b4, b5⟩ := hlink g q1 t1 pc hidx' a1 c1 (c3.subset hpc)
    by_cases hR : pc.proxypp_guid = proxypp.guid
    · -- the element would name the deregistered proxy participant: the loop removed it
      exfalso
      rw [hR, hgx, hpx] at b1
      injection b1 with b1
      subst b1
      rw [hps] at b2
      injection b2 with b2
      subst b2
      have hmem : pm ∈ ps.participants := by
        have : pm ∈ ps.participants.filter (fun m => m.pp_crypto_handle == t1.crypto_handle) := by
          rw [b3]; exact List.mem_singleton.mpr rfl
        exact (List.mem_filter.mp this).1
      exact e5 pm hmem (by rw [b5]; exact hidx') p s (by rw [b5]; exact hp) hs pc hpc hR
    · refine ⟨px, ps0, pm, ?_, b2, ?_, b4, b5⟩
      · show (if pc.proxypp_guid = proxypp.guid then _ else gvl.proxy_participants pc.proxypp_guid)
          = some px
        rw [if_neg hR, e1]
        exact b1
      · rw [c2]; exact b3


/-- An initial state satisfies the invariant. -/
theorem initial_state_inv (gv : ddsi_domaingv) (h : initial_state gv) : state_inv gv := by
  obtain ⟨hheap, hd, hempty, hg⟩ := h
  refine ⟨hheap, ⟨hd, ?_⟩, ?_, ?_⟩
  · intro g p s c _ _ hc
    rw [hg] at hc
    exact absurd hc (by simp)
  · intro g pp sa hpp hsa
    rw [hempty g pp sa hpp hsa]
    exact List.nodup_nil
  · intro g pp sa pc _ hpp hsa hpc
    rw [hempty g pp sa hpp hsa] at hpc
    exact absurd hpc (by simp)

/-- Every operation keeps the invariant. -/
theorem apply_op_inv (gv gv1 : ddsi_domaingv) (op : sec_op) (h : apply_op gv op = some gv1)
    (hinv : state_inv gv) : state_inv gv1 := by
  cases op with
  | register_remote_participant pp proxypp idh ss ans =>
    simp only [apply_op, Option.map_eq_some'] at h
    obtain ⟨⟨ret, gv2⟩, h1, h2⟩ := h
    subst h2
    exact register_remote_participant_inv gv gv2 pp proxypp idh ss ans ret h1 hinv
  | deregister_remote_participant proxypp =>
    exact deregister_remote_participant_inv gv gv1 proxypp h hinv
  | deregister_participant pp =>
    exact deregister_participant_inv gv gv1 pp h hinv
  | cleanup_participant_crypto_handle c =>
    exact cleanup_participant_crypto_handle_inv gv gv1 c h hinv
  | set_participant_crypto_tokens pp proxypp tokens ok =>
    exact set_participant_crypto_tokens_inv gv gv1 pp proxypp tokens ok h hinv

/-- Every sequence of operations keeps the invariant. -/
theorem run_ops_inv (ops : List sec_op) : ∀ gv gv1 : ddsi_domaingv,
    run_ops gv ops = some gv1 → state_inv gv → state_inv gv1 := by
  induction ops with
  | nil =>
    intro gv gv1 h hinv
    unfold run_ops at h
    injection h with h
    subst h
    exact hinv
  | cons op rest ih =>
    intro gv gv1 h hinv
    unfold run_ops at h
    cases ha : apply_op gv op with
    | none => rw [ha] at h; exact absurd h (by simp)
    | some gva =>
      rw [ha] at h
      exact ih gva gv1 h (apply_op_inv gv gva op ha hinv)

/-- C6: in every state reached from an initial state by registrations and deregistrations of
remote participants, deregistrations of local participants with their deferred cleanup, and
token receptions, for every local participant L listed in the entity index and every
element of its proxy_participants set: the proxy participant R the element names has a
participants set that contains exactly one entry keyed by the crypto handle of L, and that
entry stores the same proxypp_crypto_handle as the element of L. -/
theorem match_sets_agree (gv0 gv : ddsi_domaingv) (ops : List sec_op)
    (hinit : initial_state gv0) (hrun : run_ops gv0 ops = some gv)
    (g : ddsi_guid_t) (pp : participant) (sa : participant_sec_attributes)
    (pc : pp_proxypp_match)
    (hidx : gv.pp_index g = true) (hpp : gv.participants g = some pp)
    (hsa : pp.sec_attr = some sa) (hpc : pc ∈ sa.proxy_participants) :
    ∃ px ps pm, gv.proxy_participants pc.proxypp_guid = some px ∧ px.sec_attr = some ps ∧
      ps.participants.filter (fun m => m.pp_crypto_handle == sa.crypto_handle) = [pm] ∧
      pm.proxypp_crypto_handle = pc.proxypp_crypto_handle := by
  obtain ⟨-, -, -, hlink⟩ := run_ops_inv ops gv0 gv hrun (initial_state_inv gv0 hinit)
  obtain ⟨px, ps, pm, h1, h2, h3, h4, -⟩ := hlink g pp sa pc hidx hpp hsa hpc
  exact ⟨px, ps, pm, h1, h2, h3, h4⟩

/-- The concrete state with one local and one proxy participant is an initial state. -/
theorem gv_one_pair_initial : initial_state gv_one_pair := by
  have hpart : ∀ g pp, gv_one_pair.participants g = some pp → g = guid_L ∧ pp = pp_plain := by
    intro g pp h
    simp only [gv_one_pair] at h
    split at h
    · rename_i hg
      injection h with h
      exact ⟨hg, h.symm⟩
    · exact absurd h (by simp)
  refine ⟨⟨?_, ?_⟩, ?_, ?_, rfl⟩
  · intro g pp h
    obtain ⟨h1, h2⟩ := hpart g pp h
    rw [h1, h2]
    rfl
  · intro g px h
    simp only [gv_one_pair] at h
    split at h
    · rename_i hg
      injection h with h
      rw [hg, ← h]
      rfl
    · exact absurd h (by simp)
  · intro g1 g2 p1 p2 s1 s2 h1 h2 _ _ _
    rw [(hpart g1 p1 h1).1, (hpart g2 p2 h2).1]
  · intro g pp sa h hsa
    rw [(hpart g pp h).2] at hsa
    simp only [pp_plain] at hsa
    injection hsa with hsa
    rw [← hsa]

/-- Witness for C6: after one registration the element of the local participant has its
single counterpart in the set of the proxy participant. -/
theorem match_sets_agree_witness :
    initial_state gv_one_pair ∧
    run_ops gv_one_pair
      [sec_op.register_remote_participant guid_L guid_R 11 13 answers_tokens_rejected]
      = some gv_registered ∧
    (⟨guid_R, 7⟩ : pp_proxypp_match) ∈ [({ proxypp_guid := guid_R, proxypp_crypto_handle := 7 } :
      pp_proxypp_match)] ∧
    ∃ px ps pm, gv_registered.proxy_participants guid_R = some px ∧ px.sec_attr = some ps ∧
      ps.participants.filter (fun m => m.pp_crypto_handle == 5) = [pm] ∧
      pm.proxypp_crypto_handle = 7 :=
  ⟨gv_one_pair_initial, rfl, by decide,
   match_sets_agree gv_one_pair gv_registered
     [sec_op.register_remote_participant guid_L guid_R 11 13 answers_tokens_rejected]
     gv_one_pair_initial rfl guid_L pp_registered sec_attr_registered
     ⟨guid_R, 7⟩ (by decide) (by decide) rfl (by decide)⟩

/-! ### Proxy participant deletion (C18) -/

/-- C18: is_proxy_participant_deletion_allowed returns true exactly when the request comes
from the secure SPDP writer, or the entity index knows the proxy participant and its
ParticipantMatch set is empty (no security state, or no match in it); for a proxy participant
with a non-empty ParticipantMatch set it returns false for every other source entity id. -/
theorem deletion_allowed_iff (gv : ddsi_domaingv) (guid : ddsi_guid_t) (pwr_entityid : Nat) :
    (is_proxy_participant_deletion_allowed gv guid pwr_entityid = true ↔
      (pwr_entityid = NN_ENTITYID_SPDP_RELIABLE_BUILTIN_PARTICIPANT_SECURE_WRITER ∨
       ∃ proxypp, entidx_lookup_proxy_participant_guid gv guid = some proxypp ∧
         ∀ ps, proxypp.sec_attr = some ps → ps.participants = [])) ∧
    (∀ proxypp ps, entidx_lookup_proxy_participant_guid gv guid = some proxypp →
      proxypp.sec_attr = some ps → ps.participants ≠ [] →
      pwr_entityid ≠ NN_ENTITYID_SPDP_RELIABLE_BUILTIN_PARTICIPANT_SECURE_WRITER →
      is_proxy_participant_deletion_allowed gv guid pwr_entityid = false) := by
  have auth : ∀ proxypp : proxy_participant, proxypp_is_authenticated proxypp = false ↔
      ∀ ps, proxypp.sec_attr = some ps → ps.participants = [] := by
    intro proxypp
    unfold proxypp_is_authenticated
    cases h : proxypp.sec_attr with
    | none => simp
    | some ps => simp [List.isEmpty_iff]
  constructor
  · unfold is_proxy_participant_deletion_allowed
    by_cases hw : pwr_entityid = NN_ENTITYID_SPDP_RELIABLE_BUILTIN_PARTICIPANT_SECURE_WRITER
    · simp [hw]
    · rw [if_neg hw]
      cases hl : entidx_lookup_proxy_participant_guid gv guid with
      | none => simp [hw]
      | some proxypp =>
        simp only [Bool.not_eq_true', hw, false_or, Option.some.injEq, exists_eq_left']
        exact auth proxypp
  · intro proxypp ps hl hs hne hw
    unfold is_proxy_participant_deletion_allowed
    rw [if_neg hw, hl]
    simp only [Bool.not_eq_false']
    by_contra hc
    have hf : proxypp_is_authenticated proxypp = false := by simpa using hc
    exact hne ((auth proxypp).1 hf ps hs)

/-- C18 at a concrete state: the registered proxy participant of the scenario has one
ParticipantMatch, so only the secure SPDP writer may delete it. -/
theorem deletion_allowed_iff_witness :
    is_proxy_participant_deletion_allowed gv_registered guid_R
      0x100c2 = false ∧
    is_proxy_participant_deletion_allowed gv_registered guid_R
      NN_ENTITYID_SPDP_RELIABLE_BUILTIN_PARTICIPANT_SECURE_WRITER = true :=
  ⟨(deletion_allowed_iff gv_registered guid_R
      0x100c2).2
      ⟨guid_R, ⟨0, 0⟩, some ⟨[⟨guid_L, 11, 5, 7, 17, 13⟩]⟩⟩ ⟨[⟨guid_L, 11, 5, 7, 17, 13⟩]⟩
      (by decide) rfl (by decide) (by decide),
   (deletion_allowed_iff gv_registered guid_R
      NN_ENTITYID_SPDP_RELIABLE_BUILTIN_PARTICIPANT_SECURE_WRITER).1.2 (Or.inl rfl)⟩

/-! ### Entity match table (C11, C12) -/

/-- GUID pairs compare equal exactly when they are equal. -/
theorem compare_guid_pair_eq_zero (a b : guid_pair) : compare_guid_pair a b = 0 ↔ a = b := by
  cases a with | mk s1 d1 => cases b with | mk s2 d2 =>
  unfold compare_guid_pair
  simp only [guid_pair.mk.injEq]
  by_cases hs : guid_compare s1 s2 = 0
  · rw [if_pos hs, guid_compare_eq_zero]
    simp [(guid_compare_eq_zero s1 s2).1 hs]
  · rw [if_neg hs]
    have : s1 ≠ s2 := fun h => hs ((guid_compare_eq_zero s1 s2).2 h)
    simp [hs, this]

/-- A lookup in the table after an insertion under the same key finds the inserted node. -/
theorem avl_lookup_insert_self {α κ : Type} (cmp : κ → κ → Int) (key : α → κ)
    (hrefl : ∀ a, cmp a a = 0) (t t1 : List α) (n : α)
    (h : avl_insert cmp key t n = some t1) : avl_lookup cmp key t1 (key n) = some n := by
  have hfresh := avl_insert_fresh cmp key t t1 n h
  unfold avl_insert at h
  split at h
  · exact absurd h (by simp)
  · injection h with h
    subst h
    unfold avl_lookup
    rw [List.find?_append]
    have h1 : (t.takeWhile (fun x => decide (cmp (key x) (key n) < 0))).find?
        (fun x => cmp (key x) (key n) == 0) = none := by
      rw [List.find?_eq_none]
      intro x hx
      have := hfresh x ((List.takeWhile_sublist _).subset hx)
      simpa using this
    rw [h1]
    simp [hrefl]

/-- An insertion puts the new node between two parts of the old table. -/
theorem avl_insert_split {α κ : Type} (cmp : κ → κ → Int) (key : α → κ) (t t1 : List α) (n : α)
    (h : avl_insert cmp key t n = some t1) : ∃ l1 l2, t = l1 ++ l2 ∧ t1 = l1 ++ n :: l2 := by
  unfold avl_insert at h
  split at h
  · exact absurd h (by simp)
  · injection h with h
    exact ⟨_, _, (List.takeWhile_append_dropWhile _ t).symm, h.symm⟩

/-- An insertion under a key the table lacks succeeds. -/
theorem avl_insert_of_lookup_none {α κ : Type} (cmp : κ → κ → Int) (key : α → κ) (t : List α)
    (n : α) (h : avl_lookup cmp key t (key n) = none) :
    ∃ t1, avl_insert cmp key t n = some t1 := by
  unfold avl_insert
  rw [h]
  exact ⟨_, rfl⟩

/-- C11: find_or_create_entity_match returns an entry with key (src, dst); an entry found
under the key is returned with the table unchanged; otherwise the entry returned is new
(matched = false, crypto_handle = 0, no tokens) and the table is the old one with exactly
that entry inserted; a second call returns the same entry and leaves the table as it is;
a table with at most one entry per key stays so. -/
theorem find_or_create_entity_match_spec (list : List security_entity_match)
    (src dst : ddsi_guid_t) :
    (find_or_create_entity_match list src dst).2.guids = ⟨src, dst⟩ ∧
    (∀ m, find_entity_match_locked list src dst = some m →
      find_or_create_entity_match list src dst = (list, m)) ∧
    (find_entity_match_locked list src dst = none →
      (find_or_create_entity_match list src dst).2
        = { guids := ⟨src, dst⟩, matched := false, crypto_handle := 0, tokens := none } ∧
      ∃ l1 l2, list = l1 ++ l2 ∧
        (find_or_create_entity_match list src dst).1
          = l1 ++ (find_or_create_entity_match list src dst).2 :: l2) ∧
    (find_or_create_entity_match (find_or_create_entity_match list src dst).1 src dst
      = find_or_create_entity_match list src dst) ∧
    ((list.map (fun m => m.guids)).Nodup →
      ((find_or_create_entity_match list src dst).1.map (fun m => m.guids)).Nodup) := by
  have hrefl : ∀ a, compare_guid_pair a a = 0 := fun a => (compare_guid_pair_eq_zero a a).2 rfl
  cases hf : find_entity_match_locked list src dst with
  | some m =>
    have hr : find_or_create_entity_match list src dst = (list, m) := by
      unfold find_or_create_entity_match
      rw [hf]
    have hf1 : avl_lookup compare_guid_pair (fun m : security_entity_match => m.guids) list
        ⟨src, dst⟩ = some m := hf
    have hk : m.guids = ⟨src, dst⟩ :=
      (compare_guid_pair_eq_zero _ _).1 (avl_lookup_some _ _ list _ m hf1).2
    rw [hr]
    refine ⟨hk, ?_, ?_, hr, fun h => h⟩
    · intro m1 h1
      injection h1 with h1
      rw [h1]
    · intro h; exact absurd h (by simp)
  | none =>
    have hl : avl_lookup compare_guid_pair (fun m : security_entity_match => m.guids) list
        (entity_match_new src dst).guids = none := hf
    obtain ⟨t1, ht1⟩ := avl_insert_of_lookup_none compare_guid_pair
      (fun m : security_entity_match => m.guids) list (entity_match_new src dst) hl
    have hr : find_or_create_entity_match list src dst = (t1, entity_match_new src dst) := by
      unfold find_or_create_entity_match
      rw [hf]
      simp only [ht1, Option.getD_some]
    have h2 : find_entity_match_locked t1 src dst = some (entity_match_new src dst) :=
      avl_lookup_insert_self compare_guid_pair (fun m : security_entity_match => m.guids)
        hrefl list t1 (entity_match_new src dst) ht1
    rw [hr]
    refine ⟨rfl, ?_, ?_, ?_, ?_⟩
    · intro m h; exact absurd h (by simp)
    · intro _
      exact ⟨rfl, avl_insert_split compare_guid_pair
        (fun m : security_entity_match => m.guids) list t1 _ ht1⟩
    · show find_or_create_entity_match t1 src dst = _
      unfold find_or_create_entity_match
      rw [h2]
    · intro hnd
      exact avl_insert_nodup compare_guid_pair (fun m : security_entity_match => m.guids)
        compare_guid_pair_eq_zero list t1 _ ht1 hnd

/-- C11 at a concrete table: the key (guid_R, guid_L) is created next to an entry under
another key, and the second call finds it. -/
theorem find_or_create_entity_match_spec_witness :
    (find_or_create_entity_match [entity_match_new guid_L guid_R] guid_R guid_L).2
      = { guids := ⟨guid_R, guid_L⟩, matched := false, crypto_handle := 0, tokens := none } ∧
    (find_or_create_entity_match
        (find_or_create_entity_match [entity_match_new guid_L guid_R] guid_R guid_L).1
        guid_R guid_L
      = find_or_create_entity_match [entity_match_new guid_L guid_R] guid_R guid_L) ∧
    ((find_or_create_entity_match [entity_match_new guid_L guid_R] guid_R guid_L).1.map
      (fun m => m.guids)).Nodup :=
  ⟨((find_or_create_entity_match_spec [entity_match_new guid_L guid_R] guid_R guid_L).2.2.1
      (by decide)).1,
   (find_or_create_entity_match_spec [entity_match_new guid_L guid_R] guid_R guid_L).2.2.2.1,
   (find_or_create_entity_match_spec [entity_match_new guid_L guid_R] guid_R guid_L).2.2.2.2
      (by decide)⟩

/-- No node carries the key: the lookup fails. -/
theorem avl_lookup_eq_none_of_forall {α κ : Type} (cmp : κ → κ → Int) (key : α → κ)
    (t : List α) (k : κ) (h : ∀ x ∈ t, cmp (key x) k ≠ 0) : avl_lookup cmp key t k = none := by
  unfold avl_lookup
  rw [List.find?_eq_none]
  intro x hx
  simpa using h x hx

/-- C12: in a table with at most one entry per key, remove_entity_match returns the entry
stored under (src, dst), or none if there is none; afterwards a lookup of (src, dst) finds
nothing, the entries under every other key are the same, and a second removal returns none
and leaves the table as it is. -/
theorem remove_entity_match_spec (list : List security_entity_match) (src dst : ddsi_guid_t)
    (hnd : (list.map (fun m => m.guids)).Nodup) :
    (remove_entity_match list src dst).2 = find_entity_match_locked list src dst ∧
    find_entity_match_locked (remove_entity_match list src dst).1 src dst = none ∧
    (∀ k : guid_pair, k ≠ ⟨src, dst⟩ →
      (remove_entity_match list src dst).1.filter (fun m => decide (m.guids = k))
        = list.filter (fun m => decide (m.guids = k))) ∧
    remove_entity_match (remove_entity_match list src dst).1 src dst
      = ((remove_entity_match list src dst).1, none) := by
  have hnone : find_entity_match_locked (remove_entity_match list src dst).1 src dst = none := by
    unfold find_entity_match_locked remove_entity_match
    cases hl : avl_lookup compare_guid_pair (fun m : security_entity_match => m.guids) list
        ⟨src, dst⟩ with
    | none => exact hl
    | some m =>
      apply avl_lookup_eq_none_of_forall
      intro x hx hc
      exact avl_delete_no_key compare_guid_pair (fun m : security_entity_match => m.guids)
        compare_guid_pair_eq_zero list ⟨src, dst⟩ hnd x hx
        ((compare_guid_pair_eq_zero _ _).1 hc)
  refine ⟨?_, hnone, ?_, ?_⟩
  · unfold remove_entity_match find_entity_match_locked
    cases hl : avl_lookup compare_guid_pair (fun m : security_entity_match => m.guids) list
        ⟨src, dst⟩ <;> rfl
  · intro k hk
    unfold remove_entity_match
    cases hl : avl_lookup compare_guid_pair (fun m : security_entity_match => m.guids) list
        ⟨src, dst⟩ with
    | none => rfl
    | some m =>
      apply filter_avl_delete
      intro x hx
      have : x.guids = ⟨src, dst⟩ := (compare_guid_pair_eq_zero _ _).1 hx
      simp only [decide_eq_false_iff_not]
      rw [this]
      exact fun h => hk h.symm
  · have h2 : avl_lookup compare_guid_pair (fun m : security_entity_match => m.guids)
        (remove_entity_match list src dst).1 ⟨src, dst⟩ = none := hnone
    generalize (remove_entity_match list src dst).1 = t at h2
    unfold remove_entity_match
    rw [h2]

/-- C12 at a concrete table with two entries: removing (guid_R, guid_L) returns its entry and
keeps the entry under the other key. -/
theorem remove_entity_match_spec_witness :
    ([entity_match_new guid_L guid_R, entity_match_new guid_R guid_L].map
      (fun m => m.guids)).Nodup ∧
    (remove_entity_match [entity_match_new guid_L guid_R, entity_match_new guid_R guid_L]
      guid_R guid_L).2
      = find_entity_match_locked
          [entity_match_new guid_L guid_R, entity_match_new guid_R guid_L] guid_R guid_L ∧
    remove_entity_match
      (remove_entity_match [entity_match_new guid_L guid_R, entity_match_new guid_R guid_L]
        guid_R guid_L).1 guid_R guid_L
      = ((remove_entity_match [entity_match_new guid_L guid_R, entity_match_new guid_R guid_L]
          guid_R guid_L).1, none) :=
  ⟨by decide,
   (remove_entity_match_spec [entity_match_new guid_L guid_R, entity_match_new guid_R guid_L]
      guid_R guid_L (by decide)).1,
   (remove_entity_match_spec [entity_match_new guid_L guid_R, entity_match_new guid_R guid_L]
      guid_R guid_L (by decide)).2.2.2⟩

/-! ### Participant crypto tokens (C13) -/

/-- The entry returned by find_or_create_entity_match is the one a lookup finds afterwards. -/
theorem find_or_create_entity_match_lookup (list : List security_entity_match)
    (src dst : ddsi_guid_t) :
    find_entity_match_locked (find_or_create_entity_match list src dst).1 src dst
      = some (find_or_create_entity_match list src dst).2 := by
  cases hf : find_entity_match_locked list src dst with
  | some m =>
    have hr : find_or_create_entity_match list src dst = (list, m) := by
      unfold find_or_create_entity_match
      rw [hf]
    rw [hr]
    exact hf
  | none =>
    have hl : avl_lookup compare_guid_pair (fun m : security_entity_match => m.guids) list
        (entity_match_new src dst).guids = none := hf
    obtain ⟨t1, ht1⟩ := avl_insert_of_lookup_none compare_guid_pair
      (fun m : security_entity_match => m.guids) list (entity_match_new src dst) hl
    have hr : find_or_create_entity_match list src dst = (t1, entity_match_new src dst) := by
      unfold find_or_create_entity_match
      rw [hf]
      simp only [ht1, Option.getD_some]
    rw [hr]
    exact avl_lookup_insert_self compare_guid_pair (fun m : security_entity_match => m.guids)
      (fun a => (compare_guid_pair_eq_zero a a).2 rfl) list t1 (entity_match_new src dst) ht1

/-- The entry returned by find_or_create_entity_match is the entry found, or a new one. -/
theorem find_or_create_entity_match_snd (list : List security_entity_match)
    (src dst : ddsi_guid_t) :
    (find_or_create_entity_match list src dst).2
      = (find_entity_match_locked list src dst).getD (entity_match_new src dst) := by
  unfold find_or_create_entity_match
  cases find_entity_match_locked list src dst <;> rfl

/-- A lookup after an assignment through the entry pointer: the assignment applied to the
entry found, as long as the assignment leaves the key alone. -/
theorem entity_match_assign_lookup (list : List security_entity_match) (k : guid_pair)
    (f : security_entity_match → security_entity_match) (hf : ∀ m, (f m).guids = m.guids) :
    avl_lookup compare_guid_pair (fun m => m.guids) (entity_match_assign list k f) k
      = (avl_lookup compare_guid_pair (fun m => m.guids) list k).map f := by
  unfold avl_lookup entity_match_assign
  induction list with
  | nil => rfl
  | cons a l ih =>
    by_cases ha : compare_guid_pair a.guids k = 0
    · simp [List.find?, ha, hf]
    · have hb : (compare_guid_pair a.guids k == 0) = false := by simpa using ha
      simp only [List.map_cons, hb, Bool.false_eq_true, if_false, List.find?]
      exact ih

/-- C13: with a loaded security context and both participants holding security state, if no
ParticipantMatch is stored under the crypto handle of the local participant, then
q_omg_security_set_participant_crypto_tokens returns with the entry (proxy GUID, local GUID)
present, its pending tokens equal to the tokens received, matched as it was (false for a new
entry), no plugin call made and the handshake notified; if the ParticipantMatch exists and
the plugin accepts the tokens, the entry is marked matched, the plugin call is the only call
made and the handshake is notified. -/
theorem set_participant_crypto_tokens_spec (gv : ddsi_domaingv) (pp_ptr proxypp_ptr : ddsi_guid_t)
    (pp : participant) (proxypp : proxy_participant) (sa : participant_sec_attributes)
    (ps : proxy_participant_sec_attributes) (tokens : List Nat) (set_ok : Bool)
    (hloaded : gv.security_loaded = true)
    (hpp : gv.participants pp_ptr = some pp)
    (hpx : gv.proxy_participants proxypp_ptr = some proxypp)
    (hsa : pp.sec_attr = some sa) (hps : proxypp.sec_attr = some ps) :
    (avl_lookup compare_crypto_handle (fun pm => pm.pp_crypto_handle) ps.participants
        sa.crypto_handle = none →
      ∃ gv1 m,
        q_omg_security_set_participant_crypto_tokens gv pp_ptr proxypp_ptr tokens set_ok
          = some gv1 ∧
        find_entity_match_locked gv1.security_matches proxypp.guid pp.guid = some m ∧
        m.tokens = some tokens ∧
        m.matched = ((find_entity_match_locked gv.security_matches proxypp.guid pp.guid).map
          (fun m0 => m0.matched)).getD false ∧
        gv1.plugin_calls = gv.plugin_calls ∧
        gv1.handshake_notifications
          = gv.handshake_notifications ++ [(pp.guid, proxypp.guid)]) ∧
    (∀ pm, avl_lookup compare_crypto_handle (fun pm => pm.pp_crypto_handle) ps.participants
        sa.crypto_handle = some pm → set_ok = true →
      ∃ gv1 m,
        q_omg_security_set_participant_crypto_tokens gv pp_ptr proxypp_ptr tokens set_ok
          = some gv1 ∧
        find_entity_match_locked gv1.security_matches proxypp.guid pp.guid = some m ∧
        m.matched = true ∧
        gv1.plugin_calls = gv.plugin_calls ++
          [plugin_call.set_remote_participant_crypto_tokens sa.crypto_handle
            pm.proxypp_crypto_handle tokens] ∧
        gv1.handshake_notifications
          = gv.handshake_notifications ++ [(pp.guid, proxypp.guid)]) := by
  have hfl := find_or_create_entity_match_lookup gv.security_matches proxypp.guid pp.guid
  have hsnd := find_or_create_entity_match_snd gv.security_matches proxypp.guid pp.guid
  unfold find_entity_match_locked at hfl
  constructor
  · intro hlk
    cases hq : q_omg_security_set_participant_crypto_tokens gv pp_ptr proxypp_ptr tokens set_ok with
    | none =>
      unfold q_omg_security_set_participant_crypto_tokens at hq
      simp only [hpp, hpx, hloaded, hsa, hps, hlk, Bool.not_true, Bool.false_eq_true,
        if_false] at hq
      exact absurd hq (by simp)
    | some gv1 =>
      unfold q_omg_security_set_participant_crypto_tokens at hq
      simp only [hpp, hpx, hloaded, hsa, hps, hlk, Bool.not_true, Bool.false_eq_true,
        if_false, Option.some.injEq] at hq
      subst hq
      refine ⟨_, ⟨(find_or_create_entity_match gv.security_matches proxypp.guid pp.guid).2.guids,
        (find_or_create_entity_match gv.security_matches proxypp.guid pp.guid).2.matched,
        (find_or_create_entity_match gv.security_matches proxypp.guid pp.guid).2.crypto_handle,
        some tokens⟩, rfl, ?_, rfl, ?_, rfl, rfl⟩
      · unfold find_entity_match_locked notify_handshake_recv_token
        dsimp only
        rw [entity_match_assign_lookup _ _
          (fun m => ⟨m.guids, m.matched, m.crypto_handle, some tokens⟩) (fun _ => rfl), hfl]
        rfl
      · dsimp only
        rw [hsnd]
        cases find_entity_match_locked gv.security_matches proxypp.guid pp.guid <;> rfl
  · intro pm hlk hok
    cases hq : q_omg_security_set_participant_crypto_tokens gv pp_ptr proxypp_ptr tokens set_ok with
    | none =>
      unfold q_omg_security_set_participant_crypto_tokens at hq
      simp only [hpp, hpx, hloaded, hsa, hps, hlk, hok, Bool.not_true, Bool.false_eq_true,
        if_false, if_true] at hq
      exact absurd hq (by simp)
    | some gv1 =>
      unfold q_omg_security_set_participant_crypto_tokens at hq
      simp only [hpp, hpx, hloaded, hsa, hps, hlk, hok, Bool.not_true, Bool.false_eq_true,
        if_false, if_true, Option.some.injEq] at hq
      subst hq
      refine ⟨_, ⟨(find_or_create_entity_match gv.security_matches proxypp.guid pp.guid).2.guids,
        true,
        (find_or_create_entity_match gv.security_matches proxypp.guid pp.guid).2.crypto_handle,
        (find_or_create_entity_match gv.security_matches proxypp.guid pp.guid).2.tokens⟩,
        rfl, ?_, rfl, rfl, rfl⟩
      unfold find_entity_match_locked notify_handshake_recv_token log_calls
      dsimp only
      rw [entity_match_assign_lookup _ _
        (fun m => ⟨m.guids, true, m.crypto_handle, m.tokens⟩) (fun _ => rfl), hfl]
      rfl

/-- C13 at the concrete pair: no ParticipantMatch yet, so the tokens [9, 9] are stored in a
new entry, no plugin call is made and the handshake is notified. -/
theorem set_participant_crypto_tokens_spec_witness :
    ∃ gv1 m,
      q_omg_security_set_participant_crypto_tokens gv_one_pair guid_L guid_R [9, 9] true
        = some gv1 ∧
      find_entity_match_locked gv1.security_matches proxypp_no_info.guid pp_plain.guid
        = some m ∧
      m.tokens = some [9, 9] ∧
      m.matched = ((find_entity_match_locked gv_one_pair.security_matches proxypp_no_info.guid
        pp_plain.guid).map (fun m0 => m0.matched)).getD false ∧
      gv1.plugin_calls = gv_one_pair.plugin_calls ∧
      gv1.handshake_notifications
        = gv_one_pair.handshake_notifications ++ [(pp_plain.guid, proxypp_no_info.guid)] :=
  (set_participant_crypto_tokens_spec gv_one_pair guid_L guid_R pp_plain proxypp_no_info
    ⟨⟨false, false, false, false, false, 0⟩, 5, false, []⟩ ⟨[]⟩ [9, 9] true
    rfl (by decide) (by decide) rfl rfl).1 (by decide)

/-! ### Endpoint crypto tokens and admission (C14, C19, C20) -/

/-- C14, evaluation at the failing input: no entry under (guid_W, guid_Rd), the proxy writer
guid_W not in the entity index; q_omg_security_set_remote_writer_crypto_tokens with the
tokens [9, 9] creates the entry and leaves it without pending tokens, and the handshake is
not notified.  With the proxy writer in the entity index the same call stores the tokens.
q_omg_security_set_remote_reader_crypto_tokens drops the tokens of a proxy reader that is not
in the entity index in the same way. -/
theorem set_remote_writer_crypto_tokens_drops_tokens :
    find_entity_match_locked gv_endpoints.security_matches guid_W rd_payload.guid = none ∧
    entidx_lookup_proxy_writer_guid gv_endpoints guid_W = none ∧
    (q_omg_security_set_remote_writer_crypto_tokens gv_endpoints rd_payload guid_W [9, 9] true).map
        (fun gv => (gv.security_matches, gv.handshake_notifications))
      = some ([{ guids := ⟨guid_W, guid_Rd⟩, matched := false, crypto_handle := 0,
                 tokens := none }], []) ∧
    (q_omg_security_set_remote_writer_crypto_tokens gv_pwr_known rd_payload guid_W [9, 9] true).map
        (fun gv => (gv.security_matches, gv.handshake_notifications))
      = some ([{ guids := ⟨guid_W, guid_Rd⟩, matched := false, crypto_handle := 0,
                 tokens := some [9, 9] }], [(guid_L, guid_R)]) ∧
    entidx_lookup_proxy_reader_guid gv_endpoints guid_W = none ∧
    (q_omg_security_set_remote_reader_crypto_tokens gv_endpoints wr_payload guid_W [9, 9] true).map
        (fun gv => (gv.security_matches, gv.handshake_notifications))
      = some ([{ guids := ⟨guid_W, wr_payload.guid⟩, matched := false, crypto_handle := 0,
                 tokens := none }], []) := by
  decide

/-- C19: for a local reader with security state and a remote writer whose security info
differs from the reader's in a mask that both sides mark valid,
q_omg_security_match_remote_writer_enabled returns false and hands back the crypto_handle
output, the proxy writer and the whole state (plugin calls, entity match table, token
messages) as they were. -/
theorem match_remote_writer_enabled_rejects_incompatible (gv : ddsi_domaingv) (rd : reader)
    (pwr : proxy_writer) (ch : Int) (ans : endpoint_match_answers) (rdsa : reader_sec_attributes)
    (hsa : rd.sec_attr = some rdsa)
    (hinc :
      (pwr.security_info.security_attributes
          ≠ (q_omg_get_reader_security_info rd).2.security_attributes ∧
        SECURITY_ATTR_IS_VALID pwr.security_info.security_attributes = true ∧
        SECURITY_ATTR_IS_VALID (q_omg_get_reader_security_info rd).2.security_attributes = true) ∨
      (pwr.security_info.plugin_security_attributes
          ≠ (q_omg_get_reader_security_info rd).2.plugin_security_attributes ∧
        SECURITY_ATTR_IS_VALID pwr.security_info.plugin_security_attributes = true ∧
        SECURITY_ATTR_IS_VALID
          (q_omg_get_reader_security_info rd).2.plugin_security_attributes = true)) :
    q_omg_security_match_remote_writer_enabled gv rd pwr ch ans = some (false, ch, pwr, gv) := by
  have hc : SECURITY_INFO_COMPATIBLE pwr.security_info (q_omg_get_reader_security_info rd).2
      NN_ENDPOINT_SECURITY_ATTRIBUTES_FLAG_IS_VALID = false := by
    cases hv : SECURITY_INFO_COMPATIBLE pwr.security_info (q_omg_get_reader_security_info rd).2
        NN_ENDPOINT_SECURITY_ATTRIBUTES_FLAG_IS_VALID with
    | false => rfl
    | true =>
      exfalso
      rw [compatible_unfold] at hv
      simp only [SECURITY_ATTR_IS_VALID, bne_iff_ne, ne_eq] at hinc
      rcases hinc with ⟨hne, ha, hb⟩ | ⟨hne, ha, hb⟩
      · rcases hv.2 with h | h | h
        · exact hne h
        · exact ha h
        · exact hb h
      · rcases hv.1 with h | h | h
        · exact hne h
        · exact ha h
        · exact hb h
  unfold q_omg_security_match_remote_writer_enabled
  rw [hsa]
  simp only [hc, Bool.not_false, if_true]

/-- C19 at a concrete pair: the reader is payload-protected (mask 0x80000010), the writer
reports the valid mask 0x80000000. -/
theorem match_remote_writer_enabled_rejects_incompatible_witness :
    q_omg_security_match_remote_writer_enabled gv_endpoints rd_payload pwr_valid_plain 0
      answers_endpoint_ok = some (false, 0, pwr_valid_plain, gv_endpoints) :=
  match_remote_writer_enabled_rejects_incompatible gv_endpoints rd_payload pwr_valid_plain 0
    answers_endpoint_ok ⟨attr_payload, 21, false⟩ rfl (Or.inl (by decide))

/-- C20, the configurations on which the directions differ: the local endpoint has security
state without payload and submessage protection, the remote security info is compatible,
the proxy participant is not secure.  The reader-with-remote-writer direction admits the
pair, the writer-with-remote-reader direction refuses it although its own compatibility
check holds as well. -/
theorem match_remote_enabled_directions_differ (gv : ddsi_domaingv) (rd : reader) (wr : writer)
    (pwr : proxy_writer) (prd : proxy_reader) (ch : Int) (ans : endpoint_match_answers)
    (rdsa : reader_sec_attributes) (wrsa : writer_sec_attributes) (proxypp : proxy_participant)
    (hrd : rd.sec_attr = some rdsa) (hwr : wr.sec_attr = some wrsa)
    (hattr : wrsa.attr = rdsa.attr) (hinfo : prd.security_info = pwr.security_info)
    (hptr : prd.proxypp = pwr.proxypp)
    (hproxy : gv.proxy_participants pwr.proxypp = some proxypp)
    (hns : q_omg_proxy_participant_is_secure proxypp = false)
    (hcompat : SECURITY_INFO_COMPATIBLE pwr.security_info
      (q_omg_get_endpoint_security_info rdsa.attr)
      NN_ENDPOINT_SECURITY_ATTRIBUTES_FLAG_IS_VALID = true)
    (hpay : rdsa.attr.is_payload_protected = false)
    (hsub : rdsa.attr.is_submessage_protected = false) :
    q_omg_security_match_remote_writer_enabled gv rd pwr ch ans = some (true, ch, pwr, gv) ∧
    q_omg_security_match_remote_reader_enabled gv wr prd ch ans = some (false, ch, prd, gv) ∧
    SECURITY_INFO_COMPATIBLE prd.security_info (q_omg_get_writer_security_info wr).2
      NN_ENDPOINT_SECURITY_ATTRIBUTES_FLAG_IS_VALID = true := by
  refine ⟨?_, ?_, ?_⟩
  · unfold q_omg_security_match_remote_writer_enabled q_omg_get_reader_security_info
    rw [hrd]
    simp only [hcompat, hpay, hsub, Bool.not_true, Bool.not_false, Bool.false_eq_true, if_false,
      Bool.and_self, if_true]
  · unfold q_omg_security_match_remote_reader_enabled
    rw [hwr]
    simp only [hptr, hproxy, hns, Bool.not_false, if_true]
  · unfold q_omg_get_writer_security_info
    rw [hwr, hinfo]
    dsimp only
    rw [hattr]
    exact hcompat

/-- C20 at the failing input: attributes without protection on the local side, the valid
mask 0x80000000 on the remote side, a proxy participant without security state. -/
theorem match_remote_enabled_directions_differ_witness :
    q_omg_security_match_remote_writer_enabled gv_nonsecure_proxy rd_unprotected pwr_valid_plain
        0 answers_endpoint_ok = some (true, 0, pwr_valid_plain, gv_nonsecure_proxy) ∧
    q_omg_security_match_remote_reader_enabled gv_nonsecure_proxy wr_unprotected prd_valid_plain
        0 answers_endpoint_ok = some (false, 0, prd_valid_plain, gv_nonsecure_proxy) ∧
    SECURITY_INFO_COMPATIBLE prd_valid_plain.security_info
      (q_omg_get_writer_security_info wr_unprotected).2
      NN_ENDPOINT_SECURITY_ATTRIBUTES_FLAG_IS_VALID = true :=
  match_remote_enabled_directions_differ gv_nonsecure_proxy rd_unprotected wr_unprotected
    pwr_valid_plain prd_valid_plain 0 answers_endpoint_ok ⟨attr_none, 21, false⟩
    ⟨attr_none, 21, false⟩ ⟨guid_R, ⟨0, 0⟩, none⟩ rfl rfl rfl rfl rfl (by decide) rfl
    (by decide) rfl rfl

/-! ### Payload protection (C15) -/

/-- Reading back what memcpy wrote. -/
theorem mem_read_mem_write_self (m : Mem) (a : Nat) (bytes : List Nat) :
    mem_read (mem_write m a bytes) a bytes.length = bytes := by
  apply List.ext_getElem
  · simp [mem_read]
  · intro i h1 h2
    simp only [mem_read, List.getElem_map, List.getElem_range]
    rw [mem_write_inside m a bytes i h2]
    simp [List.getD_eq_getElem?_getD, h2]

/-- The payload encoder of a payload-protected writer with a loaded context: the bytes the
plugin produced. -/
theorem encode_payload_protected (gv : ddsi_domaingv) (wr : writer) (wsa : writer_sec_attributes)
    (pp : participant) (enc : Int → List Nat → Option (List Nat)) (x e : List Nat)
    (hloaded : gv.security_loaded = true) (hwsa : wr.sec_attr = some wsa)
    (hwp : wsa.attr.is_payload_protected = true) (hwpp : gv.participants wr.pp = some pp)
    (henc : enc wsa.crypto_handle x = some e) (h32 : x.length ≤ 4294967295) :
    encode_payload gv wr x enc = some (true, e, some e) := by
  have hq : q_omg_security_encode_serialized_payload gv wr x enc = some (true, e) := by
    unfold q_omg_security_encode_serialized_payload
    rw [if_neg (by omega), hwsa]
    simp only [hwp, hwpp, hloaded, henc, Bool.not_true, Bool.false_eq_true, if_false]
  unfold encode_payload q_omg_writer_is_payload_protected
  rw [hwsa]
  simp only [hwp, hq, Bool.not_true, Bool.false_eq_true, if_false]

/-- The payload decoder of the serialized payload when the first matched reader is known and
has a crypto handle: the bytes the plugin produced. -/
theorem decode_serialized_payload_matched (gv : ddsi_domaingv) (pwr : proxy_writer)
    (rdm : pwr_rd_match) (rest : List pwr_rd_match) (rd : reader) (rdsa : reader_sec_attributes)
    (proxypp : proxy_participant) (dec : Int → Int → List Nat → Option (List Nat))
    (x e : List Nat)
    (hloaded : gv.security_loaded = true)
    (hpx : gv.proxy_participants pwr.proxypp = some proxypp)
    (hreaders : pwr.readers = rdm :: rest) (hch : rdm.crypto_handle ≠ 0)
    (hrd : entidx_lookup_reader_guid gv rdm.rd_guid = some rd) (hrdsa : rd.sec_attr = some rdsa)
    (hdec : dec rdsa.crypto_handle rdm.crypto_handle e = some x)
    (h32 : e.length ≤ 4294967295) :
    q_omg_security_decode_serialized_payload gv pwr e dec = some (true, x) := by
  unfold q_omg_security_decode_serialized_payload
  rw [if_neg (by omega), hpx]
  simp only [hloaded, hreaders, List.head?_cons, hch, hrd, hrdsa, hdec, Bool.not_true,
    Bool.false_eq_true, if_false]

/-- C15: for a payload-protected writer and a proxy writer marked payload-protected whose
first matched reader is known with a non-zero crypto handle, if the plugin decodes the
encoded payload e of x back to x, x is not longer than e, and e is the payload of a DATA
submessage in the receive buffer (it lies inside the submessage, and sampleinfo.size is the
payload size on entry), then for every payload x encode_payload yields e, and decode_Data
on e returns true, leaves the first |x| bytes of the payload buffer equal to x, sets
sampleinfo.size to |x| and reduces submsg_len by |e| - |x|. -/
theorem encode_decode_payload_round_trip (gv : ddsi_domaingv) (wr : writer)
    (wsa : writer_sec_attributes) (pp : participant) (pwr : proxy_writer) (rdm : pwr_rd_match)
    (rest : List pwr_rd_match) (rd : reader) (rdsa : reader_sec_attributes)
    (proxypp : proxy_participant) (enc : Int → List Nat → Option (List Nat))
    (dec : Int → Int → List Nat → Option (List Nat)) (x e : List Nat) (m : Mem)
    (p submsg_len size0 : Nat)
    (hloaded : gv.security_loaded = true) (hwsa : wr.sec_attr = some wsa)
    (hwp : wsa.attr.is_payload_protected = true) (hwpp : gv.participants wr.pp = some pp)
    (hmark : pwr.c.security_info.security_attributes &&&
      NN_ENDPOINT_SECURITY_ATTRIBUTES_FLAG_IS_PAYLOAD_PROTECTED
        = NN_ENDPOINT_SECURITY_ATTRIBUTES_FLAG_IS_PAYLOAD_PROTECTED)
    (hpx : gv.proxy_participants pwr.proxypp = some proxypp)
    (hreaders : pwr.readers = rdm :: rest) (hch : rdm.crypto_handle ≠ 0)
    (hrd : entidx_lookup_reader_guid gv rdm.rd_guid = some rd) (hrdsa : rd.sec_attr = some rdsa)
    (henc : enc wsa.crypto_handle x = some e)
    (hdec : dec rdsa.crypto_handle rdm.crypto_handle e = some x)
    (hlen : x.length ≤ e.length) (h32 : e.length ≤ 4294967295)
    (hmem : mem_read m p e.length = e)
    (hsl : e.length ≤ submsg_len) (hsl64 : submsg_len < 18446744073709551616)
    (hsize : size0 = e.length) :
    encode_payload gv wr x enc = some (true, e, some e) ∧
    ∃ m1, decode_Data gv ⟨some pwr, size0⟩ m (some p) e.length submsg_len dec
        = some (true, ⟨some pwr, x.length⟩, m1, submsg_len - (e.length - x.length)) ∧
      mem_read m1 p x.length = x := by
  refine ⟨encode_payload_protected gv wr wsa pp enc x e hloaded hwsa hwp hwpp henc (by omega),
    ?_⟩
  by_cases hne : e = []
  · subst hne
    have hx : x = [] := List.length_eq_zero.mp (Nat.le_zero.mp hlen)
    subst hx
    subst hsize
    refine ⟨m, ?_, rfl⟩
    unfold decode_Data
    simp
  · have hpos : e.length ≠ 0 := fun h => hne (List.length_eq_zero.mp h)
    have hq := decode_serialized_payload_matched gv pwr rdm rest rd rdsa proxypp dec x e hloaded
      hpx hreaders hch hrd hrdsa hdec h32
    have hmod : (submsg_len + 18446744073709551616 - (e.length - x.length))
        % 18446744073709551616 = submsg_len - (e.length - x.length) := by omega
    refine ⟨mem_write m p x, ?_, mem_read_mem_write_self m p x⟩
    unfold decode_Data decode_payload
    simp only [if_neg hpos, hmark, ne_eq, not_true_eq_false, if_false, hmem, hq,
      if_neg (Nat.not_lt.mpr hlen), hmod]

/-- C15 at two concrete payloads of the writer with crypto handle 22.  The payload [1, 2, 3]
is framed to five bytes; decode_Data restores it in place, sets the size to 3 and takes 2
off the submessage length 12.  The empty payload is encoded to zero bytes; decode_Data
returns true, the size is 0 and the submessage length stays 12. -/
theorem encode_decode_payload_round_trip_witness :
    (encode_payload gv_pwr_known wr_payload [1, 2, 3] framing_encode
      = some (true, [0x5e, 0xc0, 1, 2, 3], some [0x5e, 0xc0, 1, 2, 3]) ∧
    ∃ m1, decode_Data gv_pwr_known ⟨some pwr_payload, 5⟩ (payload_mem [0x5e, 0xc0, 1, 2, 3])
          (some 0) [0x5e, 0xc0, 1, 2, 3].length 12 framing_decode
        = some (true, ⟨some pwr_payload, [1, 2, 3].length⟩, m1,
            12 - ([0x5e, 0xc0, 1, 2, 3].length - [1, 2, 3].length)) ∧
      mem_read m1 0 [1, 2, 3].length = [1, 2, 3]) ∧
    (encode_payload gv_pwr_known wr_payload [] framing_encode = some (true, [], some []) ∧
    ∃ m1, decode_Data gv_pwr_known ⟨some pwr_payload, 0⟩ (payload_mem []) (some 0)
          ([] : List Nat).length 12 framing_decode
        = some (true, ⟨some pwr_payload, ([] : List Nat).length⟩, m1,
            12 - (([] : List Nat).length - ([] : List Nat).length)) ∧
      mem_read m1 0 ([] : List Nat).length = []) :=
  ⟨encode_decode_payload_round_trip gv_pwr_known wr_payload ⟨attr_payload, 22, false⟩ pp_plain
      pwr_payload ⟨guid_Rd, 23⟩ [] rd_payload ⟨attr_payload, 21, false⟩ proxypp_no_info
      framing_encode framing_decode [1, 2, 3] [0x5e, 0xc0, 1, 2, 3]
      (payload_mem [0x5e, 0xc0, 1, 2, 3]) 0 12 5 rfl rfl rfl (by decide) (by decide)
      (by decide) rfl (by decide) (by decide) rfl (by decide) (by decide) (by decide)
      (by decide) (by decide) (by decide) (by decide) (by decide),
   encode_decode_payload_round_trip gv_pwr_known wr_payload ⟨attr_payload, 22, false⟩ pp_plain
      pwr_payload ⟨guid_Rd, 23⟩ [] rd_payload ⟨attr_payload, 21, false⟩ proxypp_no_info
      framing_encode framing_decode [] [] (payload_mem []) 0 12 0 rfl rfl rfl (by decide)
      (by decide) (by decide) rfl (by decide) (by decide) rfl (by decide) (by decide)
      (by decide) (by decide) (by decide) (by decide) (by decide) (by decide)⟩

/-! ### Creation and deregistration of a local participant (C16, C17) -/

/-- The creation that the access control plugin allows and in which get_permissions_token
then fails: the function returns true; the participant holds both handles and the zeroed
security state, so no participant crypto handle. -/
theorem check_create_participant_true_without_permissions_token :
    q_omg_security_check_create_participant true pp_new answers_create_no_token
      = (true,
         { guid := ⟨1, 0x1c1⟩, sec_attr := some participant_sec_attributes_zero,
           permissions_handle := 3, local_identity_handle := 4 },
         [plugin_call.validate_local_identity, plugin_call.get_identity_token 4,
          plugin_call.validate_local_permissions 4, plugin_call.check_create_participant 3,
          plugin_call.get_permissions_token 3]) := by
  decide

/-- Removing the first node that satisfies a test removes the head of the filtered list. -/
theorem filter_eraseP_self {α : Type} (p : α → Bool) (l : List α) :
    (l.eraseP p).filter p = (l.filter p).tail := by
  induction l with
  | nil => rfl
  | cons a l ih =>
    by_cases ha : p a = true
    · rw [List.eraseP_cons_of_pos ha, List.filter_cons_of_pos ha, List.tail_cons]
    · rw [List.eraseP_cons_of_neg ha, List.filter_cons_of_neg ha, List.filter_cons_of_neg ha, ih]

/-- A lookup returns the first of the nodes that carry the key. -/
theorem avl_lookup_eq_head_filter {α κ : Type} (cmp : κ → κ → Int) (key : α → κ) (t : List α)
    (k : κ) : avl_lookup cmp key t k = (t.filter (fun n => cmp (key n) k == 0)).head? := by
  unfold avl_lookup
  generalize (fun n => cmp (key n) k == 0) = p
  induction t with
  | nil => rfl
  | cons a l ih =>
    by_cases ha : p a = true
    · rw [List.find?_cons_of_pos _ ha, List.filter_cons_of_pos ha, List.head?_cons]
    · rw [List.find?_cons_of_neg _ ha, List.filter_cons_of_neg ha, ih]

/-- The plugin calls of proxypp_pp_unrelate: appended to the record, and none of them
unregisters a handle that no ParticipantMatch carries as remote crypto handle; the garbage
set is left alone and no ParticipantMatch is added. -/
theorem proxypp_pp_unrelate_calls (gv : ddsi_domaingv) (proxypp : proxy_participant)
    (pp_guid : ddsi_guid_t) (k h : Int) (g0 : ddsi_guid_t)
    (hpx : gv.proxy_participants g0 = some proxypp)
    (hrem : ∀ g px ps pm, gv.proxy_participants g = some px → px.sec_attr = some ps →
      pm ∈ ps.participants → pm.proxypp_crypto_handle ≠ h) :
    (∃ cs, (proxypp_pp_unrelate gv proxypp pp_guid k).plugin_calls = gv.plugin_calls ++ cs ∧
      plugin_call.unregister_participant h ∉ cs) ∧
    (proxypp_pp_unrelate gv proxypp pp_guid k).security_garbage = gv.security_garbage ∧
    (∀ g px ps pm, (proxypp_pp_unrelate gv proxypp pp_guid k).proxy_participants g = some px →
      px.sec_attr = some ps → pm ∈ ps.participants → pm.proxypp_crypto_handle ≠ h) := by
  unfold proxypp_pp_unrelate
  cases hps : proxypp.sec_attr with
  | none => exact ⟨⟨[], by simp, by simp⟩, rfl, hrem⟩
  | some ps =>
    dsimp only
    cases hl : avl_lookup compare_crypto_handle (fun pm : proxypp_pp_match => pm.pp_crypto_handle)
        ps.participants k with
    | none => exact ⟨⟨[], by simp, by simp⟩, rfl, hrem⟩
    | some pm0 =>
      have hmem : pm0 ∈ ps.participants := (avl_lookup_some _ _ _ _ _ hl).1
      have hne : pm0.proxypp_crypto_handle ≠ h := hrem g0 proxypp ps pm0 hpx hps hmem
      refine ⟨⟨proxypp_pp_match_free pm0, rfl, ?_⟩, rfl, ?_⟩
      · unfold proxypp_pp_match_free
        intro hc
        simp only [List.mem_append] at hc
        rcases hc with (hc | hc) | hc
        · split_ifs at hc
          · simp only [List.mem_singleton, plugin_call.unregister_participant.injEq] at hc
            exact hne hc.symm
          · simp at hc
        · split_ifs at hc <;> simp at hc
        · split_ifs at hc <;> simp at hc
      · intro g px ps1 pm hg hs hm
        simp only [log_calls, set_proxy_participant] at hg
        by_cases hgx : g = proxypp.guid
        · rw [if_pos hgx] at hg
          injection hg with hg
          subst hg
          simp only [Option.some.injEq] at hs
          subst hs
          exact hrem g0 proxypp ps pm hpx hps
            ((avl_delete_sublist compare_crypto_handle _ ps.participants k).subset hm)
        · rw [if_neg hgx] at hg
          exact hrem g px ps1 pm hg hs hm

/-- The plugin calls of the loop of the deferred cleanup: appended to the record, and none of
them unregisters a handle that no ParticipantMatch carries as remote crypto handle. -/
theorem cleanup_loop_calls (pp_guid : ddsi_guid_t) (k h : Int) (l : List pp_proxypp_match) :
    ∀ gv : ddsi_domaingv,
    (∀ g px ps pm, gv.proxy_participants g = some px → px.sec_attr = some ps →
      pm ∈ ps.participants → pm.proxypp_crypto_handle ≠ h) →
    (∃ cs, (cleanup_loop pp_guid k gv l).plugin_calls = gv.plugin_calls ++ cs ∧
      plugin_call.unregister_participant h ∉ cs) ∧
    (cleanup_loop pp_guid k gv l).security_garbage = gv.security_garbage := by
  induction l with
  | nil =>
    intro gv _
    exact ⟨⟨[], by simp [cleanup_loop], by simp⟩, rfl⟩
  | cons pm rest ih =>
    intro gv hrem
    unfold cleanup_loop
    cases hl : entidx_lookup_proxy_participant_guid gv pm.proxypp_guid with
    | none =>
      exact ih gv hrem
    | some proxypp =>
      have hpx : gv.proxy_participants pm.proxypp_guid = some proxypp := by
        unfold entidx_lookup_proxy_participant_guid at hl
        split at hl
        · exact hl
        · exact absurd hl (by simp)
      obtain ⟨⟨cs1, hc1, hn1⟩, hg1, hr1⟩ :=
        proxypp_pp_unrelate_calls gv proxypp pp_guid k h pm.proxypp_guid hpx hrem
      obtain ⟨⟨cs2, hc2, hn2⟩, hg2⟩ := ih (proxypp_pp_unrelate gv proxypp pp_guid k) hr1
      dsimp only
      refine ⟨⟨cs1 ++ cs2, ?_, ?_⟩, hg2.trans hg1⟩
      · rw [hc2, hc1, List.append_assoc]
      · simp only [List.mem_append, not_or]
        exact ⟨hn1, hn2⟩

/-- C17: for a loaded context and a local participant with security state and a non-nil
crypto handle h that no pending cleanup record and no ParticipantMatch (as remote handle)
carries, q_omg_security_deregister_participant returns with exactly one record (the
participant's GUID and security state) added to the garbage set, the callback for h
scheduled last on the event queue, and no unregister_participant h among the plugin calls it
made; the callback cleanup_participant_crypto_handle for h then returns, makes exactly one
unregister_participant h call and leaves the garbage set as it was before the
deregistration. -/
theorem deregister_participant_defers_unregister (gv : ddsi_domaingv) (pp_ptr : ddsi_guid_t)
    (pp : participant) (sa : participant_sec_attributes)
    (hloaded : gv.security_loaded = true)
    (hpp : gv.participants pp_ptr = some pp) (hsa : pp.sec_attr = some sa)
    (hh : sa.crypto_handle ≠ DDS_SECURITY_HANDLE_NIL)
    (hfresh : ∀ c ∈ gv.security_garbage, c.sec_attr.crypto_handle ≠ sa.crypto_handle)
    (hrem : ∀ g px ps pm, gv.proxy_participants g = some px → px.sec_attr = some ps →
      pm ∈ ps.participants → pm.proxypp_crypto_handle ≠ sa.crypto_handle) :
    ∃ gv1 cs1, q_omg_security_deregister_participant gv pp_ptr = some gv1 ∧
      (∃ l1 l2, gv.security_garbage = l1 ++ l2 ∧
        gv1.security_garbage = l1 ++ ⟨pp.guid, sa⟩ :: l2) ∧
      gv1.xevents = gv.xevents ++ [sa.crypto_handle] ∧
      gv1.plugin_calls = gv.plugin_calls ++ cs1 ∧
      plugin_call.unregister_participant sa.crypto_handle ∉ cs1 ∧
      ∃ gv2 cs2, cleanup_participant_crypto_handle gv1 sa.crypto_handle = some gv2 ∧
        gv2.plugin_calls = gv1.plugin_calls ++ cs2 ∧
        cs2.count (plugin_call.unregister_participant sa.crypto_handle) = 1 ∧
        gv2.security_garbage = gv.security_garbage := by
  have hkey : ∀ c : cleanup_participant_crypto, ∀ k : Int,
      (compare_security_attribute c.sec_attr (garbage_key k) == 0) = true ↔
        c.sec_attr.crypto_handle = k := by
    intro c k
    unfold compare_security_attribute garbage_key
    simp only [beq_iff_eq]
    exact compare_crypto_handle_eq_zero _ _
  have hkey2 : ∀ c : cleanup_participant_crypto,
      compare_security_attribute c.sec_attr sa = 0 ↔ c.sec_attr.crypto_handle = sa.crypto_handle := by
    intro c
    unfold compare_security_attribute
    exact compare_crypto_handle_eq_zero _ _
  have hlk : avl_lookup compare_security_attribute (fun c : cleanup_participant_crypto => c.sec_attr)
      gv.security_garbage sa = none :=
    avl_lookup_eq_none_of_forall _ _ _ _ (fun c hc h0 => hfresh c hc ((hkey2 c).1 h0))
  obtain ⟨t1, ht1⟩ := avl_insert_of_lookup_none compare_security_attribute
    (fun c : cleanup_participant_crypto => c.sec_attr) gv.security_garbage ⟨pp.guid, sa⟩ hlk
  obtain ⟨l1, l2, hs1, hs2⟩ := avl_insert_split compare_security_attribute
    (fun c : cleanup_participant_crypto => c.sec_attr) gv.security_garbage t1 ⟨pp.guid, sa⟩ ht1
  have hl1 : ∀ c ∈ l1, ¬ (compare_security_attribute c.sec_attr (garbage_key sa.crypto_handle)
      == 0) = true := by
    intro c hc h0
    exact hfresh c (by rw [hs1]; exact List.mem_append_left _ hc) ((hkey c _).1 h0)
  have hn : (compare_security_attribute sa (garbage_key sa.crypto_handle) == 0) = true :=
    (hkey ⟨pp.guid, sa⟩ sa.crypto_handle).2 rfl
  have hrm : dds_security_garbage_remove_pp_crypto t1 sa.crypto_handle
      = (l1 ++ l2, some ⟨pp.guid, sa⟩) := by
    have hfind : avl_lookup compare_security_attribute
        (fun c : cleanup_participant_crypto => c.sec_attr) t1 (garbage_key sa.crypto_handle)
        = some ⟨pp.guid, sa⟩ := by
      unfold avl_lookup
      rw [hs2, List.find?_append, List.find?_eq_none.2 hl1]
      simp only [List.find?_cons, hn, Option.none_or]
    have hdel : avl_delete compare_security_attribute
        (fun c : cleanup_participant_crypto => c.sec_attr) t1 (garbage_key sa.crypto_handle)
        = l1 ++ l2 := by
      unfold avl_delete
      rw [hs2, List.eraseP_append_right _ hl1]
      simp only [List.eraseP_cons, hn, cond_true]
    unfold dds_security_garbage_remove_pp_crypto
    rw [hfind, hdel]
  have hloop : ∀ gvx : ddsi_domaingv, gvx.proxy_participants = gv.proxy_participants →
      (∃ cs, (cleanup_loop pp.guid sa.crypto_handle gvx sa.proxy_participants).plugin_calls
          = gvx.plugin_calls ++ cs ∧
        plugin_call.unregister_participant sa.crypto_handle ∉ cs) ∧
      (cleanup_loop pp.guid sa.crypto_handle gvx sa.proxy_participants).security_garbage
        = gvx.security_garbage := by
    intro gvx hx
    exact cleanup_loop_calls pp.guid sa.crypto_handle sa.crypto_handle sa.proxy_participants gvx
      (by intro g px ps pm h1; rw [hx] at h1; exact hrem g px ps pm h1)
  cases hq : q_omg_security_deregister_participant gv pp_ptr with
  | none =>
    unfold q_omg_security_deregister_participant at hq
    simp only [hpp, hloaded, hsa, hh, ht1, ne_eq, not_false_eq_true, if_true, Bool.not_true,
      Bool.false_eq_true, if_false] at hq
    exact absurd hq (by simp)
  | some gv1 =>
    unfold q_omg_security_deregister_participant at hq
    simp only [hpp, hloaded, hsa, hh, ht1, ne_eq, not_false_eq_true, if_true, Bool.not_true,
      Bool.false_eq_true, if_false, Option.some.injEq] at hq
    have eg : gv1.security_garbage = t1 := by rw [← hq]; rfl
    have epx : gv1.proxy_participants = gv.proxy_participants := by rw [← hq]; rfl
    have ex : gv1.xevents = gv.xevents ++ [sa.crypto_handle] := by rw [← hq]; rfl
    have ec : gv1.plugin_calls = gv.plugin_calls ++
        ((if ¬ pp.permissions_handle = DDS_SECURITY_HANDLE_NIL then
            [plugin_call.return_permissions_handle pp.permissions_handle] else []) ++
         (if ¬ pp.local_identity_handle = DDS_SECURITY_HANDLE_NIL then
            [plugin_call.return_identity_handle pp.local_identity_handle] else []) ++
         (if sa.plugin_attr = true then [plugin_call.return_participant_sec_attributes]
          else [])) := by rw [← hq]; rfl
    refine ⟨gv1, _, rfl, ⟨l1, l2, hs1, eg.trans hs2⟩, ex, ec, ?_, ?_⟩
    · simp only [List.mem_append, not_or]
      refine ⟨⟨?_, ?_⟩, ?_⟩ <;> split_ifs <;> simp
    · obtain ⟨⟨cs, hcs, hncs⟩, hg⟩ := hloop { gv1 with security_garbage := l1 ++ l2 } epx
      refine ⟨log_calls (cleanup_loop pp.guid sa.crypto_handle
          { gv1 with security_garbage := l1 ++ l2 } sa.proxy_participants)
          [plugin_call.unregister_participant sa.crypto_handle],
        cs ++ [plugin_call.unregister_participant sa.crypto_handle], ?_, ?_, ?_, ?_⟩
      · unfold cleanup_participant_crypto_handle
        rw [eg, hrm]
      · simp only [log_calls]
        rw [hcs, List.append_assoc]
      · rw [List.count_append, List.count_eq_zero_of_not_mem hncs]
        simp
      · simp only [log_calls]
        rw [hg, hs1]

/-- C17 at the concrete pair: the participant with crypto handle 5 is deregistered in a state
without pending cleanup; the record is added, the callback for 5 is scheduled, and only the
callback unregisters 5. -/
theorem deregister_participant_defers_unregister_witness :
    ∃ gv1 cs1, q_omg_security_deregister_participant gv_one_pair guid_L = some gv1 ∧
      (∃ l1 l2, gv_one_pair.security_garbage = l1 ++ l2 ∧
        gv1.security_garbage = l1 ++ ⟨pp_plain.guid, sec_attr_plain⟩ :: l2) ∧
      gv1.xevents = gv_one_pair.xevents ++ [5] ∧
      gv1.plugin_calls = gv_one_pair.plugin_calls ++ cs1 ∧
      plugin_call.unregister_participant 5 ∉ cs1 ∧
      ∃ gv2 cs2, cleanup_participant_crypto_handle gv1 5 = some gv2 ∧
        gv2.plugin_calls = gv1.plugin_calls ++ cs2 ∧
        cs2.count (plugin_call.unregister_participant 5) = 1 ∧
        gv2.security_garbage = gv_one_pair.security_garbage :=
  deregister_participant_defers_unregister gv_one_pair guid_L pp_plain sec_attr_plain rfl
    (by decide) rfl (by decide)
    (by simp [gv_one_pair])
    (by
      intro g px ps pm h1 h2 h3
      simp only [gv_one_pair] at h1
      split_ifs at h1
      simp only [Option.some.injEq] at h1
      subst h1
      simp only [proxypp_no_info, Option.some.injEq] at h2
      subst h2
      simp at h3)

/-! ### Serializer instruction words (C23) -/

set_option maxRecDepth 100000 in
/-- The opcode field under the five masks. -/
theorem opcode_field_masks : ∀ a < 256,
    (a <<< 24) &&& DDS_OP_MASK = a <<< 24 ∧ (a <<< 24) &&& DDS_OP_TYPE_FLAGS_MASK = 0 ∧
    (a <<< 24) &&& DDS_OP_TYPE_MASK = 0 ∧ (a <<< 24) &&& DDS_OP_SUBTYPE_MASK = 0 ∧
    (a <<< 24) &&& DDS_OP_FLAGS_MASK = 0 := by
  decide

set_option maxRecDepth 100000 in
/-- The type field under the five masks. -/
theorem type_field_masks : ∀ t < 128,
    (t <<< 16) &&& DDS_OP_MASK = 0 ∧ (t <<< 16) &&& DDS_OP_TYPE_FLAGS_MASK = 0 ∧
    (t <<< 16) &&& DDS_OP_TYPE_MASK = t <<< 16 ∧ (t <<< 16) &&& DDS_OP_SUBTYPE_MASK = 0 ∧
    (t <<< 16) &&& DDS_OP_FLAGS_MASK = 0 ∧ (t <<< 16) >>> 16 = t := by
  decide

set_option maxRecDepth 100000 in
/-- The subtype field under the five masks. -/
theorem subtype_field_masks : ∀ s < 256,
    (s <<< 8) &&& DDS_OP_MASK = 0 ∧ (s <<< 8) &&& DDS_OP_TYPE_FLAGS_MASK = 0 ∧
    (s <<< 8) &&& DDS_OP_TYPE_MASK = 0 ∧ (s <<< 8) &&& DDS_OP_SUBTYPE_MASK = s <<< 8 ∧
    (s <<< 8) &&& DDS_OP_FLAGS_MASK = 0 ∧ (s <<< 8) >>> 8 = s := by
  decide

set_option maxRecDepth 100000 in
/-- The flags field under the five masks. -/
theorem flags_field_masks : ∀ f < 256,
    f &&& DDS_OP_MASK = 0 ∧ f &&& DDS_OP_TYPE_FLAGS_MASK = 0 ∧ f &&& DDS_OP_TYPE_MASK = 0 ∧
    f &&& DDS_OP_SUBTYPE_MASK = 0 ∧ f &&& DDS_OP_FLAGS_MASK = f := by
  decide

/-- The external flag under the five masks. -/
theorem ext_flag_masks (e : Nat) (he : e = 0 ∨ e = DDS_OP_FLAG_EXT) :
    e &&& DDS_OP_MASK = 0 ∧ e &&& DDS_OP_TYPE_FLAGS_MASK = e ∧ e &&& DDS_OP_TYPE_MASK = 0 ∧
    e &&& DDS_OP_SUBTYPE_MASK = 0 ∧ e &&& DDS_OP_FLAGS_MASK = 0 := by
  rcases he with rfl | rfl <;> decide

/-- C23: an instruction word assembled from an opcode (a multiple of 2^24 below 2^32), an
external flag (0 or DDS_OP_FLAG_EXT), a type code below 128, a subtype code below 256 and
flags below 256 gives each part back through DDS_OP, DDS_OP_TYPE_FLAGS, DDS_OP_TYPE,
DDS_OP_SUBTYPE and DDS_OP_FLAGS; the five masks are pairwise disjoint and cover all 32
bits. -/
theorem instruction_word_fields (op e t s f : Nat)
    (hop : op % 2 ^ 24 = 0) (hop32 : op < 2 ^ 32) (he : e = 0 ∨ e = DDS_OP_FLAG_EXT)
    (ht : t < 128) (hs : s < 256) (hf : f < 256) :
    (DDS_OP (op ||| e ||| (t <<< 16) ||| (s <<< 8) ||| f) = op ∧
     DDS_OP_TYPE_FLAGS (op ||| e ||| (t <<< 16) ||| (s <<< 8) ||| f) = e ∧
     DDS_OP_TYPE (op ||| e ||| (t <<< 16) ||| (s <<< 8) ||| f) = t ∧
     DDS_OP_SUBTYPE (op ||| e ||| (t <<< 16) ||| (s <<< 8) ||| f) = s ∧
     DDS_OP_FLAGS (op ||| e ||| (t <<< 16) ||| (s <<< 8) ||| f) = f) ∧
    (DDS_OP_MASK &&& DDS_OP_TYPE_FLAGS_MASK = 0 ∧ DDS_OP_MASK &&& DDS_OP_TYPE_MASK = 0 ∧
     DDS_OP_MASK &&& DDS_OP_SUBTYPE_MASK = 0 ∧ DDS_OP_MASK &&& DDS_OP_FLAGS_MASK = 0 ∧
     DDS_OP_TYPE_FLAGS_MASK &&& DDS_OP_TYPE_MASK = 0 ∧
     DDS_OP_TYPE_FLAGS_MASK &&& DDS_OP_SUBTYPE_MASK = 0 ∧
     DDS_OP_TYPE_FLAGS_MASK &&& DDS_OP_FLAGS_MASK = 0 ∧
     DDS_OP_TYPE_MASK &&& DDS_OP_SUBTYPE_MASK = 0 ∧ DDS_OP_TYPE_MASK &&& DDS_OP_FLAGS_MASK = 0 ∧
     DDS_OP_SUBTYPE_MASK &&& DDS_OP_FLAGS_MASK = 0 ∧
     DDS_OP_MASK ||| DDS_OP_TYPE_FLAGS_MASK ||| DDS_OP_TYPE_MASK ||| DDS_OP_SUBTYPE_MASK
       ||| DDS_OP_FLAGS_MASK = 0xffffffff) := by
  have hopa : op = (op / 2 ^ 24) <<< 24 := by
    rw [Nat.shiftLeft_eq]
    omega
  have ha : op / 2 ^ 24 < 256 := by omega
  obtain ⟨a1, a2, a3, a4, a5⟩ := opcode_field_masks (op / 2 ^ 24) ha
  rw [← hopa] at a1 a2 a3 a4 a5
  obtain ⟨e1, e2, e3, e4, e5⟩ := ext_flag_masks e he
  obtain ⟨t1, t2, t3, t4, t5, t6⟩ := type_field_masks t ht
  obtain ⟨s1, s2, s3, s4, s5, s6⟩ := subtype_field_masks s hs
  obtain ⟨f1, f2, f3, f4, f5⟩ := flags_field_masks f hf
  refine ⟨⟨?_, ?_, ?_, ?_, ?_⟩, by decide⟩
  · simp only [DDS_OP, Nat.and_distrib_right, a1, e1, t1, s1, f1, Nat.or_zero]
  · simp only [DDS_OP_TYPE_FLAGS, Nat.and_distrib_right, a2, e2, t2, s2, f2, Nat.or_zero,
      Nat.zero_or]
  · simp only [DDS_OP_TYPE, Nat.and_distrib_right, a3, e3, t3, s3, f3, Nat.or_zero,
      Nat.zero_or, t6]
  · simp only [DDS_OP_SUBTYPE, Nat.and_distrib_right, a4, e4, t4, s4, f4, Nat.or_zero,
      Nat.zero_or, s6]
  · simp only [DDS_OP_FLAGS, Nat.and_distrib_right, a5, e5, t5, s5, f5, Nat.zero_or]

/-- C23 at a concrete word: opcode 0x01000000, external flag set, type 7, subtype 9,
flags 3. -/
theorem instruction_word_fields_witness :
    DDS_OP (0x01000000 ||| DDS_OP_FLAG_EXT ||| (7 <<< 16) ||| (9 <<< 8) ||| 3) = 0x01000000 ∧
    DDS_OP_TYPE_FLAGS (0x01000000 ||| DDS_OP_FLAG_EXT ||| (7 <<< 16) ||| (9 <<< 8) ||| 3)
      = DDS_OP_FLAG_EXT ∧
    DDS_OP_TYPE (0x01000000 ||| DDS_OP_FLAG_EXT ||| (7 <<< 16) ||| (9 <<< 8) ||| 3) = 7 ∧
    DDS_OP_SUBTYPE (0x01000000 ||| DDS_OP_FLAG_EXT ||| (7 <<< 16) ||| (9 <<< 8) ||| 3) = 9 ∧
    DDS_OP_FLAGS (0x01000000 ||| DDS_OP_FLAG_EXT ||| (7 <<< 16) ||| (9 <<< 8) ||| 3) = 3 :=
  (instruction_word_fields 0x01000000 DDS_OP_FLAG_EXT 7 9 3 (by decide) (by decide)
    (Or.inr rfl) (by decide) (by decide) (by decide)).1

/-! ### Submessage validation (C24, C27) -/

/-- C24: with end not before submsg, validate_submsg returns -1 if fewer than 4 bytes remain,
or if the submessage id of the header differs from smid while smid is not SMID_PAD, or if
4 plus the 16-bit length of the header (byte-swapped when byteswap is set) exceeds
end - submsg; otherwise it returns 4 plus that length.  A non-negative result r satisfies
4 <= r <= end - submsg, so the submessage ends at or before end. -/
theorem validate_submsg_spec (le : Bool) (smid : Nat) (m : Mem) (submsg end_ : Nat)
    (byteswap : Bool) (h : submsg ≤ end_) :
    (validate_submsg le smid m submsg end_ byteswap =
      if end_ - submsg < 4 ∨ (load_u8 m submsg ≠ smid ∧ smid ≠ SMID_PAD) ∨
          end_ - submsg < 4 + (if byteswap then ddsrt_bswap2u (load_u16 le m (submsg + 2))
            else load_u16 le m (submsg + 2))
      then -1
      else ((4 + (if byteswap then ddsrt_bswap2u (load_u16 le m (submsg + 2))
            else load_u16 le m (submsg + 2)) : Nat) : Int)) ∧
    (0 ≤ validate_submsg le smid m submsg end_ byteswap →
      4 ≤ validate_submsg le smid m submsg end_ byteswap ∧
      validate_submsg le smid m submsg end_ byteswap ≤ ((end_ - submsg : Nat) : Int) ∧
      (submsg : Int) + validate_submsg le smid m submsg end_ byteswap ≤ end_) := by
  have hl := load_u16_lt le m (submsg + 2)
  have hb := ddsrt_bswap2u_lt (load_u16 le m (submsg + 2))
  constructor
  · unfold validate_submsg
    simp only [RTPS_SUBMESSAGE_HEADER_SIZE]
    cases byteswap <;> simp only [Bool.false_eq_true, if_false, if_true] <;>
      split_ifs <;> first | rfl | omega
  · intro h0
    unfold validate_submsg at h0 ⊢
    simp only [RTPS_SUBMESSAGE_HEADER_SIZE] at h0 ⊢
    split_ifs at h0 ⊢ <;> simp_all <;> omega

/-- C24 at the concrete fragment: the SEC_BODY at address 4 has length 4, so 8 is returned
when 12 bytes remain, and -1 when only 7 remain or when a SEC_POSTFIX is expected. -/
theorem validate_submsg_spec_witness :
    (4 : Nat) ≤ 16 ∧
    validate_submsg true SMID_SEC_BODY triplet_mem 4 16 false = 8 ∧
    validate_submsg true SMID_SEC_BODY triplet_mem 4 11 false = -1 ∧
    validate_submsg true SMID_SEC_POSTFIX triplet_mem 4 16 false = -1 ∧
    (4 : Int) + validate_submsg true SMID_SEC_BODY triplet_mem 4 16 false ≤ 16 :=
  ⟨by decide, by decide, by decide, by decide,
   ((validate_submsg_spec true SMID_SEC_BODY triplet_mem 4 16 false (by decide)).2
      (by decide)).2.2⟩

/-- C27, evaluation at the failing input: the SEC_BODY (65539 bytes) and the SEC_POSTFIX
(4 bytes) both pass validate_submsg.  When the decode fails, padding_submsg is called on the
region of 65543 bytes from the body to the end of the postfix, more than UINT16_MAX + 4; it
returns 65543 and the PAD header written holds the length 3, so that validate_submsg on it
gives 7.  When the decode succeeds with a plaintext of 2 bytes, the region is 65541 bytes
and the PAD header holds the length 1. -/
theorem padding_region_exceeds_assertion :
    validate_submsg true SMID_PAD oversize_mem 4 65547 false = 65539 ∧
    validate_submsg true SMID_SEC_POSTFIX oversize_mem 65543 65547 false = 4 ∧
    (padding_submsg true oversize_mem 4 65547 false).1 = 65543 ∧
    UINT16_MAX + RTPS_SUBMESSAGE_HEADER_SIZE < 65547 - 4 ∧
    (decode_SecPrefix_patched_hdr_flags true failing_decode oversize_mem 0 4 65547 false).map
        (fun r => (r.1, load_u16 true r.2 6,
          validate_submsg true SMID_PAD r.2 4 65547 false)) = some (true, 3, 7) ∧
    (padding_submsg true (mem_write oversize_mem 4 [7, 7]) 6 65547 false).1 = 65541 ∧
    (decode_SecPrefix_patched_hdr_flags true (plain_decode 2) oversize_mem 0 4 65547 false).map
        (fun r => (r.1, load_u16 true r.2 8,
          validate_submsg true SMID_PAD r.2 6 65547 false)) = some (true, 1, 5) := by
  decide

/-! ### Payload encoding (C21) -/

/-- C21: the three outcomes of encode_payload.  For a writer that is not payload-protected
it returns true with *buf = NULL and the iovec element as it was.  For a payload-protected
writer (loaded context, payload of at most UINT32_MAX bytes): if the plugin produces the
encoded buffer e, it returns true with the iovec element holding e and *buf = e; if the
plugin fails, it returns false with *buf = NULL and the iovec element as it was. -/
theorem encode_payload_outcomes (gv : ddsi_domaingv) (wr : writer) (vec : List Nat)
    (enc : Int → List Nat → Option (List Nat)) :
    (q_omg_writer_is_payload_protected wr = false →
      encode_payload gv wr vec enc = some (true, vec, none)) ∧
    (∀ wsa pp, wr.sec_attr = some wsa → wsa.attr.is_payload_protected = true →
      gv.security_loaded = true → gv.participants wr.pp = some pp →
      vec.length ≤ 4294967295 →
      q_omg_writer_is_payload_protected wr = true ∧
      (∀ e, enc wsa.crypto_handle vec = some e →
        encode_payload gv wr vec enc = some (true, e, some e)) ∧
      (enc wsa.crypto_handle vec = none →
        encode_payload gv wr vec enc = some (false, vec, none))) := by
  constructor
  · intro hnp
    unfold encode_payload
    simp only [hnp, Bool.not_false, if_true]
  · intro wsa pp hwsa hwp hloaded hwpp h32
    refine ⟨?_, ?_, ?_⟩
    · unfold q_omg_writer_is_payload_protected
      rw [hwsa]
      exact hwp
    · intro e henc
      exact encode_payload_protected gv wr wsa pp enc vec e hloaded hwsa hwp hwpp henc h32
    · intro henc
      have hq : q_omg_security_encode_serialized_payload gv wr vec enc = some (false, []) := by
        unfold q_omg_security_encode_serialized_payload
        rw [if_neg (by omega), hwsa]
        simp only [hwp, hwpp, hloaded, henc, Bool.not_true, Bool.false_eq_true, if_false]
      unfold encode_payload q_omg_writer_is_payload_protected
      rw [hwsa]
      simp only [hwp, hq, Bool.not_true, Bool.false_eq_true, if_false]

/-- C21 at concrete writers: an unprotected writer, a protected writer with the framing
plugin, and a protected writer with a plugin that fails. -/
theorem encode_payload_outcomes_witness :
    encode_payload gv_pwr_known wr_unprotected [1, 2, 3] framing_encode
      = some (true, [1, 2, 3], none) ∧
    encode_payload gv_pwr_known wr_payload [1, 2, 3] framing_encode
      = some (true, [0x5e, 0xc0, 1, 2, 3], some [0x5e, 0xc0, 1, 2, 3]) ∧
    encode_payload gv_pwr_known wr_payload [1, 2, 3] (fun _ _ => none)
      = some (false, [1, 2, 3], none) :=
  ⟨(encode_payload_outcomes gv_pwr_known wr_unprotected [1, 2, 3] framing_encode).1 rfl,
   ((encode_payload_outcomes gv_pwr_known wr_payload [1, 2, 3] framing_encode).2
      ⟨attr_payload, 22, false⟩ pp_plain rfl rfl rfl (by decide) (by decide)).2.1
      [0x5e, 0xc0, 1, 2, 3] (by decide),
   ((encode_payload_outcomes gv_pwr_known wr_payload [1, 2, 3] (fun _ _ => none)).2
      ⟨attr_payload, 22, false⟩ pp_plain rfl rfl rfl (by decide) (by decide)).2.2 rfl⟩

/-! ### RTPS message decoding (C22) -/

/-- C22, evaluation at the failing input, for every value of the receiver-sign error code:
the proxy participant has two ParticipantMatch entries; the plugin decodes the message for
the first entry (plaintext [1, 2, 3]).  If it fails for the second entry with another code,
q_omg_security_decode_rtps_message returns false; if it succeeds for the second entry with
the plaintext [4, 5, 6], the function hands out [4, 5, 6]. -/
theorem decode_rtps_message_continues_after_success (sign_code : Int) :
    q_omg_security_decode_rtps_message gv_one_pair proxypp_two_matches sign_code [0]
        (fun _ pp_crypto _ =>
          if pp_crypto = 5 then ⟨true, some [1, 2, 3], 0⟩ else ⟨false, none, sign_code + 1⟩)
      = some (false, some [1, 2, 3]) ∧
    q_omg_security_decode_rtps_message gv_one_pair proxypp_two_matches sign_code [0]
        (fun _ pp_crypto _ =>
          if pp_crypto = 5 then ⟨true, some [1, 2, 3], 0⟩ else ⟨true, some [4, 5, 6], 0⟩)
      = some (true, some [4, 5, 6]) := by
  constructor <;>
    simp [q_omg_security_decode_rtps_message, proxypp_two_matches, decode_rtps_message_loop,
      gv_one_pair]

/-! ### Remote endpoint permissions (C25) -/

/-- C25, evaluation at the failing input: the ParticipantMatch of the registered pair carries
the permissions handle 17, which the plugin accepts; q_omg_security_check_remote_writer_permissions
returns false without a plugin call.  Without a ParticipantMatch (handle 0) it calls
check_remote_datawriter with the handle 0 and returns the verdict.
q_omg_security_check_remote_reader_permissions does the same. -/
theorem check_remote_permissions_test_inverted :
    (gv_registered.participants guid_L).bind (fun pp =>
      (gv_registered.proxy_participants guid_R).bind (fun px => get_permissions_handle pp px))
      = some 17 ∧
    q_omg_security_check_remote_writer_permissions gv_registered pwr_write_protected guid_L
        (fun h => decide (h = 17)) = some (false, []) ∧
    (gv_one_pair.participants guid_L).bind (fun pp =>
      (gv_one_pair.proxy_participants guid_R).bind (fun px => get_permissions_handle pp px))
      = some 0 ∧
    q_omg_security_check_remote_writer_permissions gv_one_pair pwr_write_protected guid_L
        (fun _ => true) = some (true, [plugin_call.check_remote_datawriter 0]) ∧
    q_omg_security_check_remote_reader_permissions gv_registered prd_read_protected guid_L
        (fun h => decide (h = 17)) = some (false, []) ∧
    q_omg_security_check_remote_reader_permissions gv_one_pair prd_read_protected guid_L
        (fun _ => true) = some (true, [plugin_call.check_remote_datareader 0]) := by
  decide

/-! ### Rejected registration of a remote participant (C26) -/

/-- C26, counterexample: tokens of the proxy participant are pending and the plugin rejects
them during the registration.  q_omg_security_register_remote_participant returns false,
yet the ParticipantMatch set of the proxy participant and the set of the local participant,
both empty before the call, hold the new match, and the proxy participant counts as
authenticated. -/
theorem register_remote_participant_false_keeps_match :
    ((gv_tokens_pending.proxy_participants guid_R).bind (fun px => px.sec_attr) = some ⟨[]⟩) ∧
    (((gv_tokens_pending.participants guid_L).bind (fun pp => pp.sec_attr)).map
      (fun sa => sa.proxy_participants) = some []) ∧
    ((q_omg_security_register_remote_participant gv_tokens_pending guid_L guid_R 11 13
        answers_tokens_rejected).map
      (fun r => (r.1, (r.2.proxy_participants guid_R).bind (fun px => px.sec_attr),
        ((r.2.participants guid_L).bind (fun pp => pp.sec_attr)).map
          (fun sa => sa.proxy_participants),
        (r.2.proxy_participants guid_R).map proxypp_is_authenticated))
      = some (false, some ⟨[⟨guid_L, 11, 5, 7, 17, 13⟩]⟩, some [⟨guid_R, 7⟩], some true)) := by
  decide

/-- What match_proxypp_pp leaves behind: the new ParticipantMatch in the set of the proxy
participant and the new element in the set of the local participant. -/
theorem match_proxypp_pp_adds (gv gv4 : ddsi_domaingv) (pp : participant)
    (proxypp : proxy_participant) (sa : participant_sec_attributes)
    (idh crypto perm ss : Int) (hsa : pp.sec_attr = some sa)
    (h : match_proxypp_pp gv pp proxypp idh crypto perm ss = some gv4) :
    ∃ px1 ps1 pp1 sa1,
      gv4.proxy_participants proxypp.guid = some px1 ∧ px1.sec_attr = some ps1 ∧
      proxypp_pp_match_new pp sa.crypto_handle idh crypto perm ss ∈ ps1.participants ∧
      proxypp_is_authenticated px1 = true ∧
      gv4.participants pp.guid = some pp1 ∧ pp1.sec_attr = some sa1 ∧
      pp_proxypp_match_new proxypp crypto ∈ sa1.proxy_participants ∧
      gv4.security_matches = gv.security_matches ∧ gv4.plugin_calls = gv.plugin_calls := by
  unfold match_proxypp_pp at h
  rw [hsa] at h
  cases hps : proxypp.sec_attr with
  | none => rw [hps] at h; exact absurd h (by simp)
  | some ps =>
    rw [hps] at h
    dsimp only at h
    cases h1 : avl_insert compare_crypto_handle (fun pm : proxypp_pp_match => pm.pp_crypto_handle)
        ps.participants (proxypp_pp_match_new pp sa.crypto_handle idh crypto perm ss) with
    | none => rw [h1] at h; exact absurd h (by simp)
    | some t1 =>
      rw [h1] at h
      dsimp only at h
      cases h2 : avl_insert compare_guid (fun pm : pp_proxypp_match => pm.proxypp_guid)
          sa.proxy_participants (pp_proxypp_match_new proxypp crypto) with
      | none => rw [h2] at h; exact absurd h (by simp)
      | some t2 =>
        rw [h2] at h
        simp only [Option.some.injEq] at h
        subst h
        have m1 := (mem_avl_insert _ _ _ _ _ h1
          (proxypp_pp_match_new pp sa.crypto_handle idh crypto perm ss)).2 (Or.inl rfl)
        have m2 := (mem_avl_insert _ _ _ _ _ h2 (pp_proxypp_match_new proxypp crypto)).2
          (Or.inl rfl)
        refine ⟨⟨proxypp.guid, proxypp.security_info, some ⟨t1⟩⟩, ⟨t1⟩,
          ⟨pp.guid, some ⟨sa.attr, sa.crypto_handle, sa.plugin_attr, t2⟩, pp.permissions_handle,
            pp.local_identity_handle⟩,
          ⟨sa.attr, sa.crypto_handle, sa.plugin_attr, t2⟩, ?_, rfl, m1, ?_, ?_, rfl, m2, rfl, rfl⟩
        · simp [set_participant, set_proxy_participant]
        · unfold proxypp_is_authenticated
          cases t1 with
          | nil => simp at m1
          | cons a l => rfl
        · simp [set_participant, set_proxy_participant]

/-- C26 amended: when q_omg_security_register_remote_participant returns false because the
permission check gave no permissions handle or register_matched_remote_participant gave the
nil handle, the participant objects (with their match sets) and the entity match table are
as before the call.  Otherwise it returned false because the plugin rejected pending tokens:
then the ParticipantMatch of the pair is in the set of the proxy participant, which counts
as authenticated, and the element for the proxy participant is in the set of the local
participant. -/
theorem register_remote_participant_rejection (gv gv1 : ddsi_domaingv)
    (pp_ptr proxypp_ptr : ddsi_guid_t) (pp : participant) (proxypp : proxy_participant)
    (idh ss : Int) (ans : register_answers)
    (hpp : gv.participants pp_ptr = some pp)
    (hpx : gv.proxy_participants proxypp_ptr = some proxypp)
    (hgp : pp.guid = pp_ptr) (hgx : proxypp.guid = proxypp_ptr)
    (hres : q_omg_security_register_remote_participant gv pp_ptr proxypp_ptr idh ss ans
      = some (false, gv1)) :
    ((check_remote_participant_permissions pp idh ans).1 = 0 ∨
        ans.register_matched_remote_participant = DDS_SECURITY_HANDLE_NIL →
      gv1.participants = gv.participants ∧ gv1.proxy_participants = gv.proxy_participants ∧
      gv1.security_matches = gv.security_matches) ∧
    ((check_remote_participant_permissions pp idh ans).1 ≠ 0 →
        ans.register_matched_remote_participant ≠ DDS_SECURITY_HANDLE_NIL →
      ans.set_remote_participant_crypto_tokens = false ∧
      ∃ sa px1 ps1 pp1 sa1,
        pp.sec_attr = some sa ∧
        gv1.proxy_participants proxypp_ptr = some px1 ∧ px1.sec_attr = some ps1 ∧
        proxypp_pp_match_new pp sa.crypto_handle idh ans.register_matched_remote_participant
          (check_remote_participant_permissions pp idh ans).1 ss ∈ ps1.participants ∧
        proxypp_is_authenticated px1 = true ∧
        gv1.participants pp_ptr = some pp1 ∧ pp1.sec_attr = some sa1 ∧
        pp_proxypp_match_new proxypp ans.register_matched_remote_participant
          ∈ sa1.proxy_participants) := by
  unfold q_omg_security_register_remote_participant at hres
  simp only [hpp, hpx] at hres
  by_cases h0 : (ans.handshake && !gv.security_loaded) = true
  · rw [if_pos h0] at hres
    exact absurd hres (by simp)
  rw [if_neg h0] at hres
  by_cases h1 : (check_remote_participant_permissions pp idh ans).1 = 0
  · rw [if_pos h1] at hres
    simp only [Option.some.injEq, Prod.mk.injEq, true_and] at hres
    subst hres
    exact ⟨fun _ => ⟨rfl, rfl, rfl⟩, fun hne => absurd h1 hne⟩
  rw [if_neg h1] at hres
  cases hsa : pp.sec_attr with
  | none => rw [hsa] at hres; exact absurd hres (by simp)
  | some sa =>
    rw [hsa] at hres
    dsimp only at hres
    by_cases h2 : ans.register_matched_remote_participant = DDS_SECURITY_HANDLE_NIL
    · rw [if_pos h2] at hres
      simp only [Option.some.injEq, Prod.mk.injEq, true_and] at hres
      subst hres
      exact ⟨fun _ => ⟨rfl, rfl, rfl⟩, fun _ hne => absurd h2 hne⟩
    rw [if_neg h2] at hres
    refine ⟨fun hor => (hor.elim (fun h => absurd h h1) (fun h => absurd h h2)), ?_⟩
    intro _ _
    split at hres
    · exact absurd hres (by simp)
    · rename_i gv4 hm
      obtain ⟨px1, ps1, pp1, sa1, e1, e2, e3, e4, e5, e6, e7, -, -⟩ :=
        match_proxypp_pp_adds _ gv4 pp proxypp sa idh ans.register_matched_remote_participant
          (check_remote_participant_permissions pp idh ans).1 ss hsa hm
      rw [hgx] at e1
      rw [hgp] at e5
      split at hres
      · by_cases h3 : ans.set_remote_participant_crypto_tokens = true
        · rw [if_pos h3] at hres
          simp at hres
        · rw [if_neg h3] at hres
          simp only [Option.some.injEq, Prod.mk.injEq, true_and] at hres
          subst hres
          refine ⟨by simpa using h3, sa, px1, ps1, pp1, sa1, rfl, ?_, e2, e3, e4, ?_, e6, e7⟩
          · simpa [log_calls] using e1
          · simpa [log_calls] using e5
      · simp at hres

/-- C26 amended at the concrete pair: the registration with pending tokens that the plugin
rejects returns false, and the proxy participant has the match afterwards. -/
theorem register_remote_participant_rejection_witness :
    q_omg_security_register_remote_participant gv_tokens_pending guid_L guid_R 11 13
      answers_tokens_rejected = some (false, gv_rejected) ∧
    answers_tokens_rejected.set_remote_participant_crypto_tokens = false ∧
    (gv_rejected.proxy_participants guid_R).map proxypp_is_authenticated = some true :=
  ⟨rfl,
   ((register_remote_participant_rejection gv_tokens_pending gv_rejected guid_L guid_R pp_plain
      proxypp_no_info 11 13 answers_tokens_rejected (by decide) (by decide) rfl rfl rfl).2
      (by decide) (by decide)).1,
   by decide⟩

/-! ### Authentication plugin utilities (C28, C29, C30) -/

/-- C28, evaluation at the failing inputs: when X509_STORE_new, X509_STORE_add_cert,
X509_STORE_CTX_new or X509_STORE_CTX_init fails, verify_certificate sets an exception and
returns DDS_SECURITY_VALIDATION_OK without calling X509_verify_cert; when X509_verify_cert
runs and does not return 1 it returns DDS_SECURITY_VALIDATION_FAILED. -/
theorem verify_certificate_setup_failure_returns_ok :
    verify_certificate ⟨false, 1, true, 1, 1⟩
      = (.DDS_SECURITY_VALIDATION_OK, some .DDS_SECURITY_ERR_UNDEFINED_CODE,
         [.X509_STORE_new]) ∧
    verify_certificate ⟨true, 0, true, 1, 1⟩
      = (.DDS_SECURITY_VALIDATION_OK, some .DDS_SECURITY_ERR_UNDEFINED_CODE,
         [.X509_STORE_new, .X509_STORE_add_cert, .X509_STORE_free]) ∧
    verify_certificate ⟨true, 1, false, 1, 1⟩
      = (.DDS_SECURITY_VALIDATION_OK, some .DDS_SECURITY_ERR_UNDEFINED_CODE,
         [.X509_STORE_new, .X509_STORE_add_cert, .X509_STORE_CTX_new, .X509_STORE_free]) ∧
    verify_certificate ⟨true, 1, true, 0, 1⟩
      = (.DDS_SECURITY_VALIDATION_OK, some .DDS_SECURITY_ERR_UNDEFINED_CODE,
         [.X509_STORE_new, .X509_STORE_add_cert, .X509_STORE_CTX_new, .X509_STORE_CTX_init,
          .X509_STORE_CTX_free, .X509_STORE_free]) ∧
    (verify_certificate ⟨true, 1, true, 1, 0⟩).1 = .DDS_SECURITY_VALIDATION_FAILED := by
  decide

/-- C29, evaluation at the failing inputs: for a certificate whose notAfter time has passed
(X509_cmp_current_time gives -1 for it) and for a certificate whose notBefore time is still
to come (X509_cmp_current_time gives 1 for it) check_certificate_expiry returns
DDS_SECURITY_VALIDATION_OK and sets no exception; it fails only when X509_cmp_current_time
returns 0. -/
theorem check_certificate_expiry_accepts_expired :
    check_certificate_expiry (-1) (-1) = (.DDS_SECURITY_VALIDATION_OK, none) ∧
    check_certificate_expiry 1 1 = (.DDS_SECURITY_VALIDATION_OK, none) ∧
    check_certificate_expiry 1 (-1) = (.DDS_SECURITY_VALIDATION_OK, none) ∧
    check_certificate_expiry 0 1
      = (.DDS_SECURITY_VALIDATION_FAILED,
         some .DDS_SECURITY_ERR_CERT_STARTDATE_IN_FUTURE_CODE) ∧
    check_certificate_expiry (-1) 0
      = (.DDS_SECURITY_VALIDATION_FAILED, some .DDS_SECURITY_ERR_CERT_EXPIRED_CODE) := by
  decide

set_option maxRecDepth 100000 in
/-- C30, evaluation at the failing input: a directory with 101 entries that load as valid
certificates.  The loop of get_trusted_ca_list writes ca_buffer_array at the index 100,
which is MAX_TRUSTED_CA, outside the array; with 100 such entries the writes stay inside and
the list returned has 100 certificates. -/
theorem get_trusted_ca_list_writes_past_buffer :
    (get_trusted_ca_list_writes (List.replicate 101 dirent_valid) 0).getLast? = some 100 ∧
    MAX_TRUSTED_CA = 100 ∧
    get_trusted_ca_list true (List.replicate 101 dirent_valid) [] = none ∧
    (get_trusted_ca_list true (List.replicate 100 dirent_valid) []).map
      (fun r => (r.1, r.2.1.length)) = some (.DDS_SECURITY_VALIDATION_OK, 100) := by
  decide

end DDSSecurity
